import Mathlib

/-!
Shallow embedding of the zedrouter AppNetwork reconciler
(`handleCreate` / `handleModify` / `handleDelete` and their pubsub wrappers)
from the repository source, together with theorems settling the frozen claims.

The pubsub publications are modelled as association lists keyed by strings,
host-networking and configlet shell-outs as an explicit effect trace, and the
handful of helper functions whose defining files are not part of this
repository slice (allocators, lookups, the ACL/ipset reconcilers) are modelled
from the specification, each marked by a doc comment.
-/

namespace Zedrouter

/-- Association-list lookup; models `pubsub.Publication.Get` on a keyed map. -/
def lookupKV {α : Type} (l : List (String × α)) (k : String) : Option α :=
  match l with
  | [] => none
  | (k2, v) :: rest => if k2 = k then some v else lookupKV rest k

/-- Remove every binding of a key; models `pubsub.Publication.Unpublish`. -/
def eraseKey {α : Type} (l : List (String × α)) (k : String) : List (String × α) :=
  l.filter (fun p => decide (p.1 ≠ k))

/-- Replace-or-insert a binding; models `pubsub.Publication.Publish`. -/
def upsert {α : Type} (l : List (String × α)) (k : String) (v : α) : List (String × α) :=
  (k, v) :: eraseKey l k

/-- One declarative ACL rule (`types.ACE`).  The `types` package is outside this
repository slice; per the spec an ACE carries matchers that may reference DNS
names (collected by the ipset compiler) plus the rest of the rule, which we
keep opaque as `body`. -/
structure ACE where
  dnsNames : List String
  body : String
deriving DecidableEq, Inhabited

/-- `types.AdditionalInfoDevice` (fields the source reads: UnderlayIP, Hostname). -/
structure AdditionalInfoDevice where
  underlayIP : String
  hostname : String
deriving DecidableEq, Inhabited

/-- `types.AdditionalInfoApp` as filled in by `generateAdditionalInfo`. -/
structure AdditionalInfoApp where
  deviceEID : String
  deviceIID : Nat
  displayName : String
  underlayIP : String
  hostname : String
deriving DecidableEq, Inhabited

/-- The JSON document produced by `generateAdditionalInfo`, kept structured:
either empty, the device info verbatim, or the per-app record. -/
inductive AdditionalInfo where
  | empty : AdditionalInfo
  | device (d : AdditionalInfoDevice) : AdditionalInfo
  | app (a : AdditionalInfoApp) : AdditionalInfo
deriving DecidableEq, Inhabited

/-- `types.OverlayNetworkConfig` (the fields this source file reads). -/
structure OverlayNetworkConfig where
  network : String
  eid : String
  appMacAddr : Option String
  acls : List ACE
  mgmtIID : Nat
  mgmtMapServers : List String
  mgmtDnsNameToIPList : List String
  lispSignature : String
  additionalInfoDevice : Option AdditionalInfoDevice
deriving DecidableEq, Inhabited

/-- `types.UnderlayNetworkConfig` (the fields this source file reads). -/
structure UnderlayNetworkConfig where
  network : String
  appMacAddr : Option String
  appIPAddr : Option String
  acls : List ACE
deriving DecidableEq, Inhabited

/-- `types.OverlayNetworkStatus`: the embedded config plus the binding fields
`handleCreate` fills in (Bridge, BridgeMac, Vif, Mac, HostName, BridgeIPAddr). -/
structure OverlayNetworkStatus where
  cfg : OverlayNetworkConfig
  bridge : String
  bridgeMac : String
  vif : String
  mac : String
  hostName : String
  bridgeIPAddr : String
deriving DecidableEq, Inhabited

/-- `types.UnderlayNetworkStatus`: embedded config plus binding fields. -/
structure UnderlayNetworkStatus where
  cfg : UnderlayNetworkConfig
  bridge : String
  bridgeMac : String
  vif : String
  mac : String
  hostName : String
  bridgeIPAddr : String
  assignedIPAddr : String
deriving DecidableEq, Inhabited

/-- `types.NetworkObjectConfig`: consumed only as an opaque argument of the
dnsmasq configlet writer, so modelled as an opaque payload. -/
structure NetworkObjectConfig where
  body : String
deriving DecidableEq, Inhabited

/-- `types.NetworkObjectStatus` (the fields this source file reads), extended
with the MAC-keyed address table and pool the spec ascribes to the per-network
address allocator. -/
structure NetworkObjectStatus where
  uuid : String
  bridgeNum : Nat
  bridgeName : String
  bridgeIPAddr : String
  dnsNameToIPList : List String
  bridgeIPSets : List String
  vifs : List String
  ipAssignments : List (String × String)
  pool : List String
deriving DecidableEq, Inhabited

/-- `types.NetworkServiceStatus` (the fields this source file reads). -/
structure NetworkServiceStatus where
  activated : Bool
  iid : Nat
  mapServers : List String
  adapter : String
deriving DecidableEq, Inhabited

/-- `types.AppNetworkConfig`.  `Key()` is the instance UUID string. -/
structure AppNetworkConfig where
  uuid : String
  version : String
  displayName : String
  isZedmanager : Bool
  separateDataPlane : Bool
  olList : List OverlayNetworkConfig
  ulList : List UnderlayNetworkConfig
deriving DecidableEq, Inhabited

/-- `types.AppNetworkStatus`.  `Key()` is the instance UUID string. -/
structure AppNetworkStatus where
  uuid : String
  version : String
  appNum : Nat
  pendingAdd : Bool
  pendingModify : Bool
  pendingDelete : Bool
  olNum : Nat
  ulNum : Nat
  displayName : String
  isZedmanager : Bool
  separateDataPlane : Bool
  error : String
  errorTime : Nat
  olList : List OverlayNetworkStatus
  ulList : List UnderlayNetworkStatus
deriving DecidableEq, Inhabited

/-- One observable side effect on the host (netlink call, configlet write,
shell-out, pubsub publish).  The handlers are modelled as state transformers
that also emit the ordered trace of these effects. -/
inductive Effect where
  | publishApp (key : String) (st : AppNetworkStatus)
  | unpublishApp (key : String)
  | publishNet (key : String) (ns : NetworkObjectStatus)
  | linkDel (ifname : String)
  | linkAdd (ifname mac : String)
  | linkSetMTU (ifname : String) (mtu : Nat)
  | linkSetUp (ifname : String)
  | linkSetARPOn (ifname : String)
  | addrAdd (ifname addr : String)
  | addrDel (ifname addr : String)
  | neighAdd (ifname addr mac : String)
  | neighSet (ifname addr mac : String)
  | neighDel (ifname addr : String)
  | routeAdd (dst ifname : String)
  | routeDel (dst ifname : String)
  | hostsDelete (dir : String)
  | hostsCreate (dir : String) (names : List String)
  | hostsAdd (dir name : String) (addrs : List String)
  | hostsRemove (dir name : String)
  | ipsetDeleteDefault (vif : String)
  | ipsetCreateDefault (vif : String) (dns : List String) (addr : String)
  | ipsetDestroy (name : String)
  | aclCreate (bridge vif : String) (isMgmt : Bool) (acls : List ACE)
      (ipVer : Nat) (bridgeAddr peerAddr : String)
  | aclApplyDiff (bridge vif : String) (isMgmt : Bool) (oldAcls newAcls : List ACE)
      (ipVer : Nat) (bridgeAddr peerAddr : String)
  | aclDelete (bridge vif : String) (isMgmt : Bool) (acls : List ACE)
      (ipVer : Nat) (bridgeAddr peerAddr : String)
  | dnsmasqStop (bridge : String)
  | dnsmasqWrite (bridge bridgeIPAddr : String) (nc : NetworkObjectConfig)
      (hostsDir : String) (ipsets : List String)
  | dnsmasqStart (bridge : String)
  | dnsmasqAddHost (bridge mac addr uuid : String)
  | dnsmasqRemoveHost (bridge mac addr : String)
  | lispCreate (isMgmt : Bool) (iid : Nat) (eid sig ifname : String)
      (info : AdditionalInfo) (mapServers : List String) (sep : Bool)
  | lispEidCreate (iid : Nat) (eid sig bridge : String)
      (info : AdditionalInfo) (mapServers : List String) (sep : Bool)
  | lispUpdate (iid : Nat) (eid sig bridge : String)
      (info : AdditionalInfo) (mapServers : List String) (sep : Bool)
  | lispDelete (isMgmt : Bool) (iid : Nat) (eid : String) (sep : Bool)
  | fatal (msg : String)
deriving DecidableEq

/-- The mutable state of the reconciler: the published AppNetworkStatus map,
the companion lookup tables, the numeric-ID allocator table, the global
device-identity variables (`deviceEID`, `deviceIID`, `additionalInfoDevice`)
and the context flag `separateDataPlane`. -/
structure State where
  appStatuses : List (String × AppNetworkStatus)
  netConfigs : List (String × NetworkObjectConfig)
  netStatuses : List (String × NetworkObjectStatus)
  appLinks : List (String × NetworkServiceStatus)
  bridgeSvcIP : List (String × String)
  appNums : List (String × Nat)
  deviceEID : String
  deviceIID : Nat
  additionalInfoDevice : Option AdditionalInfoDevice
  separateDataPlane : Bool
deriving DecidableEq, Inhabited

/-- The read-only host environment: which kernel bridges exist (with their MAC,
for `findBridge`), and the current time for `ErrorTime`. -/
structure Env where
  bridges : List (String × String)
  now : Nat
deriving DecidableEq, Inhabited

/-- `runDirname` from the source constants. -/
def globalRunDirname : String := "/var/run/zedrouter"

/-- The per-bridge hosts directory `globalRunDirname + "/hosts." + name`. -/
def hostsDirpath (name : String) : String := globalRunDirname ++ "/hosts." ++ name

/-- `%02x` of `fmt.Sprintf`: hexadecimal with at least two digits. -/
def natHex2 (n : Nat) : String :=
  let s := (Nat.toDigits 16 n).asString
  if s.length < 2 then "0" ++ s else s

/-- MAC literal `00:16:3e:SS:%02x:%02x` as built for dummy/overlay/underlay
interfaces; `sel` is the fourth byte (02 management dummy, 01 overlay, 00
underlay). -/
def appMacFmt (sel : String) (ifNum appNum : Nat) : String :=
  "00:16:3e:" ++ sel ++ ":" ++ natHex2 ifNum ++ ":" ++ natHex2 appNum

/-- Management overlay interface name `dbo<olNum>x<appNum>`. -/
def mgmtOlIfname (olNum appNum : Nat) : String :=
  "dbo" ++ Nat.repr olNum ++ "x" ++ Nat.repr appNum

/-- Non-management overlay vif name `nbo<olNum>x<bridgeNum>` (built from the
attached network's bridge number, source line 1003). -/
def olVifname (olNum bridgeNum : Nat) : String :=
  "nbo" ++ Nat.repr olNum ++ "x" ++ Nat.repr bridgeNum

/-- Underlay vif name `nbu<ulNum>x<appNum>`. -/
def ulVifname (ulNum appNum : Nat) : String :=
  "nbu" ++ Nat.repr ulNum ++ "x" ++ Nat.repr appNum

/-- Validity of an address string for `netlink.ParseAddr`/`net.ParseCIDR`;
modelled as nonemptiness (the zero `net.IP` renders as the empty string). -/
def parseAddrOk (a : String) : Bool := a ≠ ""

/-- Validity of a MAC string for `net.ParseMAC`; modelled as nonemptiness. -/
def parseMACOk (m : String) : Bool := m ≠ ""

/-- `appendError`. -/
def appendError (allErrors prefixTag lasterr : String) : String :=
  allErrors ++ prefixTag ++ ": " ++ lasterr ++ "\n\n"

/-- `publishAppNetworkStatus`: publish under `status.Key()` (the UUID). -/
def publishAppNetworkStatus (s : State) (st : AppNetworkStatus) :
    State × Effect :=
  ({ s with appStatuses := upsert s.appStatuses st.uuid st },
   Effect.publishApp st.uuid st)

/-- `unpublishAppNetworkStatus`: a no-op (but for a log line) if absent. -/
def unpublishAppNetworkStatus (s : State) (st : AppNetworkStatus) :
    State × List Effect :=
  match lookupKV s.appStatuses st.uuid with
  | none => (s, [])
  | some _ =>
      ({ s with appStatuses := eraseKey s.appStatuses st.uuid },
       [Effect.unpublishApp st.uuid])

/-- `publishNetworkObjectStatus`. -/
def publishNetworkObjectStatus (s : State) (ns : NetworkObjectStatus) :
    State × Effect :=
  ({ s with netStatuses := upsert s.netStatuses ns.uuid ns },
   Effect.publishNet ns.uuid ns)

/-- `addError`: append to the status error, stamp the time, publish. -/
def addError (env : Env) (s : State) (status : AppNetworkStatus)
    (tag msg : String) : State × AppNetworkStatus × Effect :=
  let status2 := { status with error := appendError status.error tag msg,
                               errorTime := env.now }
  let p := publishAppNetworkStatus s status2
  (p.1, status2, p.2)

/-- `lookupAppNetworkStatus`: `Get` then a key/UUID consistency check. -/
def lookupAppNetworkStatus (s : State) (key : String) :
    Option AppNetworkStatus :=
  match lookupKV s.appStatuses key with
  | none => none
  | some st => if st.uuid ≠ key then none else some st

/-- `lookupNetworkObjectConfig` (table populated by a companion subscription). -/
def lookupNetworkObjectConfig (s : State) (network : String) :
    Option NetworkObjectConfig :=
  lookupKV s.netConfigs network

/-- `lookupNetworkObjectStatus`. -/
def lookupNetworkObjectStatus (s : State) (network : String) :
    Option NetworkObjectStatus :=
  lookupKV s.netStatuses network

/-- `lookupAppLink`: the overlay tunneling service attached to a network. -/
def lookupAppLink (s : State) (network : String) :
    Option NetworkServiceStatus :=
  lookupKV s.appLinks network

/-- `findBridge`: succeeds iff the named kernel bridge exists, returning its
MAC. -/
def findBridge (env : Env) (bridgeName : String) : Option String :=
  lookupKV env.bridges bridgeName

/-- Smallest candidate number, starting at `cand`, not in `used` (fuel-bounded
search; with fuel > |used| it always finds one). -/
def smallestFreeFrom (used : List Nat) : Nat → Nat → Nat
  | 0, cand => cand
  | fuel + 1, cand =>
      if cand ∈ used then smallestFreeFrom used fuel (cand + 1) else cand

/-- Modelled from the spec: `appNumAllocate` (its defining file is not in this
repository slice).  The numeric-ID allocator returns the previously persisted
number for the UUID if one exists, else the smallest unused integer in its
namespace; the management namespace holds the single number 0. -/
def appNumAllocate (s : State) (uuid : String) (isZedmanager : Bool) :
    Nat × State :=
  if isZedmanager then
    (0, { s with appNums := upsert s.appNums uuid 0 })
  else
    match lookupKV s.appNums uuid with
    | some n => (n, s)
    | none =>
        let n := smallestFreeFrom (s.appNums.map Prod.snd)
          (s.appNums.length + 1) 1
        (n, { s with appNums := upsert s.appNums uuid n })

/-- Modelled from the spec: `appNumFree` returns the instance's number to the
pool on completed delete. -/
def appNumFree (s : State) (uuid : String) : State :=
  { s with appNums := eraseKey s.appNums uuid }

/-- Modelled from the spec: `lookupOrAllocateIPv4` (file not in this slice) is
MAC-keyed — it returns a previously bound address for that MAC on that network
if one exists, else allocates the next free address from the network's pool. -/
def lookupOrAllocateIPv4 (ns : NetworkObjectStatus) (mac : String) :
    Option String × NetworkObjectStatus :=
  match lookupKV ns.ipAssignments mac with
  | some a => (some a, ns)
  | none =>
      match ns.pool.find? (fun a => decide (a ∉ ns.ipAssignments.map Prod.snd)) with
      | some a => (some a, { ns with ipAssignments := upsert ns.ipAssignments mac a })
      | none => (none, ns)

/-- Modelled from the spec: `releaseIPv4` (file not in this slice) returns the
MAC's address to the pool; an unbound MAC is an error.  Returns success flag
and the updated network status. -/
def releaseIPv4 (ns : NetworkObjectStatus) (mac : String) :
    Bool × NetworkObjectStatus :=
  match lookupKV ns.ipAssignments mac with
  | none => (false, ns)
  | some _ => (true, { ns with ipAssignments := eraseKey ns.ipAssignments mac })

/-- `getUlAddrs`: lease (or reuse) the bridge address keyed by the bridge MAC
and the app address keyed by the app MAC, unless a static address is
configured. -/
def getUlAddrs (ns : NetworkObjectStatus) (ulStatus : UnderlayNetworkStatus) :
    String × String × NetworkObjectStatus :=
  let r1 := lookupOrAllocateIPv4 ns ulStatus.bridgeMac
  let bridgeIPAddr := r1.1.getD ""
  match ulStatus.cfg.appIPAddr with
  | some a => (bridgeIPAddr, a, r1.2)
  | none =>
      let r2 := lookupOrAllocateIPv4 r1.2 ulStatus.mac
      (bridgeIPAddr, r2.1.getD "", r2.2)

/-- All DNS names referenced by a rule list. -/
def aclDnsNames (acls : List ACE) : List String :=
  (acls.map ACE.dnsNames).flatten

/-- Modelled from the spec: `compileAppInstanceIpsets` (file not in this
slice) unions every DNS name referenced across all of one instance's
interfaces. -/
def compileAppInstanceIpsets (ols : List OverlayNetworkConfig)
    (uls : List UnderlayNetworkConfig) : List String :=
  ((ols.map (fun o => aclDnsNames o.acls)).flatten ++
   (uls.map (fun u => aclDnsNames u.acls)).flatten).dedup

/-- DNS names referenced by one published status (via its embedded configs). -/
def statusDnsNames (st : AppNetworkStatus) : List String :=
  (st.olList.map (fun o => aclDnsNames o.cfg.acls)).flatten ++
  (st.ulList.map (fun u => aclDnsNames u.cfg.acls)).flatten

/-- Modelled from the spec: `compileOldAppInstanceIpsets` (file not in this
slice) aggregates the DNS-name sets of all instances while skipping the
contributions of the instance being deleted. -/
def compileOldAppInstanceIpsets (s : State) (skipKey : String) : List String :=
  ((s.appStatuses.filter (fun p => decide (p.1 ≠ skipKey))).map
    (fun p => statusDnsNames p.2)).flatten.dedup

/-- Set-style equality of two ipset name lists. -/
def sameIpsets (xs ys : List String) : Bool :=
  xs.all (fun x => decide (x ∈ ys)) && ys.all (fun y => decide (y ∈ xs))

/-- Modelled from the spec: `diffIpsets required existing` returns
`(merged, stale, restartNeeded)` where `merged` is the required set, `stale`
the now-unreferenced installed sets, and `restartNeeded` is true iff the
merged set differs from the existing one. -/
def diffIpsets (required existing : List String) :
    List String × List String × Bool :=
  (required, existing.filter (fun x => decide (x ∉ required)),
   ! sameIpsets required existing)

/-- `maybeRemoveStaleIpsets`: best-effort destroy of the v4 and v6 variant of
each stale set. -/
def maybeRemoveStaleIpsets (staleIpsets : List String) : List Effect :=
  (staleIpsets.map (fun n =>
    [Effect.ipsetDestroy ("ipv4." ++ n), Effect.ipsetDestroy ("ipv6." ++ n)])).flatten

/-- `addVifToBridge` bookkeeping on the network status vif list. -/
def addVifToBridge (vifs : List String) (vifName : String) : List String :=
  vifs ++ [vifName]

/-- `removeVifFromBridge` bookkeeping. -/
def removeVifFromBridge (vifs : List String) (vifName : String) : List String :=
  vifs.filter (fun v => decide (v ≠ vifName))

/-- Modelled from the spec: `updateACLConfiglet` (file not in this slice)
computes add/remove diffs between the two rule generations and applies only
the diff; identical generations yield no packet-filter side effect. -/
def updateACLConfiglet (bridge vif : String) (isMgmt : Bool)
    (oldAcls newAcls : List ACE) (ipVer : Nat) (bridgeAddr peerAddr : String) :
    List Effect :=
  if newAcls.filter (fun a => decide (a ∉ oldAcls)) = [] ∧
     oldAcls.filter (fun a => decide (a ∉ newAcls)) = [] then []
  else [Effect.aclApplyDiff bridge vif isMgmt oldAcls newAcls ipVer bridgeAddr peerAddr]

/-- `generateAdditionalInfo`: device info verbatim for the management
instance, else a per-app record embedding the global device identity. -/
def generateAdditionalInfo (s : State) (status : AppNetworkStatus)
    (olConfig : OverlayNetworkConfig) : AdditionalInfo :=
  if status.isZedmanager then
    match olConfig.additionalInfoDevice with
    | none => AdditionalInfo.empty
    | some d => AdditionalInfo.device d
  else
    AdditionalInfo.app
      { deviceEID := s.deviceEID
        deviceIID := s.deviceIID
        displayName := status.displayName
        underlayIP := (s.additionalInfoDevice.map AdditionalInfoDevice.underlayIP).getD ""
        hostname := (s.additionalInfoDevice.map AdditionalInfoDevice.hostname).getD "" }

/-- `createAndStartLisp`: the tunnel configlet written for one overlay whose
service is active. -/
def createAndStartLisp (s : State) (status : AppNetworkStatus)
    (olConfig : OverlayNetworkConfig) (svc : NetworkServiceStatus)
    (bridgeName : String) : Effect :=
  Effect.lispEidCreate svc.iid olConfig.eid olConfig.lispSignature bridgeName
    (generateAdditionalInfo s status olConfig) svc.mapServers s.separateDataPlane

/-- The zeroed overlay status entry produced by rebuilding the list from
config only (`status.OverlayNetworkList[i].OverlayNetworkConfig = ...` on a
fresh `make`). -/
def zeroOlStatus (c : OverlayNetworkConfig) : OverlayNetworkStatus :=
  { cfg := c, bridge := "", bridgeMac := "", vif := "", mac := "",
    hostName := "", bridgeIPAddr := "" }

/-- The zeroed underlay status entry on a fresh `make`. -/
def zeroUlStatus (c : UnderlayNetworkConfig) : UnderlayNetworkStatus :=
  { cfg := c, bridge := "", bridgeMac := "", vif := "", mac := "",
    hostName := "", bridgeIPAddr := "", assignedIPAddr := "" }

/-- The loop accumulator: global state, the handler's local `status` variable,
and the effect trace so far. -/
structure StepAcc where
  st : State
  status : AppNetworkStatus
  effs : List Effect
deriving DecidableEq

/-- The fresh status `handleCreate` publishes before doing anything else. -/
def initialCreateStatus (config : AppNetworkConfig) (appNum : Nat) :
    AppNetworkStatus :=
  { uuid := config.uuid, version := config.version, appNum := appNum,
    pendingAdd := true, pendingModify := false, pendingDelete := false,
    olNum := config.olList.length, ulNum := config.ulList.length,
    displayName := config.displayName, isZedmanager := config.isZedmanager,
    separateDataPlane := false, error := "", errorTime := 0,
    olList := [], ulList := [] }

/-- The `IsZedmanager` branch of `handleCreate` (source lines 738-919):
topology check, dummy-interface setup, device-identity adoption, tunnel
configlet. -/
def handleCreateMgmt (env : Env) (s : State) (config : AppNetworkConfig)
    (appNum : Nat) (status : AppNetworkStatus) : State × List Effect :=
  if config.olList.length ≠ 1 ∨ config.ulList.length ≠ 0 then
    let status1 := { status with pendingAdd := false }
    let r := addError env s status1 "IsZedmanager"
      "Malformed IsZedmanager config; ignored"
    (r.1, [r.2.2])
  else
    let s1 := { s with separateDataPlane := config.separateDataPlane }
    let olConfig := config.olList.headD default
    let olIfname := mgmtOlIfname 1 appNum
    let olIfMac := appMacFmt "02" 1 appNum
    let es0 : List Effect :=
      [Effect.linkDel olIfname, Effect.linkAdd olIfname olIfMac,
       Effect.linkSetMTU olIfname 1280, Effect.linkSetUp olIfname,
       Effect.linkSetARPOn olIfname]
    if ¬ parseAddrOk olConfig.eid then
      let status1 := { status with pendingAdd := false }
      let r := addError env s1 status1 "IsZedmanager"
        ("ParseAddr " ++ olConfig.eid ++ " failed")
      (r.1, es0 ++ [r.2.2])
    else
      let es1 : List Effect := es0 ++
        [Effect.addrAdd olIfname olConfig.eid,
         Effect.neighAdd olIfname "fe80::1" olIfMac,
         Effect.neighSet olIfname "fe80::1" olIfMac,
         Effect.routeAdd "fd00::/8" olIfname,
         Effect.hostsDelete (hostsDirpath olIfname),
         Effect.hostsCreate (hostsDirpath olIfname) olConfig.mgmtDnsNameToIPList,
         Effect.ipsetDeleteDefault olIfname,
         Effect.ipsetCreateDefault olIfname olConfig.mgmtDnsNameToIPList olConfig.eid,
         Effect.aclCreate olIfname olIfname true olConfig.acls 6 "" ""]
      let s2 := { s1 with deviceEID := olConfig.eid,
                          deviceIID := olConfig.mgmtIID,
                          additionalInfoDevice := olConfig.additionalInfoDevice }
      let info := generateAdditionalInfo s2 status olConfig
      let es2 := es1 ++
        [Effect.lispCreate true olConfig.mgmtIID olConfig.eid
          olConfig.lispSignature olIfname info olConfig.mgmtMapServers
          s2.separateDataPlane]
      let status1 := { status with olList := config.olList.map zeroOlStatus,
                                   pendingAdd := false }
      let p := publishAppNetworkStatus s2 status1
      (p.1, es2 ++ [p.2])

/-- Overlay loop of the non-management `handleCreate` (source lines 978-1116).
The returned flag is true when the loop executed one of its early `return`
statements (vanished network config, or `findBridge` failure). -/
def createOlLoop (env : Env) (config : AppNetworkConfig) (appNum : Nat)
    (ipsets : List String) : Nat → List OverlayNetworkConfig → StepAcc →
    StepAcc × Bool
  | _, [], acc => (acc, false)
  | i, olConfig :: rest, acc =>
    let olNum := i + 1
    match lookupNetworkObjectConfig acc.st olConfig.network with
    | none => (acc, true)
    | some netconfig =>
      match lookupNetworkObjectStatus acc.st olConfig.network with
      | none =>
          let r := addError env acc.st acc.status "lookupNetworkObjectStatus"
            ("no network status for " ++ olConfig.network)
          createOlLoop env config appNum ipsets (i + 1) rest
            { st := r.1, status := r.2.1, effs := acc.effs ++ [r.2.2] }
      | some netstatus =>
        let bridgeName := netstatus.bridgeName
        let vifName := olVifname olNum netstatus.bridgeNum
        match findBridge env bridgeName with
        | none =>
            let status1 := { acc.status with pendingAdd := false }
            let r := addError env acc.st status1 "findBridge"
              ("findBridge(" ++ bridgeName ++ ") failed")
            ({ st := r.1, status := r.2.1, effs := acc.effs ++ [r.2.2] }, true)
        | some bridgeMac =>
          let appMac := olConfig.appMacAddr.getD (appMacFmt "01" olNum appNum)
          let olStatus : OverlayNetworkStatus :=
            { cfg := olConfig, bridge := bridgeName, bridgeMac := bridgeMac,
              vif := vifName, mac := appMac, hostName := config.uuid,
              bridgeIPAddr := netstatus.bridgeIPAddr }
          let status1 := { acc.status with olList := acc.status.olList.set i olStatus }
          let parsed :=
            if parseAddrOk olConfig.eid then
              (acc.st, status1, ([] : List Effect))
            else
              let r := addError env acc.st status1 "handleCreate"
                ("ParseCIDR " ++ olConfig.eid ++ " failed")
              (r.1, r.2.1, [r.2.2])
          let s1 := parsed.1
          let status2 := parsed.2.1
          let esA : List Effect :=
            [Effect.routeAdd (olConfig.eid ++ "/128") bridgeName,
             Effect.hostsAdd (hostsDirpath bridgeName) config.displayName [olConfig.eid],
             Effect.ipsetDeleteDefault vifName,
             Effect.ipsetCreateDefault vifName netstatus.dnsNameToIPList olConfig.eid,
             Effect.aclCreate bridgeName vifName false olConfig.acls 6
               netstatus.bridgeIPAddr olConfig.eid,
             Effect.dnsmasqAddHost bridgeName appMac olConfig.eid config.uuid]
          let d := diffIpsets ipsets netstatus.bridgeIPSets
          let esB : List Effect :=
            if d.2.2 = true ∧ netstatus.bridgeIPAddr ≠ "" then
              [Effect.dnsmasqStop bridgeName,
               Effect.dnsmasqWrite bridgeName netstatus.bridgeIPAddr netconfig
                 (hostsDirpath bridgeName) d.1,
               Effect.dnsmasqStart bridgeName]
            else []
          let netstatus1 := { netstatus with
            vifs := addVifToBridge netstatus.vifs vifName,
            bridgeIPSets := d.1 }
          let p := publishNetworkObjectStatus s1 netstatus1
          let esC := maybeRemoveStaleIpsets d.2.1
          let esD : List Effect :=
            match lookupAppLink p.1 olConfig.network with
            | none => []
            | some svc =>
                if svc.activated = false then []
                else [createAndStartLisp p.1 status2 olConfig svc bridgeName]
          createOlLoop env config appNum ipsets (i + 1) rest
            { st := p.1, status := status2,
              effs := acc.effs ++ parsed.2.2 ++ esA ++ esB ++ [p.2] ++ esC ++ esD }

/-- Underlay loop of the non-management `handleCreate` (source lines
1118-1226). -/
def createUlLoop (env : Env) (config : AppNetworkConfig) (appNum : Nat)
    (ipsets : List String) : Nat → List UnderlayNetworkConfig → StepAcc →
    StepAcc × Bool
  | _, [], acc => (acc, false)
  | i, ulConfig :: rest, acc =>
    let ulNum := i + 1
    match lookupNetworkObjectConfig acc.st ulConfig.network with
    | none => (acc, true)
    | some netconfig =>
      match lookupNetworkObjectStatus acc.st ulConfig.network with
      | none =>
          let r := addError env acc.st acc.status "lookupNetworkObjectStatus"
            ("no status for " ++ ulConfig.network)
          createUlLoop env config appNum ipsets (i + 1) rest
            { st := r.1, status := r.2.1, effs := acc.effs ++ [r.2.2] }
      | some netstatus =>
        let bridgeName := netstatus.bridgeName
        let vifName := ulVifname ulNum appNum
        match findBridge env bridgeName with
        | none =>
            let status1 := { acc.status with pendingAdd := false }
            let r := addError env acc.st status1 "findBridge"
              ("findBridge(" ++ bridgeName ++ ") failed")
            ({ st := r.1, status := r.2.1, effs := acc.effs ++ [r.2.2] }, true)
        | some bridgeMac =>
          let appMac := ulConfig.appMacAddr.getD (appMacFmt "00" ulNum appNum)
          let ulStatus0 : UnderlayNetworkStatus :=
            { cfg := ulConfig, bridge := bridgeName, bridgeMac := bridgeMac,
              vif := vifName, mac := appMac, hostName := config.uuid,
              bridgeIPAddr := "", assignedIPAddr := "" }
          let g := getUlAddrs netstatus ulStatus0
          let appIPAddr := g.2.1
          let netstatus1 := g.2.2
          let bridgeIPAddr :=
            match lookupKV acc.st.bridgeSvcIP ulConfig.network with
            | some ip => if ip ≠ "" then ip else g.1
            | none => g.1
          let ulStatus := { ulStatus0 with bridgeIPAddr := bridgeIPAddr,
                                           assignedIPAddr := appIPAddr }
          let status1 := { acc.status with ulList := acc.status.ulList.set i ulStatus }
          let esHosts : List Effect :=
            if appIPAddr ≠ "" then
              [Effect.hostsAdd (hostsDirpath bridgeName) config.displayName [appIPAddr]]
            else []
          let esA : List Effect :=
            [Effect.ipsetDeleteDefault vifName,
             Effect.ipsetCreateDefault vifName netstatus.dnsNameToIPList appIPAddr,
             Effect.aclCreate bridgeName vifName false ulConfig.acls 4
               bridgeIPAddr appIPAddr]
          let esB : List Effect :=
            if appIPAddr ≠ "" then
              [Effect.dnsmasqAddHost bridgeName appMac appIPAddr config.uuid]
            else []
          let d := diffIpsets ipsets netstatus1.bridgeIPSets
          let esC : List Effect :=
            if d.2.2 = true ∧ ulStatus.bridgeIPAddr ≠ "" then
              [Effect.dnsmasqStop bridgeName,
               Effect.dnsmasqWrite bridgeName ulStatus.bridgeIPAddr netconfig
                 (hostsDirpath bridgeName) d.1,
               Effect.dnsmasqStart bridgeName]
            else []
          let netstatus2 := { netstatus1 with
            vifs := addVifToBridge netstatus1.vifs vifName,
            bridgeIPSets := d.1 }
          let p := publishNetworkObjectStatus acc.st netstatus2
          let esD := maybeRemoveStaleIpsets d.2.1
          createUlLoop env config appNum ipsets (i + 1) rest
            { st := p.1, status := status1,
              effs := acc.effs ++ esHosts ++ esA ++ esB ++ esC ++ [p.2] ++ esD }

/-- The non-management tail of `handleCreate` (source lines 921-1231):
the all-networks-exist deferral check, the per-interface loops, the final
commit publish. -/
def handleCreateApp (env : Env) (s : State) (config : AppNetworkConfig)
    (appNum : Nat) (status : AppNetworkStatus) : State × List Effect :=
  let allNetworksExist :=
    config.olList.all (fun o => (lookupNetworkObjectConfig s o.network).isSome) &&
    config.ulList.all (fun u => (lookupNetworkObjectConfig s u.network).isSome)
  if allNetworksExist = false then
    unpublishAppNetworkStatus s status
  else
    let status1 := { status with olList := config.olList.map zeroOlStatus,
                                 ulList := config.ulList.map zeroUlStatus }
    let ipsets := compileAppInstanceIpsets config.olList config.ulList
    let r1 := createOlLoop env config appNum ipsets 0 config.olList
      { st := s, status := status1, effs := [] }
    if r1.2 then (r1.1.st, r1.1.effs)
    else
      let r2 := createUlLoop env config appNum ipsets 0 config.ulList r1.1
      if r2.2 then (r2.1.st, r2.1.effs)
      else
        let status2 := { r2.1.status with pendingAdd := false }
        let p := publishAppNetworkStatus r2.1.st status2
        (p.1, r2.1.effs ++ [p.2])

/-- `handleCreate` (source lines 716-1231).  The `key` argument is used only
for logging in the source. -/
def handleCreate (env : Env) (s : State) (_key : String)
    (config : AppNetworkConfig) : State × List Effect :=
  let a := appNumAllocate s config.uuid config.isZedmanager
  let appNum := a.1
  let status := initialCreateStatus config appNum
  let p := publishAppNetworkStatus a.2 status
  if config.isZedmanager then
    let r := handleCreateMgmt env p.1 config appNum status
    (r.1, p.2 :: r.2)
  else
    let r := handleCreateApp env p.1 config appNum status
    (r.1, p.2 :: r.2)

/-- Overlay loop of the non-management `handleModify` (source lines
1440-1523): per-interface ACL diff, ipset diff, dnsmasq restart, tunnel
metadata regeneration.  No early return; failures add errors and continue. -/
def modOlLoop (env : Env) (ipsets : List String) :
    Nat → List OverlayNetworkConfig → StepAcc → StepAcc
  | _, [], acc => acc
  | i, olConfig :: rest, acc =>
    let olNum := i + 1
    if acc.status.olList.length < olNum then
      modOlLoop env ipsets (i + 1) rest acc
    else
      let olStatus := acc.status.olList.getD i default
      let bridgeName := olStatus.bridge
      match lookupNetworkObjectConfig acc.st olConfig.network with
      | none =>
          let r := addError env acc.st acc.status "lookupNetworkObjectConfig"
            ("no network config for " ++ olConfig.network)
          modOlLoop env ipsets (i + 1) rest
            { st := r.1, status := r.2.1, effs := acc.effs ++ [r.2.2] }
      | some netconfig =>
        match lookupNetworkObjectStatus acc.st olConfig.network with
        | none =>
            let r := addError env acc.st acc.status "lookupNetworkObjectStatus"
              ("no network status for " ++ olConfig.network)
            modOlLoop env ipsets (i + 1) rest
              { st := r.1, status := r.2.1, effs := acc.effs ++ [r.2.2] }
        | some netstatus =>
          let esAcl := updateACLConfiglet bridgeName olStatus.vif false
            olStatus.cfg.acls olConfig.acls 6 olStatus.bridgeIPAddr olConfig.eid
          let d := diffIpsets ipsets netstatus.bridgeIPSets
          let esB : List Effect :=
            if d.2.2 = true ∧ olStatus.bridgeIPAddr ≠ "" then
              [Effect.dnsmasqStop bridgeName,
               Effect.dnsmasqWrite bridgeName olStatus.bridgeIPAddr netconfig
                 (hostsDirpath bridgeName) d.1,
               Effect.dnsmasqStart bridgeName]
            else []
          let netstatus1 := { netstatus with
            vifs := removeVifFromBridge netstatus.vifs olStatus.vif,
            bridgeIPSets := d.1 }
          let p := publishNetworkObjectStatus acc.st netstatus1
          let esC := maybeRemoveStaleIpsets d.2.1
          let esD : List Effect :=
            match lookupAppLink p.1 olConfig.network with
            | none => []
            | some svc =>
                [Effect.lispUpdate svc.iid olConfig.eid olConfig.lispSignature
                  bridgeName (generateAdditionalInfo p.1 acc.status olConfig)
                  svc.mapServers p.1.separateDataPlane]
          modOlLoop env ipsets (i + 1) rest
            { st := p.1, status := acc.status,
              effs := acc.effs ++ esAcl ++ esB ++ [p.2] ++ esC ++ esD }

/-- Underlay loop of the non-management `handleModify` (source lines
1525-1584). -/
def modUlLoop (env : Env) (ipsets : List String) :
    Nat → List UnderlayNetworkConfig → StepAcc → StepAcc
  | _, [], acc => acc
  | i, ulConfig :: rest, acc =>
    let ulNum := i + 1
    if acc.status.ulList.length < ulNum then
      modUlLoop env ipsets (i + 1) rest acc
    else
      let ulStatus := acc.status.ulList.getD i default
      let bridgeName := ulStatus.bridge
      let appIPAddr := ulStatus.assignedIPAddr
      match lookupNetworkObjectConfig acc.st ulConfig.network with
      | none =>
          let r := addError env acc.st acc.status "lookupNetworkObjectConfig"
            ("no network config for " ++ ulConfig.network)
          modUlLoop env ipsets (i + 1) rest
            { st := r.1, status := r.2.1, effs := acc.effs ++ [r.2.2] }
      | some netconfig =>
        match lookupNetworkObjectStatus acc.st ulConfig.network with
        | none =>
            let r := addError env acc.st acc.status "lookupNetworkObjectStatus"
              ("no network status for " ++ ulConfig.network)
            modUlLoop env ipsets (i + 1) rest
              { st := r.1, status := r.2.1, effs := acc.effs ++ [r.2.2] }
        | some netstatus =>
          let esAcl := updateACLConfiglet bridgeName ulStatus.vif false
            ulStatus.cfg.acls ulConfig.acls 4 ulStatus.bridgeIPAddr appIPAddr
          let d := diffIpsets ipsets netstatus.bridgeIPSets
          let esB : List Effect :=
            if d.2.2 = true ∧ ulStatus.bridgeIPAddr ≠ "" then
              [Effect.dnsmasqStop bridgeName,
               Effect.dnsmasqWrite bridgeName ulStatus.bridgeIPAddr netconfig
                 (hostsDirpath bridgeName) d.1,
               Effect.dnsmasqStart bridgeName]
            else []
          let netstatus1 := { netstatus with
            vifs := removeVifFromBridge netstatus.vifs ulStatus.vif,
            bridgeIPSets := d.1 }
          let p := publishNetworkObjectStatus acc.st netstatus1
          let esC := maybeRemoveStaleIpsets d.2.1
          modUlLoop env ipsets (i + 1) rest
            { st := p.1, status := acc.status,
              effs := acc.effs ++ esAcl ++ esB ++ [p.2] ++ esC }

/-- `handleModify` (source lines 1352-1602). -/
def handleModify (env : Env) (s : State) (_key : String)
    (config : AppNetworkConfig) (status0 : AppNetworkStatus) :
    State × List Effect :=
  let appNum := status0.appNum
  if config.isZedmanager ≠ status0.isZedmanager then
    let status1 := { status0 with pendingModify := false }
    let r := addError env s status1 "handleModify"
      ("Unsupported: IsZedmanager changed for " ++ config.uuid)
    (r.1, [r.2.2])
  else if config.olList.length ≠ status0.olNum then
    let status1 := { status0 with pendingModify := false }
    let r := addError env s status1 "handleModify"
      ("Unsupported: Changed number of overlays for " ++ config.uuid)
    (r.1, [r.2.2])
  else if config.ulList.length ≠ status0.ulNum then
    let status1 := { status0 with pendingModify := false }
    let r := addError env s status1 "handleModify"
      ("Unsupported: Changed number of underlays for " ++ config.uuid)
    (r.1, [r.2.2])
  else
    let status1 := { status0 with separateDataPlane := s.separateDataPlane,
                                  pendingModify := true,
                                  uuid := config.uuid,
                                  version := config.version }
    let p1 := publishAppNetworkStatus s status1
    if config.isZedmanager then
      if config.separateDataPlane ≠ p1.1.separateDataPlane then
        let status2 := { status1 with pendingModify := false }
        let r := addError env p1.1 status2 "handleModify"
          "Unsupported: Changing experimental data plane flag on the fly"
        (r.1, [p1.2, r.2.2])
      else
        let olConfig := config.olList.headD default
        let olStatus := status1.olList.headD default
        let olIfname := mgmtOlIfname 1 appNum
        let esAcl := updateACLConfiglet olIfname olIfname true
          olStatus.cfg.acls olConfig.acls 6 "" ""
        let status2 := { status1 with pendingModify := false }
        let p2 := publishAppNetworkStatus p1.1 status2
        (p2.1, p1.2 :: (esAcl ++ [p2.2]))
    else
      let ipsets := compileAppInstanceIpsets config.olList config.ulList
      let acc1 := modOlLoop env ipsets 0 config.olList
        { st := p1.1, status := status1, effs := [p1.2] }
      let acc2 := modUlLoop env ipsets 0 config.ulList acc1
      let status2 := { acc2.status with
        olList := config.olList.map zeroOlStatus,
        ulList := config.ulList.map zeroUlStatus,
        pendingModify := false }
      let p2 := publishAppNetworkStatus acc2.st status2
      (p2.1, acc2.effs ++ [p2.2])

/-- Overlay loop of the non-management `handleDelete` (source lines
1753-1828), iterating `olNum` from 1 to `status.OlNum`.  The changed
`BridgeIPSets` is not republished here (the source mutates only the local
copy), so the network-status table is untouched by this loop. -/
def delOlLoop (env : Env) (ipsets : List String) :
    Nat → Nat → StepAcc → StepAcc
  | _, 0, acc => acc
  | olNum, remaining + 1, acc =>
    if acc.status.olList.length < olNum then
      delOlLoop env ipsets (olNum + 1) remaining acc
    else
      let olStatus := acc.status.olList.getD (olNum - 1) default
      let bridgeName := olStatus.bridge
      match lookupNetworkObjectConfig acc.st olStatus.cfg.network with
      | none =>
          let r := addError env acc.st acc.status "lookupNetworkObjectStatus"
            ("no network config for " ++ olStatus.cfg.network)
          delOlLoop env ipsets (olNum + 1) remaining
            { st := r.1, status := r.2.1, effs := acc.effs ++ [r.2.2] }
      | some netconfig =>
        match lookupNetworkObjectStatus acc.st olStatus.cfg.network with
        | none =>
            let r := addError env acc.st acc.status "lookupNetworkObjectStatus"
              ("no network status for " ++ olStatus.cfg.network)
            delOlLoop env ipsets (olNum + 1) remaining
              { st := r.1, status := r.2.1, effs := acc.effs ++ [r.2.2] }
        | some netstatus =>
          let esA : List Effect :=
            [Effect.aclDelete bridgeName olStatus.vif false olStatus.cfg.acls 6
               olStatus.bridgeIPAddr olStatus.cfg.eid,
             Effect.hostsRemove (hostsDirpath bridgeName) acc.status.displayName,
             Effect.ipsetDeleteDefault olStatus.vif]
          let d := diffIpsets ipsets netstatus.bridgeIPSets
          let esB : List Effect :=
            if d.2.2 = true ∧ olStatus.bridgeIPAddr ≠ "" then
              [Effect.dnsmasqStop bridgeName,
               Effect.dnsmasqWrite bridgeName olStatus.bridgeIPAddr netconfig
                 (hostsDirpath bridgeName) d.1,
               Effect.dnsmasqStart bridgeName]
            else []
          let esC := maybeRemoveStaleIpsets d.2.1
          let esD : List Effect :=
            match lookupAppLink acc.st olStatus.cfg.network with
            | none => []
            | some svc =>
                [Effect.lispDelete false svc.iid olStatus.cfg.eid
                  acc.st.separateDataPlane]
          delOlLoop env ipsets (olNum + 1) remaining
            { st := acc.st, status := acc.status,
              effs := acc.effs ++ esA ++ esB ++ esC ++ esD }

/-- Underlay loop of the non-management `handleDelete` (source lines
1834-1906).  `net.ParseMAC` of the recorded MAC is process-fatal on failure
(source line 1868): the returned flag is true when the process died there. -/
def delUlLoop (env : Env) (ipsets : List String) :
    Nat → Nat → StepAcc → StepAcc × Bool
  | _, 0, acc => (acc, false)
  | ulNum, remaining + 1, acc =>
    if acc.status.ulList.length < ulNum then
      delUlLoop env ipsets (ulNum + 1) remaining acc
    else
      let ulStatus := acc.status.ulList.getD (ulNum - 1) default
      let bridgeName := ulStatus.bridge
      match lookupNetworkObjectConfig acc.st ulStatus.cfg.network with
      | none =>
          let r := addError env acc.st acc.status "lookupNetworkObjectConfig"
            ("no network config for " ++ ulStatus.cfg.network)
          delUlLoop env ipsets (ulNum + 1) remaining
            { st := r.1, status := r.2.1, effs := acc.effs ++ [r.2.2] }
      | some netconfig =>
        match lookupNetworkObjectStatus acc.st ulStatus.cfg.network with
        | none =>
            let r := addError env acc.st acc.status "lookupNetworkObjectStatus"
              ("no network status for " ++ ulStatus.cfg.network)
            delUlLoop env ipsets (ulNum + 1) remaining
              { st := r.1, status := r.2.1, effs := acc.effs ++ [r.2.2] }
        | some netstatus =>
          if ¬ parseMACOk ulStatus.mac then
            ({ acc with effs := acc.effs ++
                [Effect.fatal ("ParseMAC failed: " ++ ulStatus.mac)] }, true)
          else
            let rel := releaseIPv4 netstatus ulStatus.mac
            let released :=
              if rel.1 then
                let sRel : State :=
                  { acc.st with netStatuses := upsert acc.st.netStatuses rel.2.uuid rel.2 }
                (sRel, acc.status, ([] : List Effect))
              else
                let r := addError env acc.st acc.status "releaseIPv4"
                  ("releaseIPv4 failed for " ++ ulStatus.mac)
                (r.1, r.2.1, [r.2.2])
            let s1 := released.1
            let status1 := released.2.1
            let esA : List Effect :=
              [Effect.dnsmasqRemoveHost bridgeName ulStatus.mac
                 ulStatus.assignedIPAddr,
               Effect.aclDelete bridgeName ulStatus.vif false ulStatus.cfg.acls 4
                 ulStatus.bridgeIPAddr ulStatus.assignedIPAddr,
               Effect.hostsRemove (hostsDirpath bridgeName) status1.displayName]
            let d := diffIpsets ipsets rel.2.bridgeIPSets
            let esB : List Effect :=
              if d.2.2 = true ∧ ulStatus.bridgeIPAddr ≠ "" then
                [Effect.dnsmasqStop bridgeName,
                 Effect.dnsmasqWrite bridgeName ulStatus.bridgeIPAddr netconfig
                   (hostsDirpath bridgeName) d.1,
                 Effect.dnsmasqStart bridgeName]
              else []
            let esC := maybeRemoveStaleIpsets d.2.1
            delUlLoop env ipsets (ulNum + 1) remaining
              { st := s1, status := status1,
                effs := acc.effs ++ released.2.2 ++ esA ++ esB ++ esC }

/-- `handleDelete` (source lines 1621-1915). -/
def handleDelete (env : Env) (s : State) (_key : String)
    (status0 : AppNetworkStatus) : State × List Effect :=
  let appNum := status0.appNum
  let status1 := { status0 with pendingDelete := true }
  let p1 := publishAppNetworkStatus s status1
  if status1.isZedmanager then
    if status1.olList.length ≠ 1 ∨ status1.ulList.length ≠ 0 then
      let status2 := { status1 with pendingDelete := false }
      let r := addError env p1.1 status2 "handleDelete"
        "Malformed IsZedmanager status; ignored"
      (r.1, [p1.2, r.2.2])
    else
      let s2 := { p1.1 with deviceEID := "", deviceIID := 0,
                            additionalInfoDevice := none }
      let olStatus := status1.olList.headD default
      let olIfname := mgmtOlIfname 1 appNum
      let eid := olStatus.cfg.eid
      if ¬ parseAddrOk eid then
        let status2 := { status1 with pendingDelete := false }
        let r := addError env s2 status2 "handleDelete"
          ("ParseAddr " ++ eid ++ " failed")
        (r.1, [p1.2, r.2.2])
      else
        let es : List Effect :=
          [Effect.addrDel olIfname eid,
           Effect.routeDel "fd00::/8" olIfname,
           Effect.neighDel olIfname "fe80::1",
           Effect.linkDel olIfname,
           Effect.hostsDelete (hostsDirpath olIfname),
           Effect.ipsetDeleteDefault olIfname,
           Effect.aclDelete olIfname olIfname true olStatus.cfg.acls 6 "" "",
           Effect.lispDelete true olStatus.cfg.mgmtIID olStatus.cfg.eid
             s2.separateDataPlane]
        let status2 := { status1 with pendingDelete := false }
        let p2 := publishAppNetworkStatus s2 status2
        let u := unpublishAppNetworkStatus p2.1 status2
        let s5 := appNumFree u.1 status2.uuid
        (s5, (p1.2 :: es) ++ [p2.2] ++ u.2)
  else
    let ipsets := compileOldAppInstanceIpsets p1.1 status1.uuid
    let acc1 := delOlLoop env ipsets 1 status1.olNum
      { st := p1.1, status := status1, effs := [p1.2] }
    let r2 := delUlLoop env ipsets 1 status1.ulNum acc1
    if r2.2 then (r2.1.st, r2.1.effs)
    else
      let status2 := { r2.1.status with pendingDelete := false }
      let p2 := publishAppNetworkStatus r2.1.st status2
      let u := unpublishAppNetworkStatus p2.1 status2
      let s5 := appNumFree u.1 status2.uuid
      (s5, r2.1.effs ++ [p2.2] ++ u.2)

/-- `handleAppNetworkConfigModify`: the create-or-modify dispatcher with the
key/UUID consistency check (source lines 633-650). -/
def handleAppNetworkConfigModify (env : Env) (s : State) (key : String)
    (config : AppNetworkConfig) : State × List Effect :=
  if config.uuid ≠ key then (s, [])
  else
    match lookupAppNetworkStatus s key with
    | none => handleCreate env s key config
    | some status => handleModify env s key config status

/-- `handleAppNetworkConfigDelete` (source lines 652-664). -/
def handleAppNetworkConfigDelete (env : Env) (s : State) (key : String) :
    State × List Effect :=
  match lookupAppNetworkStatus s key with
  | none => (s, [])
  | some status => handleDelete env s key status

/-- One inbound config event: a modify-or-create notification carrying a
config value, or a delete notification for a key. -/
inductive ConfigEvent where
  | modify (key : String) (config : AppNetworkConfig)
  | delete (key : String)
deriving DecidableEq

/-- The event-loop step: dispatch one inbound config event. -/
def step (env : Env) (s : State) : ConfigEvent → State × List Effect
  | ConfigEvent.modify key config => handleAppNetworkConfigModify env s key config
  | ConfigEvent.delete key => handleAppNetworkConfigDelete env s key

/-- The triple of globals carrying the device identity. -/
def identityOf (s : State) : String × Nat × Option AdditionalInfoDevice :=
  (s.deviceEID, s.deviceIID, s.additionalInfoDevice)

/-- How many of the three pending flags are set. -/
def pendingCount (st : AppNetworkStatus) : Nat :=
  (if st.pendingAdd then 1 else 0) + (if st.pendingModify then 1 else 0) +
  (if st.pendingDelete then 1 else 0)

/-- All three pending flags are clear. -/
def quiescent (st : AppNetworkStatus) : Prop :=
  st.pendingAdd = false ∧ st.pendingModify = false ∧ st.pendingDelete = false

/-- Every stored status is keyed by its own `Key()` (true of all states the
publisher can produce, since `publishAppNetworkStatus` keys by `Key()`). -/
def WellKeyed (l : List (String × AppNetworkStatus)) : Prop :=
  ∀ p ∈ l, p.2.uuid = p.1

/-- Status rejected by an unsupported modify: pending-modify cleared and the
error recorded, everything else untouched. -/
def modifyRejectStatus (status0 : AppNetworkStatus) (msg : String) (now : Nat) :
    AppNetworkStatus :=
  { status0 with pendingModify := false,
                 error := appendError status0.error "handleModify" msg,
                 errorTime := now }

/-- The whole outcome of an unsupported modify: the rejected status is the
only thing published, under the instance's key. -/
def modifyRejectResult (s : State) (status0 : AppNetworkStatus) (msg : String)
    (now : Nat) : State × List Effect :=
  ({ s with appStatuses :=
      upsert s.appStatuses status0.uuid (modifyRejectStatus status0 msg now) },
   [Effect.publishApp status0.uuid (modifyRejectStatus status0 msg now)])

/-- The status as re-stamped by an accepted modify before any per-interface
work (source lines 1396-1398): data-plane flag refreshed from the context,
pending-modify raised, UUID+version taken from the new config. -/
def modifyStampedStatus (s : State) (config : AppNetworkConfig)
    (status0 : AppNetworkStatus) : AppNetworkStatus :=
  { status0 with separateDataPlane := s.separateDataPlane,
                 pendingModify := true,
                 uuid := config.uuid, version := config.version }

/-- Effects that are pure pubsub publications (no host-networking, ACL,
ipset or DHCP-helper side effect). -/
def isPubEffect : Effect → Bool
  | Effect.publishApp _ _ => true
  | Effect.unpublishApp _ => true
  | Effect.publishNet _ _ => true
  | _ => false

/-- Concrete fixture: one ACL rule referencing one DNS name. -/
def exAce : ACE := { dnsNames := ["example.com"], body := "allow" }

/-- Concrete fixture: logical network net1 with bridge bn7 (bridge number 7),
its required ipset already installed, and a two-address pool. -/
def exNetStatus : NetworkObjectStatus :=
  { uuid := "net1", bridgeNum := 7, bridgeName := "bn7",
    bridgeIPAddr := "10.0.0.1", dnsNameToIPList := ["example.com"],
    bridgeIPSets := ["example.com"], vifs := [], ipAssignments := [],
    pool := ["10.0.0.2", "10.0.0.3"] }

/-- Concrete fixture: base state with net1 present (config and status). -/
def exState : State :=
  { appStatuses := [], netConfigs := [("net1", { body := "nc" })],
    netStatuses := [("net1", exNetStatus)], appLinks := [], bridgeSvcIP := [],
    appNums := [], deviceEID := "", deviceIID := 0,
    additionalInfoDevice := none, separateDataPlane := false }

/-- Concrete fixture: host with bridge bn7 present. -/
def exEnv : Env := { bridges := [("bn7", "aa:bb:cc:dd:ee:ff")], now := 5 }

/-- Concrete fixture: an underlay attachment to net1. -/
def exUlConfig : UnderlayNetworkConfig :=
  { network := "net1", appMacAddr := none, appIPAddr := none, acls := [exAce] }

/-- Concrete fixture: app instance appA with one underlay on net1. -/
def exCfgU : AppNetworkConfig :=
  { uuid := "appA", version := "1", displayName := "A", isZedmanager := false,
    separateDataPlane := false, olList := [], ulList := [exUlConfig] }

/-- State after creating appA. -/
def exAfterCreateU : State :=
  (step exEnv exState (ConfigEvent.modify "appA" exCfgU)).1

/-- Result of re-delivering the identical config as a modify. -/
def exModifyRes : State × List Effect :=
  step exEnv exAfterCreateU (ConfigEvent.modify "appA" exCfgU)

/-- Concrete fixture: an overlay attachment to net1. -/
def exOlConfig : OverlayNetworkConfig :=
  { network := "net1", eid := "fd00::1", appMacAddr := none, acls := [exAce],
    mgmtIID := 0, mgmtMapServers := [], mgmtDnsNameToIPList := [],
    lispSignature := "sig", additionalInfoDevice := none }

/-- Concrete fixture: app instance with one overlay on net1, parameterised by
UUID. -/
def exCfgOl (u : String) : AppNetworkConfig :=
  { uuid := u, version := "1", displayName := u, isZedmanager := false,
    separateDataPlane := false, olList := [exOlConfig], ulList := [] }

/-- Create of olA, then of olB, from the base state. -/
def exR1 : State × List Effect :=
  step exEnv exState (ConfigEvent.modify "olA" (exCfgOl "olA"))

/-- Second overlay instance created after the first. -/
def exR2 : State × List Effect :=
  step exEnv exR1.1 (ConfigEvent.modify "olB" (exCfgOl "olB"))

/-- Concrete fixture: instance referencing a network with no records at all. -/
def exCfgMissing : AppNetworkConfig :=
  { uuid := "appC", version := "1", displayName := "C", isZedmanager := false,
    separateDataPlane := false, olList := [],
    ulList := [{ network := "netX", appMacAddr := none, appIPAddr := none,
                 acls := [] }] }

/-- Result of creating the instance whose network is entirely absent. -/
def exResMissing : State × List Effect :=
  step exEnv exState (ConfigEvent.modify "appC" exCfgMissing)

/-- Base state extended with a config record (but no status record) for netY. -/
def exStateB : State :=
  { exState with netConfigs := exState.netConfigs ++ [("netY", { body := "y" })] }

/-- Concrete fixture: instance referencing netY (config present, status
missing). -/
def exCfgB : AppNetworkConfig :=
  { uuid := "appD", version := "1", displayName := "D", isZedmanager := false,
    separateDataPlane := false, olList := [],
    ulList := [{ network := "netY", appMacAddr := none, appIPAddr := none,
                 acls := [] }] }

/-- Result of creating the instance whose network has config but no status. -/
def exResB : State × List Effect :=
  step exEnv exStateB (ConfigEvent.modify "appD" exCfgB)

/-- Concrete fixture: a well-formed management instance config with the
experimental data plane enabled. -/
def exCfgMgmtGood : AppNetworkConfig :=
  { uuid := "mgmt", version := "1", displayName := "M", isZedmanager := true,
    separateDataPlane := true, olList := [exOlConfig], ulList := [] }

/-- State after the management create. -/
def exMgmtState : State :=
  (step exEnv exState (ConfigEvent.modify "mgmt" exCfgMgmtGood)).1

/-- Concrete fixture: the same management config with a bumped version and the
data plane flag flipped. -/
def exCfgMgmtMod : AppNetworkConfig :=
  { exCfgMgmtGood with version := "2", separateDataPlane := false }

/-- Result of the tunneling-mode-change modify. -/
def exMgmtModRes : State × List Effect :=
  step exEnv exMgmtState (ConfigEvent.modify "mgmt" exCfgMgmtMod)

/-- Concrete fixture: malformed management config (two overlays). -/
def exCfgMgmtBad : AppNetworkConfig :=
  { uuid := "mgmt", version := "1", displayName := "M", isZedmanager := true,
    separateDataPlane := false, olList := [exOlConfig, exOlConfig],
    ulList := [] }

/-- State with one stored status whose own key disagrees with its map key. -/
def exMismatchState : State :=
  { exState with appStatuses := [("k1", initialCreateStatus exCfgU 1)] }

/-- Effect discriminator: is this an AppNetworkStatus publish? -/
def isPublishApp : Effect → Bool
  | Effect.publishApp _ _ => true
  | _ => false

/-- Effect discriminator: is this an AppNetworkStatus unpublish? -/
def isUnpublishApp : Effect → Bool
  | Effect.unpublishApp _ => true
  | _ => false

/-- Effect discriminator: did the process die (`log.Fatal`)? -/
def isFatal : Effect → Bool
  | Effect.fatal _ => true
  | _ => false

/-- The state components no per-interface loop ever writes (everything except
the app-status and network-status tables). -/
def PreservedTables (s1 s2 : State) : Prop :=
  s2.netConfigs = s1.netConfigs ∧ s2.appNums = s1.appNums ∧
  s2.appLinks = s1.appLinks ∧ s2.bridgeSvcIP = s1.bridgeSvcIP ∧
  s2.deviceEID = s1.deviceEID ∧ s2.deviceIID = s1.deviceIID ∧
  s2.additionalInfoDevice = s1.additionalInfoDevice ∧
  s2.separateDataPlane = s1.separateDataPlane

/-- The app-status table is unchanged at every key other than `key`. -/
def AppMapSame (s1 s2 : State) (key : String) : Prop :=
  ∀ k, k ≠ key → lookupKV s2.appStatuses k = lookupKV s1.appStatuses k

/-- A status the loops may publish in place of the running one: same identity
and same pending-modify/delete flags; pending-add may only have been cleared. -/
def FlagsLike (st0 st : AppNetworkStatus) : Prop :=
  st.uuid = st0.uuid ∧ st.isZedmanager = st0.isZedmanager ∧
  st.pendingModify = st0.pendingModify ∧ st.pendingDelete = st0.pendingDelete ∧
  (st.pendingAdd = st0.pendingAdd ∨ st.pendingAdd = false)

/-- What one pass of any per-interface loop guarantees, relative to the
original local status `st0`. -/
def LoopOut (st0 : AppNetworkStatus) (a b : StepAcc) : Prop :=
  PreservedTables a.st b.st ∧
  AppMapSame a.st b.st st0.uuid ∧
  (lookupKV b.st.appStatuses st0.uuid = lookupKV a.st.appStatuses st0.uuid ∨
    ∃ st, lookupKV b.st.appStatuses st0.uuid = some st ∧ FlagsLike st0 st) ∧
  FlagsLike st0 b.status ∧
  (∀ k st, Effect.publishApp k st ∈ b.effs →
    Effect.publishApp k st ∈ a.effs ∨ (k = st0.uuid ∧ FlagsLike st0 st)) ∧
  (∀ k, Effect.unpublishApp k ∈ b.effs → Effect.unpublishApp k ∈ a.effs) ∧
  (WellKeyed a.st.appStatuses → WellKeyed b.st.appStatuses)

/-- The device identity exists only while a management status is published. -/
def MgmtInv (s : State) : Prop :=
  s.deviceEID ≠ "" →
    ∃ k st, lookupKV s.appStatuses k = some st ∧ st.isZedmanager = true

/-- Decimal read-back of a digit list (the left inverse used to prove
`Nat.repr` injective). -/
def ofDigitsAcc : Nat → List Char → Nat
  | a, [] => a
  | a, c :: cs => ofDigitsAcc (a * 10 + (c.toNat - 48)) cs

/-- The three interface-name families the create path produces. -/
inductive VifKind where
  | mgmtOl : VifKind
  | ol : VifKind
  | ul : VifKind
deriving DecidableEq

/-- The interface name of each family: `dbo<i>x<appNum>` for the management
overlay, `nbo<i>x<bridgeNum>` for ordinary overlays, `nbu<i>x<appNum>` for
underlays. -/
def vifBaseName : VifKind → Nat → Nat → String
  | VifKind.mgmtOl, i, n => mgmtOlIfname i n
  | VifKind.ol, i, n => olVifname i n
  | VifKind.ul, i, n => ulVifname i n

/-- The loop accumulator `handleModify`'s non-management tail starts from:
state and trace after the pending-modify publish, local status re-stamped. -/
def modAcc0 (s : State) (config : AppNetworkConfig)
    (status0 : AppNetworkStatus) : StepAcc :=
  { st := (publishAppNetworkStatus s (modifyStampedStatus s config status0)).1,
    status := modifyStampedStatus s config status0,
    effs := [(publishAppNetworkStatus s (modifyStampedStatus s config status0)).2] }

/-- The accumulator after both per-interface loops of the non-management
`handleModify`. -/
def modAcc2 (env : Env) (s : State) (config : AppNetworkConfig)
    (status0 : AppNetworkStatus) : StepAcc :=
  modUlLoop env (compileAppInstanceIpsets config.olList config.ulList) 0
    config.ulList
    (modOlLoop env (compileAppInstanceIpsets config.olList config.ulList) 0
      config.olList (modAcc0 s config status0))

/-- The status committed at the end of an accepted non-management modify:
interface lists rebuilt from config, pending-modify cleared. -/
def modFinalStatus (env : Env) (s : State) (config : AppNetworkConfig)
    (status0 : AppNetworkStatus) : AppNetworkStatus :=
  { (modAcc2 env s config status0).status with
      olList := config.olList.map zeroOlStatus,
      ulList := config.ulList.map zeroUlStatus,
      pendingModify := false }

/-- The local status of the non-management `handleCreate` as the loops start:
interface lists sized from config. -/
def createStatus1 (config : AppNetworkConfig) (appNum : Nat) :
    AppNetworkStatus :=
  { initialCreateStatus config appNum with
      olList := config.olList.map zeroOlStatus,
      ulList := config.ulList.map zeroUlStatus }

/-- Result of the overlay loop of the non-management `handleCreate`, started
from state `sIn`. -/
def createR1 (env : Env) (sIn : State) (config : AppNetworkConfig)
    (appNum : Nat) : StepAcc × Bool :=
  createOlLoop env config appNum
    (compileAppInstanceIpsets config.olList config.ulList) 0 config.olList
    { st := sIn, status := createStatus1 config appNum, effs := [] }

/-- Result of the underlay loop of the non-management `handleCreate`. -/
def createR2 (env : Env) (sIn : State) (config : AppNetworkConfig)
    (appNum : Nat) : StepAcc × Bool :=
  createUlLoop env config appNum
    (compileAppInstanceIpsets config.olList config.ulList) 0 config.ulList
    (createR1 env sIn config appNum).1

/-- The local status of `handleDelete` after pending-delete is raised. -/
def delStatus1 (status0 : AppNetworkStatus) : AppNetworkStatus :=
  { status0 with pendingDelete := true }

/-- The accumulator the `handleDelete` per-interface loops start from. -/
def delAcc0 (s : State) (status0 : AppNetworkStatus) : StepAcc :=
  { st := (publishAppNetworkStatus s (delStatus1 status0)).1,
    status := delStatus1 status0,
    effs := [(publishAppNetworkStatus s (delStatus1 status0)).2] }

/-- Result of both `handleDelete` per-interface loops. -/
def delR2 (env : Env) (s : State) (status0 : AppNetworkStatus) :
    StepAcc × Bool :=
  delUlLoop env
    (compileOldAppInstanceIpsets (publishAppNetworkStatus s (delStatus1 status0)).1
      (delStatus1 status0).uuid)
    1 (delStatus1 status0).ulNum
    (delOlLoop env
      (compileOldAppInstanceIpsets
        (publishAppNetworkStatus s (delStatus1 status0)).1
        (delStatus1 status0).uuid)
      1 (delStatus1 status0).olNum (delAcc0 s status0))

/-! ### Association-list lemmas -/

theorem lookupKV_upsert_self {α : Type} (l : List (String × α)) (k : String)
    (v : α) : lookupKV (upsert l k v) k = some v := by
  simp [upsert, lookupKV]

theorem lookupKV_eraseKey_ne {α : Type} (l : List (String × α)) (k k2 : String)
    (h : k2 ≠ k) : lookupKV (eraseKey l k) k2 = lookupKV l k2 := by
  induction l with
  | nil => simp [eraseKey, lookupKV]
  | cons p rest ih =>
      cases p with
      | mk a b =>
        by_cases hak : a = k
        · subst hak
          have hak2 : ¬ (a = k2) := fun hc => h hc.symm
          simp [eraseKey, List.filter, lookupKV, hak2] at ih ⊢
          exact ih
        · by_cases hk2 : a = k2
          · subst hk2
            simp [eraseKey, List.filter, hak, lookupKV, h]
          · simp [eraseKey, List.filter, hak, lookupKV, hk2] at ih ⊢
            exact ih

theorem lookupKV_eraseKey_self {α : Type} (l : List (String × α))
    (k : String) : lookupKV (eraseKey l k) k = none := by
  induction l with
  | nil => simp [eraseKey, lookupKV]
  | cons p rest ih =>
      by_cases hp : p.1 = k
      · simpa [eraseKey, List.filter, hp] using ih
      · cases p with
        | mk a b => simp_all [eraseKey, List.filter, lookupKV]

theorem lookupKV_upsert_ne {α : Type} (l : List (String × α)) (k k2 : String)
    (v : α) (h : k2 ≠ k) : lookupKV (upsert l k v) k2 = lookupKV l k2 := by
  have : k ≠ k2 := fun hc => h hc.symm
  simp [upsert, lookupKV, this]
  exact lookupKV_eraseKey_ne l k k2 h

theorem lookupKV_mem {α : Type} {l : List (String × α)} {k : String} {v : α}
    (h : lookupKV l k = some v) : (k, v) ∈ l := by
  induction l with
  | nil => simp [lookupKV] at h
  | cons p rest ih =>
      cases p with
      | mk a b =>
        by_cases ha : a = k
        · subst ha
          simp [lookupKV] at h
          subst h
          exact List.mem_cons_self _ _
        · simp [lookupKV, ha] at h
          exact List.mem_cons_of_mem _ (ih h)

theorem mem_eraseKey {α : Type} {l : List (String × α)} {k : String}
    {p : String × α} (h : p ∈ eraseKey l k) : p ∈ l := by
  exact List.mem_of_mem_filter h

theorem mem_upsert {α : Type} {l : List (String × α)} {k : String} {v : α}
    {p : String × α} (h : p ∈ upsert l k v) : p = (k, v) ∨ p ∈ l := by
  rcases List.mem_cons.mp h with h1 | h1
  · exact Or.inl h1
  · exact Or.inr (mem_eraseKey h1)

theorem eraseKey_upsert {α : Type} (l : List (String × α)) (k : String)
    (v : α) : eraseKey (upsert l k v) k = eraseKey l k := by
  simp [upsert, eraseKey, List.filter_filter]

/-! ### C9: delete of an absent key is a no-op -/

/-- C9: Delivering a delete event (`handleAppNetworkConfigDelete`) for a key
with no existing AppNetworkStatus returns immediately: the state is unchanged
and no effect of any kind (error, publish, unpublish, host-networking,
allocator) is produced. -/
theorem c9_delete_absent_noop (env : Env) (s : State) (key : String)
    (h : lookupAppNetworkStatus s key = none) :
    handleAppNetworkConfigDelete env s key = (s, []) := by
  simp [handleAppNetworkConfigDelete, h]

theorem c9_delete_absent_noop_witness :
    handleAppNetworkConfigDelete exEnv exState "ghost" = (exState, []) :=
  c9_delete_absent_noop exEnv exState "ghost" rfl

/-! ### C10: key/UUID mismatch means the event is ignored -/

/-- C10: An inbound config event whose key differs from the config value's own
key is ignored entirely (state unchanged, no effects); and a status lookup
whose stored record's key mismatches the requested key reports not-found. -/
theorem c10_key_mismatch_ignored :
    (∀ (env : Env) (s : State) (key : String) (config : AppNetworkConfig),
      config.uuid ≠ key →
      handleAppNetworkConfigModify env s key config = (s, [])) ∧
    (∀ (s : State) (key : String) (st : AppNetworkStatus),
      lookupKV s.appStatuses key = some st → st.uuid ≠ key →
      lookupAppNetworkStatus s key = none) := by
  constructor
  · intro env s key config h
    simp [handleAppNetworkConfigModify, h]
  · intro s key st h hne
    simp [lookupAppNetworkStatus, h, hne]

theorem c10_key_mismatch_ignored_witness :
    handleAppNetworkConfigModify exEnv exState "wrongkey" exCfgU =
      (exState, []) ∧
    lookupAppNetworkStatus exMismatchState "k1" = none := by
  constructor
  · exact c10_key_mismatch_ignored.1 exEnv exState "wrongkey" exCfgU (by decide)
  · exact c10_key_mismatch_ignored.2 exMismatchState "k1"
      (initialCreateStatus exCfgU 1) rfl (by decide)

/-! ### C1: deferral of creates with missing networks — counterexample -/

/-- C1 counterexample.  The claim fails on the code at two concrete inputs.
First conjunct: network netY has a config record but no status record, yet the
create of appD is not deferred — its AppNetworkStatus remains published with a
non-empty error (the deferral check consults the network `config` table, not
the status table).  Second conjunct: network netX has no records at all, the
create of appC is deferred (status unpublished), yet the instance's numeric ID
remains allocated to appC in the allocator table. -/
theorem c1_counterexample :
    (lookupNetworkObjectStatus exStateB "netY" = none ∧
     lookupNetworkObjectConfig exStateB "netY" ≠ none ∧
     (lookupKV exResB.1.appStatuses "appD").isSome = true ∧
     ((lookupKV exResB.1.appStatuses "appD").map AppNetworkStatus.error).getD ""
       ≠ "") ∧
    (lookupNetworkObjectStatus exState "netX" = none ∧
     lookupKV exResMissing.1.appStatuses "appC" = none ∧
     lookupKV exResMissing.1.appNums "appC" = some 1) := by
  decide

/-! ### C3: unsupported-modify atomicity — counterexample -/

/-- C3 counterexample.  A modify of the management instance that flips the
tunneling-mode flag (and carries a new version) is rejected — pending-modify
cleared, error recorded — but the status is not otherwise byte-for-byte
unchanged: before the modify the published status had version "1" and
`SeparateDataPlane = false`; after the rejected modify it has version "2" and
`SeparateDataPlane = true` (lines 1396-1399 run before the check). -/
theorem c3_counterexample :
    ((lookupKV exMgmtState.appStatuses "mgmt").map
       (fun st => (st.version, st.separateDataPlane, st.error)) =
       some ("1", false, "")) ∧
    ((lookupKV exMgmtModRes.1.appStatuses "mgmt").map
       (fun st => (st.version, st.separateDataPlane, st.pendingModify)) =
       some ("2", true, false)) ∧
    ((lookupKV exMgmtModRes.1.appStatuses "mgmt").map AppNetworkStatus.error).getD ""
       ≠ "" := by
  decide

/-! ### C4: accepted modify preserves bindings — the code wipes them -/

/-- C4 (code bug).  After creating appA with one underlay, its status records
the bridge, vif, MAC and leased addresses.  An accepted modify (identical
config) rebuilds the per-interface status lists from config only (source lines
1586-1598), wiping every binding: Bridge, Vif, Mac, BridgeIPAddr and
AssignedIPAddr all become empty.  (A later delete would then even hit the
process-fatal `ParseMAC("")` at source line 1868.) -/
theorem c4_modify_wipes_bindings :
    ((lookupKV exAfterCreateU.appStatuses "appA").map
       (fun st => st.ulList.map
         (fun u => (u.bridge, u.vif, u.mac, u.bridgeIPAddr, u.assignedIPAddr))) =
       some [("bn7", "nbu1x1", "00:16:3e:00:01:01", "10.0.0.2", "10.0.0.3")]) ∧
    ((lookupKV exModifyRes.1.appStatuses "appA").map
       (fun st => st.ulList.map
         (fun u => (u.bridge, u.vif, u.mac, u.bridgeIPAddr, u.assignedIPAddr))) =
       some [("", "", "", "", "")]) :=
  ⟨by decide, by decide⟩

/-! ### C5: re-processing an unchanged modify -/

/-- C5 (code bug).  Re-delivering the identical config as a modify produces no
ACL/ipset/DHCP-helper side effect (the trace holds only pubsub publications),
and yet the published AppNetworkStatus is not left unchanged: the binding
fields of its underlay entry are wiped (same defect as C4), so the status
after differs from the status before. -/
theorem c5_unchanged_modify_not_identity :
    ((lookupKV exAfterCreateU.appStatuses "appA").map
       (fun st => (st.uuid, st.version, st.ulList.map (fun u => u.cfg))) =
       some ("appA", "1", exCfgU.ulList)) ∧
    exModifyRes.2.all isPubEffect = true ∧
    lookupKV exModifyRes.1.appStatuses "appA" ≠
      lookupKV exAfterCreateU.appStatuses "appA" := by
  decide

/-! ### C8: interface naming — counterexample -/

/-- C8 counterexample.  Two instances (numeric IDs 1 and 2) each attach
overlay index 1 to the same network: both vifs are named "nbo1x7" (the
overlay vif is keyed by the network's bridge number, source line 1003), so
distinct (direction, index, numeric ID) triples do not yield distinct names,
and the name is not a function of that triple. -/
theorem c8_counterexample :
    ((lookupKV exR1.1.appStatuses "olA").map AppNetworkStatus.appNum = some 1) ∧
    ((lookupKV exR2.1.appStatuses "olB").map AppNetworkStatus.appNum = some 2) ∧
    ((lookupKV exR1.1.appStatuses "olA").map
       (fun st => st.olList.map OverlayNetworkStatus.vif) = some ["nbo1x7"]) ∧
    ((lookupKV exR2.1.appStatuses "olB").map
       (fun st => st.olList.map OverlayNetworkStatus.vif) = some ["nbo1x7"]) := by
  decide

/-! ### C2: malformed management create -/

theorem appendError_ne_empty (a t m : String) : appendError a t m ≠ "" := by
  intro h
  have h2 := congrArg String.data h
  simp [appendError, String.data_append] at h2

/-- C2: A create whose config has the management flag set together with other
than exactly one overlay and zero underlays is aborted before any interface or
address work: the published status has a non-empty error, PendingAdd cleared
(and the other pending flags clear), empty interface lists, the whole effect
trace is just the two status publications (so no allocation or configlet
side effect), and in particular no virtual interface is created. -/
theorem c2_mgmt_malformed_create_aborts (env : Env) (s : State) (key : String)
    (config : AppNetworkConfig) (hz : config.isZedmanager = true)
    (hbad : config.olList.length ≠ 1 ∨ config.ulList.length ≠ 0) :
    ∃ st, lookupKV (handleCreate env s key config).1.appStatuses config.uuid = some st ∧
      st.pendingAdd = false ∧ st.pendingModify = false ∧ st.pendingDelete = false ∧
      st.error ≠ "" ∧ st.olList = [] ∧ st.ulList = [] ∧
      (handleCreate env s key config).2 =
        [Effect.publishApp config.uuid (initialCreateStatus config st.appNum),
         Effect.publishApp config.uuid st] ∧
      ∀ ifname mac, Effect.linkAdd ifname mac ∉ (handleCreate env s key config).2 := by
  refine ⟨{ initialCreateStatus config (appNumAllocate s config.uuid config.isZedmanager).1 with
            pendingAdd := false,
            error := appendError "" "IsZedmanager" "Malformed IsZedmanager config; ignored",
            errorTime := env.now }, ?_, rfl, rfl, rfl, appendError_ne_empty _ _ _, rfl, rfl, ?_, ?_⟩
  · simp only [handleCreate, handleCreateMgmt, hz, if_true, if_pos hbad, addError,
      publishAppNetworkStatus, initialCreateStatus]
    rw [lookupKV_upsert_self]
  · simp only [handleCreate, handleCreateMgmt, hz, if_true, if_pos hbad, addError,
      publishAppNetworkStatus, initialCreateStatus]
  · intro ifname mac
    simp only [handleCreate, handleCreateMgmt, hz, if_true, if_pos hbad, addError,
      publishAppNetworkStatus, initialCreateStatus]
    simp only [List.mem_cons, List.not_mem_nil, or_false]
    rintro (h | h) <;> exact Effect.noConfusion h

theorem c2_mgmt_malformed_create_aborts_witness :
    ∃ st, lookupKV (handleCreate exEnv exState "mgmt" exCfgMgmtBad).1.appStatuses
        exCfgMgmtBad.uuid = some st ∧
      st.pendingAdd = false ∧ st.pendingModify = false ∧ st.pendingDelete = false ∧
      st.error ≠ "" ∧ st.olList = [] ∧ st.ulList = [] ∧
      (handleCreate exEnv exState "mgmt" exCfgMgmtBad).2 =
        [Effect.publishApp exCfgMgmtBad.uuid (initialCreateStatus exCfgMgmtBad st.appNum),
         Effect.publishApp exCfgMgmtBad.uuid st] ∧
      ∀ ifname mac,
        Effect.linkAdd ifname mac ∉ (handleCreate exEnv exState "mgmt" exCfgMgmtBad).2 :=
  c2_mgmt_malformed_create_aborts exEnv exState "mgmt" exCfgMgmtBad rfl (by decide)

/-! ### C1 amended: deferral keyed on the network-config table -/

theorem appNumAllocate_appStatuses (s : State) (u : String) (z : Bool) :
    (appNumAllocate s u z).2.appStatuses = s.appStatuses := by
  unfold appNumAllocate
  split
  · rfl
  · split <;> rfl

theorem appNumAllocate_netConfigs (s : State) (u : String) (z : Bool) :
    (appNumAllocate s u z).2.netConfigs = s.netConfigs := by
  unfold appNumAllocate
  split
  · rfl
  · split <;> rfl

theorem appNumAllocate_netStatuses (s : State) (u : String) (z : Bool) :
    (appNumAllocate s u z).2.netStatuses = s.netStatuses := by
  unfold appNumAllocate
  split
  · rfl
  · split <;> rfl

theorem appNumAllocate_deviceEID (s : State) (u : String) (z : Bool) :
    (appNumAllocate s u z).2.deviceEID = s.deviceEID := by
  unfold appNumAllocate
  split
  · rfl
  · split <;> rfl

theorem appNumAllocate_deviceIID (s : State) (u : String) (z : Bool) :
    (appNumAllocate s u z).2.deviceIID = s.deviceIID := by
  unfold appNumAllocate
  split
  · rfl
  · split <;> rfl

theorem appNumAllocate_addInfo (s : State) (u : String) (z : Bool) :
    (appNumAllocate s u z).2.additionalInfoDevice = s.additionalInfoDevice := by
  unfold appNumAllocate
  split
  · rfl
  · split <;> rfl

theorem appNumAllocate_sep (s : State) (u : String) (z : Bool) :
    (appNumAllocate s u z).2.separateDataPlane = s.separateDataPlane := by
  unfold appNumAllocate
  split
  · rfl
  · split <;> rfl

theorem appNumAllocate_appLinks (s : State) (u : String) (z : Bool) :
    (appNumAllocate s u z).2.appLinks = s.appLinks := by
  unfold appNumAllocate
  split
  · rfl
  · split <;> rfl

theorem appNumAllocate_bridgeSvcIP (s : State) (u : String) (z : Bool) :
    (appNumAllocate s u z).2.bridgeSvcIP = s.bridgeSvcIP := by
  unfold appNumAllocate
  split
  · rfl
  · split <;> rfl

theorem lookupKV_appNumAllocate (s : State) (u : String) (z : Bool) :
    lookupKV (appNumAllocate s u z).2.appNums u = some (appNumAllocate s u z).1 := by
  unfold appNumAllocate
  split
  · simp [lookupKV_upsert_self]
  · split
    · next n heq => simp [heq]
    · simp [lookupKV_upsert_self]

/-- C1 as amended: the deferral check consults the network-`config` table.
For every non-management create in which some referenced logical network has
no *config* record, the whole create is deferred: the just-published status is
unpublished again (so none remains for the instance, and the only value ever
published had an empty error and PendingAdd set), the network tables, device
identity and data-plane flag are untouched, and no bridge/address/configlet
effect occurs (the trace is exactly the publish + unpublish pair).  The
instance's numeric ID, however, is allocated before the check and retained by
the allocator. -/
theorem c1_missing_network_defers (env : Env) (s : State) (key : String)
    (config : AppNetworkConfig)
    (hz : config.isZedmanager = false)
    (hmiss : (config.olList.all (fun o => (lookupNetworkObjectConfig s o.network).isSome) &&
              config.ulList.all (fun u => (lookupNetworkObjectConfig s u.network).isSome)) = false) :
    (handleCreate env s key config).1.appStatuses = eraseKey s.appStatuses config.uuid ∧
    (handleCreate env s key config).1.netConfigs = s.netConfigs ∧
    (handleCreate env s key config).1.netStatuses = s.netStatuses ∧
    identityOf (handleCreate env s key config).1 = identityOf s ∧
    (handleCreate env s key config).1.separateDataPlane = s.separateDataPlane ∧
    lookupKV (handleCreate env s key config).1.appNums config.uuid =
      some (appNumAllocate s config.uuid false).1 ∧
    (handleCreate env s key config).2 =
      [Effect.publishApp config.uuid
         (initialCreateStatus config (appNumAllocate s config.uuid false).1),
       Effect.unpublishApp config.uuid] ∧
    (initialCreateStatus config (appNumAllocate s config.uuid false).1).error = "" ∧
    (initialCreateStatus config (appNumAllocate s config.uuid false).1).pendingAdd = true := by
  have hns : (appNumAllocate s config.uuid false).2.netConfigs = s.netConfigs :=
    appNumAllocate_netConfigs s config.uuid false
  simp only [handleCreate, handleCreateApp, hz, Bool.false_eq_true, if_false,
    publishAppNetworkStatus, initialCreateStatus, lookupNetworkObjectConfig, hns]
  rw [if_pos]
  · simp [unpublishAppNetworkStatus, lookupKV_upsert_self, initialCreateStatus,
      eraseKey_upsert, appNumAllocate_appStatuses, appNumAllocate_netConfigs,
      appNumAllocate_netStatuses, appNumAllocate_deviceEID, appNumAllocate_deviceIID,
      appNumAllocate_addInfo, appNumAllocate_sep, identityOf,
      lookupKV_appNumAllocate]
  · simpa [lookupNetworkObjectConfig, hns] using hmiss

theorem c1_missing_network_defers_witness :
    (handleCreate exEnv exState "appC" exCfgMissing).1.appStatuses =
      eraseKey exState.appStatuses exCfgMissing.uuid ∧
    (handleCreate exEnv exState "appC" exCfgMissing).1.netConfigs = exState.netConfigs ∧
    (handleCreate exEnv exState "appC" exCfgMissing).1.netStatuses = exState.netStatuses ∧
    identityOf (handleCreate exEnv exState "appC" exCfgMissing).1 = identityOf exState ∧
    (handleCreate exEnv exState "appC" exCfgMissing).1.separateDataPlane =
      exState.separateDataPlane ∧
    lookupKV (handleCreate exEnv exState "appC" exCfgMissing).1.appNums exCfgMissing.uuid =
      some (appNumAllocate exState exCfgMissing.uuid false).1 ∧
    (handleCreate exEnv exState "appC" exCfgMissing).2 =
      [Effect.publishApp exCfgMissing.uuid
         (initialCreateStatus exCfgMissing (appNumAllocate exState exCfgMissing.uuid false).1),
       Effect.unpublishApp exCfgMissing.uuid] ∧
    (initialCreateStatus exCfgMissing (appNumAllocate exState exCfgMissing.uuid false).1).error = "" ∧
    (initialCreateStatus exCfgMissing (appNumAllocate exState exCfgMissing.uuid false).1).pendingAdd = true :=
  c1_missing_network_defers exEnv exState "appC" exCfgMissing rfl (by decide)

/-! ### C3 amended: unsupported modifies -/

theorem upsert_upsert {α : Type} (l : List (String × α)) (k : String)
    (v1 v2 : α) : upsert (upsert l k v1) k v2 = upsert l k v2 := by
  have h := eraseKey_upsert l k v1
  simp only [upsert] at h ⊢
  rw [h]

/-- C3 as amended.  A modify that changes the management flag, the overlay
count, or the underlay count is rejected atomically: PendingModify cleared, an
error recorded, and the status otherwise byte-for-byte unchanged (with the
original interface lists, hence bridge/vif/address bindings).  A modify of the
management instance that changes the tunneling-mode flag is likewise rejected
with PendingModify cleared and an error recorded, but — the amendment forced
by the counterexample — its UUIDandVersion is first updated to the new
config's and its SeparateDataPlane field refreshed from the context (source
lines 1396-1399 run before the check); the interface lists and their bindings
are still unchanged. -/
theorem c3_unsupported_modify_rejected (env : Env) (s : State) (key : String)
    (config : AppNetworkConfig) (status0 : AppNetworkStatus) :
    (config.isZedmanager ≠ status0.isZedmanager →
      handleModify env s key config status0 = modifyRejectResult s status0
        ("Unsupported: IsZedmanager changed for " ++ config.uuid) env.now) ∧
    (config.isZedmanager = status0.isZedmanager →
     config.olList.length ≠ status0.olNum →
      handleModify env s key config status0 = modifyRejectResult s status0
        ("Unsupported: Changed number of overlays for " ++ config.uuid) env.now) ∧
    (config.isZedmanager = status0.isZedmanager →
     config.olList.length = status0.olNum →
     config.ulList.length ≠ status0.ulNum →
      handleModify env s key config status0 = modifyRejectResult s status0
        ("Unsupported: Changed number of underlays for " ++ config.uuid) env.now) ∧
    (config.isZedmanager = status0.isZedmanager →
     config.olList.length = status0.olNum →
     config.ulList.length = status0.ulNum →
     config.isZedmanager = true →
     config.separateDataPlane ≠ s.separateDataPlane →
      handleModify env s key config status0 =
        ({ s with appStatuses :=
                    upsert s.appStatuses config.uuid
                      (modifyRejectStatus (modifyStampedStatus s config status0)
                        "Unsupported: Changing experimental data plane flag on the fly" env.now) },
         [Effect.publishApp config.uuid (modifyStampedStatus s config status0),
          Effect.publishApp config.uuid
            (modifyRejectStatus (modifyStampedStatus s config status0)
              "Unsupported: Changing experimental data plane flag on the fly" env.now)])) := by
  refine ⟨?_, ?_, ?_, ?_⟩
  · intro h1
    simp only [handleModify, if_pos h1, addError, publishAppNetworkStatus,
      modifyRejectResult, modifyRejectStatus]
  · intro h1 h2
    simp only [handleModify, h1, ne_eq, not_true_eq_false, if_neg, if_pos h2,
      addError, publishAppNetworkStatus, modifyRejectResult, modifyRejectStatus]
    simp
  · intro h1 h2 h3
    simp only [handleModify, h1, h2, ne_eq, not_true_eq_false, if_neg, if_pos h3,
      addError, publishAppNetworkStatus, modifyRejectResult, modifyRejectStatus]
    simp
  · intro h1 h2 h3 hz h4
    have hst : status0.isZedmanager = true := h1.symm.trans hz
    simp [handleModify, hz, hst, h2, h3, h4, addError, publishAppNetworkStatus,
      modifyRejectStatus, modifyStampedStatus, upsert_upsert]

theorem c3_unsupported_modify_rejected_witness :
    (handleModify exEnv exState "appA" exCfgMgmtGood (initialCreateStatus exCfgU 1) =
      modifyRejectResult exState (initialCreateStatus exCfgU 1)
        ("Unsupported: IsZedmanager changed for " ++ exCfgMgmtGood.uuid) exEnv.now) ∧
    (handleModify exEnv exState "appA" exCfgU (initialCreateStatus (exCfgOl "appA") 1) =
      modifyRejectResult exState (initialCreateStatus (exCfgOl "appA") 1)
        ("Unsupported: Changed number of overlays for " ++ exCfgU.uuid) exEnv.now) ∧
    (handleModify exEnv exState "appA" exCfgU
        { initialCreateStatus exCfgU 1 with ulNum := 2 } =
      modifyRejectResult exState { initialCreateStatus exCfgU 1 with ulNum := 2 }
        ("Unsupported: Changed number of underlays for " ++ exCfgU.uuid) exEnv.now) ∧
    (handleModify exEnv exMgmtState "mgmt" exCfgMgmtMod
        ((lookupKV exMgmtState.appStatuses "mgmt").getD default) =
      ({ exMgmtState with
           appStatuses :=
             upsert exMgmtState.appStatuses exCfgMgmtMod.uuid
               (modifyRejectStatus
                 (modifyStampedStatus exMgmtState exCfgMgmtMod
                   ((lookupKV exMgmtState.appStatuses "mgmt").getD default))
                 "Unsupported: Changing experimental data plane flag on the fly" exEnv.now) },
       [Effect.publishApp exCfgMgmtMod.uuid
          (modifyStampedStatus exMgmtState exCfgMgmtMod
            ((lookupKV exMgmtState.appStatuses "mgmt").getD default)),
        Effect.publishApp exCfgMgmtMod.uuid
          (modifyRejectStatus
            (modifyStampedStatus exMgmtState exCfgMgmtMod
              ((lookupKV exMgmtState.appStatuses "mgmt").getD default))
            "Unsupported: Changing experimental data plane flag on the fly" exEnv.now)])) :=
  ⟨(c3_unsupported_modify_rejected exEnv exState "appA" exCfgMgmtGood
      (initialCreateStatus exCfgU 1)).1 (by decide),
   (c3_unsupported_modify_rejected exEnv exState "appA" exCfgU
      (initialCreateStatus (exCfgOl "appA") 1)).2.1 (by decide) (by decide),
   (c3_unsupported_modify_rejected exEnv exState "appA" exCfgU
      { initialCreateStatus exCfgU 1 with ulNum := 2 }).2.2.1 (by decide) (by decide) (by decide),
   (c3_unsupported_modify_rejected exEnv exMgmtState "mgmt" exCfgMgmtMod
      ((lookupKV exMgmtState.appStatuses "mgmt").getD default)).2.2.2
     (by decide) (by decide) (by decide) (by decide) (by decide)⟩

/-! ### C8 amended: interface-name determinism and injectivity -/


theorem digitChar_isDigit {n : Nat} (h : n < 10) : (Nat.digitChar n).isDigit = true := by
  interval_cases n <;> decide

theorem digitChar_toNat {n : Nat} (h : n < 10) : (Nat.digitChar n).toNat - 48 = n := by
  interval_cases n <;> decide

theorem toDigitsCore_acc (b : Nat) : ∀ (fuel n : Nat) (acc : List Char),
    Nat.toDigitsCore b fuel n acc = Nat.toDigitsCore b fuel n [] ++ acc := by
  intro fuel
  induction fuel with
  | zero => intro n acc; simp [Nat.toDigitsCore]
  | succ f ih =>
      intro n acc
      simp only [Nat.toDigitsCore]
      by_cases h : n / b = 0
      · simp [h]
      · simp only [h, if_false]
        rw [ih (n / b) [Nat.digitChar (n % b)], ih (n / b) (Nat.digitChar (n % b) :: acc)]
        simp

theorem toDigitsCore_digits : ∀ (fuel n : Nat) (acc : List Char),
    (∀ c ∈ acc, c.isDigit = true) →
    ∀ c ∈ Nat.toDigitsCore 10 fuel n acc, c.isDigit = true := by
  intro fuel
  induction fuel with
  | zero => intro n acc hacc; simpa [Nat.toDigitsCore] using hacc
  | succ f ih =>
      intro n acc hacc c hc
      have hd : (Nat.digitChar (n % 10)).isDigit = true :=
        digitChar_isDigit (Nat.mod_lt _ (by norm_num))
      simp only [Nat.toDigitsCore] at hc
      by_cases h : n / 10 = 0
      · simp [h] at hc
        rcases hc with rfl | hc
        · exact hd
        · exact hacc c hc
      · simp only [h, if_false] at hc
        refine ih (n / 10) (Nat.digitChar (n % 10) :: acc) ?_ c hc
        intro d hd2
        rcases List.mem_cons.mp hd2 with rfl | hd2
        · exact hd
        · exact hacc d hd2

theorem ofDigitsAcc_append (l1 : List Char) : ∀ (a : Nat) (l2 : List Char),
    ofDigitsAcc a (l1 ++ l2) = ofDigitsAcc (ofDigitsAcc a l1) l2 := by
  induction l1 with
  | nil => intro a l2; rfl
  | cons c rest ih =>
      intro a l2
      rw [List.cons_append]
      show ofDigitsAcc (a * 10 + (c.toNat - 48)) (rest ++ l2) =
        ofDigitsAcc (ofDigitsAcc a (c :: rest)) l2
      rw [ih]
      rfl

theorem ofDigitsAcc_toDigitsCore : ∀ (fuel n : Nat), n < fuel →
    ofDigitsAcc 0 (Nat.toDigitsCore 10 fuel n []) = n := by
  intro fuel
  induction fuel with
  | zero => intro n hn; omega
  | succ f ih =>
      intro n hn
      simp only [Nat.toDigitsCore]
      by_cases h : n / 10 = 0
      · have hlt : n < 10 := by
          by_contra hc
          push_neg at hc
          have := Nat.div_pos hc (by norm_num)
          omega
        rw [if_pos h]
        show ofDigitsAcc (0 * 10 + ((Nat.digitChar (n % 10)).toNat - 48)) [] = n
        rw [digitChar_toNat (Nat.mod_lt n (by norm_num))]
        show 0 * 10 + n % 10 = n
        have hmod := Nat.mod_eq_of_lt hlt
        omega
      · have hpos : 0 < n := by
          rcases Nat.eq_zero_or_pos n with h0 | h0
          · exact absurd (by simp [h0]) h
          · exact h0
        have h1 : n / 10 < n := Nat.div_lt_self hpos (by norm_num)
        rw [if_neg h, toDigitsCore_acc, ofDigitsAcc_append, ih (n / 10) (by omega)]
        have h2 := Nat.div_add_mod n 10
        have h3 := digitChar_toNat (Nat.mod_lt n (show 0 < 10 by norm_num))
        show ofDigitsAcc (n / 10 * 10 + ((Nat.digitChar (n % 10)).toNat - 48)) [] = n
        rw [h3]
        show n / 10 * 10 + n % 10 = n
        omega



theorem toDigits_digits (n : Nat) : ∀ c ∈ Nat.toDigits 10 n, c.isDigit = true := by
  intro c hc
  exact toDigitsCore_digits (n + 1) n [] (by simp) c hc

theorem ofDigitsAcc_toDigits (n : Nat) :
    ofDigitsAcc 0 (Nat.toDigits 10 n) = n :=
  ofDigitsAcc_toDigitsCore (n + 1) n (Nat.lt_succ_self n)

theorem natRepr_inj {m n : Nat} (h : Nat.repr m = Nat.repr n) : m = n := by
  have h2 : Nat.toDigits 10 m = Nat.toDigits 10 n := by
    have := List.asString_inj.mp h
    exact this
  have hm := ofDigitsAcc_toDigits m
  have hn := ofDigitsAcc_toDigits n
  rw [h2] at hm
  rw [hm] at hn
  exact hn

theorem digits_x_split : ∀ (a : List Char) (b a2 b2 : List Char),
    (∀ c ∈ a, c.isDigit = true) → (∀ c ∈ a2, c.isDigit = true) →
    a ++ 'x' :: b = a2 ++ 'x' :: b2 → a = a2 ∧ b = b2 := by
  intro a
  induction a with
  | nil =>
      intro b a2 b2 _ h2 heq
      cases a2 with
      | nil => simpa using heq
      | cons c rest =>
          simp only [List.nil_append, List.cons_append, List.cons.injEq] at heq
          have hd := h2 c (List.mem_cons_self c rest)
          rw [← heq.1] at hd
          simp at hd
  | cons c rest ih =>
      intro b a2 b2 h1 h2 heq
      cases a2 with
      | nil =>
          simp only [List.nil_append, List.cons_append, List.cons.injEq] at heq
          have hd := h1 c (List.mem_cons_self c rest)
          rw [heq.1] at hd
          simp at hd
      | cons c2 rest2 =>
          simp only [List.cons_append, List.cons.injEq] at heq
          obtain ⟨hc, ht⟩ := heq
          obtain ⟨ha, hb⟩ := ih b rest2 b2
            (fun d hd => h1 d (List.mem_cons_of_mem c hd))
            (fun d hd => h2 d (List.mem_cons_of_mem c2 hd)) ht
          exact ⟨by rw [hc, ha], hb⟩

theorem name_data (p : String) (i n : Nat) :
    (p ++ Nat.repr i ++ "x" ++ Nat.repr n).data =
      p.data ++ (Nat.toDigits 10 i ++ 'x' :: Nat.toDigits 10 n) := by
  have hrepr : ∀ m : Nat, (Nat.repr m).data = Nat.toDigits 10 m := by
    intro m
    show (Nat.toDigits 10 m).asString.data = Nat.toDigits 10 m
    exact List.toList_asString _
  simp [String.data_append, hrepr]

theorem vifBaseName_inj (k k2 : VifKind) (i n i2 n2 : Nat)
    (h : vifBaseName k i n = vifBaseName k2 i2 n2) :
    k = k2 ∧ i = i2 ∧ n = n2 := by
  have hdata := congrArg String.data h
  have hsplit : ∀ (x y x2 y2 : Nat),
      Nat.toDigits 10 x ++ 'x' :: Nat.toDigits 10 y =
        Nat.toDigits 10 x2 ++ 'x' :: Nat.toDigits 10 y2 → x = x2 ∧ y = y2 := by
    intro x y x2 y2 he
    obtain ⟨hxa, hxb⟩ := digits_x_split (Nat.toDigits 10 x) (Nat.toDigits 10 y)
      (Nat.toDigits 10 x2) (Nat.toDigits 10 y2)
      (toDigits_digits x) (toDigits_digits x2) he
    constructor
    · have := ofDigitsAcc_toDigits x
      rw [hxa] at this
      rw [← ofDigitsAcc_toDigits x2, this]
    · have := ofDigitsAcc_toDigits y
      rw [hxb] at this
      rw [← ofDigitsAcc_toDigits y2, this]
  cases k <;> cases k2 <;>
    simp only [vifBaseName, mgmtOlIfname, olVifname, ulVifname, name_data] at hdata
  all_goals simp at hdata
  all_goals exact ⟨rfl, hsplit i n i2 n2 hdata⟩

/-- C8 as amended.  The three interface-name families produced by
`handleCreate` — `dbo<i>x<appNum>` (management overlay), `nbo<i>x<bridgeNum>`
(ordinary overlay, keyed by the referenced network's bridge number), and
`nbu<i>x<appNum>` (underlay) — are deterministic functions of their (family,
index, number) triple, and distinct triples always yield distinct names.  The
two concrete conjuncts exhibit the create path recording exactly these names:
the underlay vif of instance appA (numeric ID 1) is `ulVifname 1 1`, and the
overlay vif of instance olA is `olVifname 1 7` with 7 the network's bridge
number — not a function of the instance's numeric ID. -/
theorem c8_vif_names_deterministic :
    (∀ (k k2 : VifKind) (i n i2 n2 : Nat),
      vifBaseName k i n = vifBaseName k2 i2 n2 → k = k2 ∧ i = i2 ∧ n = n2) ∧
    ((lookupKV exAfterCreateU.appStatuses "appA").map
       (fun st => st.ulList.map (fun u => u.vif)) = some [ulVifname 1 1]) ∧
    ((lookupKV exR1.1.appStatuses "olA").map
       (fun st => st.olList.map (fun o => o.vif)) =
       some [olVifname 1 exNetStatus.bridgeNum]) :=
  ⟨vifBaseName_inj, by decide, by decide⟩

theorem c8_vif_names_deterministic_witness :
    VifKind.ul = VifKind.ul ∧ (1 : Nat) = 1 ∧ (7 : Nat) = 7 :=
  c8_vif_names_deterministic.1 VifKind.ul VifKind.ul 1 7 1 7 rfl

/-! ### Loop invariants for the per-interface loops -/


theorem preservedTables_refl (s : State) : PreservedTables s s :=
  ⟨rfl, rfl, rfl, rfl, rfl, rfl, rfl, rfl⟩

theorem preservedTables_trans {s1 s2 s3 : State} (h1 : PreservedTables s1 s2)
    (h2 : PreservedTables s2 s3) : PreservedTables s1 s3 := by
  obtain ⟨a1, a2, a3, a4, a5, a6, a7, a8⟩ := h1
  obtain ⟨b1, b2, b3, b4, b5, b6, b7, b8⟩ := h2
  exact ⟨b1.trans a1, b2.trans a2, b3.trans a3, b4.trans a4, b5.trans a5,
         b6.trans a6, b7.trans a7, b8.trans a8⟩

theorem appMapSame_refl (s : State) (key : String) : AppMapSame s s key :=
  fun _ _ => rfl

theorem appMapSame_trans {s1 s2 s3 : State} {key : String}
    (h1 : AppMapSame s1 s2 key) (h2 : AppMapSame s2 s3 key) :
    AppMapSame s1 s3 key :=
  fun k hk => (h2 k hk).trans (h1 k hk)

theorem flagsLike_refl (st : AppNetworkStatus) : FlagsLike st st :=
  ⟨rfl, rfl, rfl, rfl, Or.inl rfl⟩

theorem wellKeyed_upsert {l : List (String × AppNetworkStatus)}
    (h : WellKeyed l) (st : AppNetworkStatus) :
    WellKeyed (upsert l st.uuid st) := by
  intro p hp
  rcases mem_upsert hp with rfl | hp2
  · rfl
  · exact h p hp2

theorem wellKeyed_eraseKey {l : List (String × AppNetworkStatus)}
    (h : WellKeyed l) (k : String) : WellKeyed (eraseKey l k) :=
  fun p hp => h p (mem_eraseKey hp)

theorem loopOut_refl (st0 : AppNetworkStatus) (a : StepAcc)
    (hFL : FlagsLike st0 a.status) : LoopOut st0 a a :=
  ⟨preservedTables_refl _, appMapSame_refl _ _, Or.inl rfl, hFL,
   fun _ _ h => Or.inl h, fun _ h => h, fun h => h⟩

theorem loopOut_trans {st0 : AppNetworkStatus} {a b c : StepAcc}
    (h1 : LoopOut st0 a b) (h2 : LoopOut st0 b c) : LoopOut st0 a c := by
  obtain ⟨pt1, ams1, ak1, fl1, pub1, unp1, wk1⟩ := h1
  obtain ⟨pt2, ams2, ak2, fl2, pub2, unp2, wk2⟩ := h2
  refine ⟨preservedTables_trans pt1 pt2, appMapSame_trans ams1 ams2, ?_, fl2,
    ?_, fun k h => unp1 k (unp2 k h), fun h => wk2 (wk1 h)⟩
  · rcases ak2 with h | h
    · rcases ak1 with h1a | h1a
      · exact Or.inl (h.trans h1a)
      · exact Or.inr (h ▸ h1a)
    · exact Or.inr h
  · intro k st h
    rcases pub2 k st h with h | h
    · exact pub1 k st h
    · exact Or.inr h

theorem loopOut_build (st0 : AppNetworkStatus) (a b : StepAcc)
    (hPT : PreservedTables a.st b.st)
    (hAMS : AppMapSame a.st b.st st0.uuid)
    (hAK : lookupKV b.st.appStatuses st0.uuid = lookupKV a.st.appStatuses st0.uuid ∨
           ∃ st, lookupKV b.st.appStatuses st0.uuid = some st ∧ FlagsLike st0 st)
    (hFL : FlagsLike st0 b.status)
    (new : List Effect) (heq : b.effs = a.effs ++ new)
    (hnew : ∀ e ∈ new,
        (isPublishApp e = false ∧ isUnpublishApp e = false) ∨
        (∃ st, e = Effect.publishApp st0.uuid st ∧ FlagsLike st0 st))
    (hWK : WellKeyed a.st.appStatuses → WellKeyed b.st.appStatuses) :
    LoopOut st0 a b := by
  refine ⟨hPT, hAMS, hAK, hFL, ?_, ?_, hWK⟩
  · intro k st h
    rw [heq] at h
    rcases List.mem_append.mp h with h | h
    · exact Or.inl h
    · rcases hnew _ h with ⟨h1, _⟩ | ⟨st2, he, hfl⟩
      · simp [isPublishApp] at h1
      · rcases Effect.publishApp.injEq .. ▸ he with ⟨rfl, rfl⟩
        exact Or.inr ⟨rfl, hfl⟩
  · intro k h
    rw [heq] at h
    rcases List.mem_append.mp h with h | h
    · exact h
    · rcases hnew _ h with ⟨_, h2⟩ | ⟨st2, he, _⟩
      · simp [isUnpublishApp] at h2
      · exact absurd he (by simp)

theorem loopOut_buildMem (st0 : AppNetworkStatus) (a b : StepAcc)
    (hPT : PreservedTables a.st b.st)
    (hAMS : AppMapSame a.st b.st st0.uuid)
    (hAK : lookupKV b.st.appStatuses st0.uuid = lookupKV a.st.appStatuses st0.uuid ∨
           ∃ st, lookupKV b.st.appStatuses st0.uuid = some st ∧ FlagsLike st0 st)
    (hFL : FlagsLike st0 b.status)
    (hEffs : ∀ e ∈ b.effs, e ∈ a.effs ∨
        (isPublishApp e = false ∧ isUnpublishApp e = false) ∨
        (∃ st, e = Effect.publishApp st0.uuid st ∧ FlagsLike st0 st))
    (hWK : WellKeyed a.st.appStatuses → WellKeyed b.st.appStatuses) :
    LoopOut st0 a b := by
  refine ⟨hPT, hAMS, hAK, hFL, ?_, ?_, hWK⟩
  · intro k st h
    rcases hEffs _ h with h | ⟨h1, _⟩ | ⟨st2, he, hfl⟩
    · exact Or.inl h
    · simp [isPublishApp] at h1
    · rcases Effect.publishApp.injEq .. ▸ he with ⟨rfl, rfl⟩
      exact Or.inr ⟨rfl, hfl⟩
  · intro k h
    rcases hEffs _ h with h | ⟨_, h2⟩ | ⟨st2, he, _⟩
    · exact h
    · simp [isUnpublishApp] at h2
    · exact absurd he (by simp)

theorem addError_stepOut (env : Env) (s : State) (statusB : AppNetworkStatus)
    (tag msg : String) (effs : List Effect) (statusA st0 : AppNetworkStatus)
    (hFLB : FlagsLike st0 statusB) :
    LoopOut st0 ⟨s, statusA, effs⟩
      ⟨(addError env s statusB tag msg).1, (addError env s statusB tag msg).2.1,
       effs ++ [(addError env s statusB tag msg).2.2]⟩ := by
  have hu2 : (addError env s statusB tag msg).2.1.uuid = st0.uuid := hFLB.1
  have happ : (addError env s statusB tag msg).1.appStatuses =
      upsert s.appStatuses ((addError env s statusB tag msg).2.1.uuid)
        ((addError env s statusB tag msg).2.1) := rfl
  have heff : (addError env s statusB tag msg).2.2 =
      Effect.publishApp ((addError env s statusB tag msg).2.1.uuid)
        ((addError env s statusB tag msg).2.1) := rfl
  refine loopOut_build st0 _ _ ?_ ?_ ?_
    (hFLB : FlagsLike st0 (addError env s statusB tag msg).2.1) _ rfl ?_ ?_
  · exact ⟨rfl, rfl, rfl, rfl, rfl, rfl, rfl, rfl⟩
  · intro k hk
    show lookupKV (addError env s statusB tag msg).1.appStatuses k =
      lookupKV s.appStatuses k
    rw [happ, hu2]
    exact lookupKV_upsert_ne _ _ _ _ hk
  · refine Or.inr ⟨(addError env s statusB tag msg).2.1, ?_, hFLB⟩
    show lookupKV (addError env s statusB tag msg).1.appStatuses st0.uuid = _
    rw [happ, hu2]
    exact lookupKV_upsert_self _ _ _
  · intro e he
    rcases List.mem_cons.mp he with rfl | he2
    · exact Or.inr ⟨(addError env s statusB tag msg).2.1, by rw [heff, hu2], hFLB⟩
    · simp at he2
  · intro h
    show WellKeyed (addError env s statusB tag msg).1.appStatuses
    rw [happ]
    exact wellKeyed_upsert h _



theorem mem_ite_list {α : Type} {e : α} {c : Prop} [Decidable c] {l1 l2 : List α}
    (h : e ∈ (if c then l1 else l2)) : e ∈ l1 ∨ e ∈ l2 := by
  split at h
  · exact Or.inl h
  · exact Or.inr h

theorem mem_maybeRemoveStaleIpsets {e : Effect} {l : List String}
    (h : e ∈ maybeRemoveStaleIpsets l) :
    isPublishApp e = false ∧ isUnpublishApp e = false ∧ isFatal e = false := by
  unfold maybeRemoveStaleIpsets at h
  rw [List.mem_flatten] at h
  obtain ⟨a, ha, he⟩ := h
  rw [List.mem_map] at ha
  obtain ⟨n2, _, rfl⟩ := ha
  rcases List.mem_cons.mp he with rfl | he2
  · exact ⟨rfl, rfl, rfl⟩
  · rcases List.mem_cons.mp he2 with rfl | he3
    · exact ⟨rfl, rfl, rfl⟩
    · simp at he3

theorem esD_pure {e : Effect} {o : Option NetworkServiceStatus} {s : State}
    {status : AppNetworkStatus} {ol : OverlayNetworkConfig} {bn : String}
    (h : e ∈ (match o with
      | none => ([] : List Effect)
      | some svc => if svc.activated = false then []
          else [createAndStartLisp s status ol svc bn])) :
    isPublishApp e = false ∧ isUnpublishApp e = false := by
  match o with
  | none => simp at h
  | some svc =>
      rcases mem_ite_list h with h | h
      · simp at h
      · rcases List.mem_cons.mp h with rfl | h2
        · exact ⟨rfl, rfl⟩
        · simp at h2

theorem createOlLoop_out (env : Env) (config : AppNetworkConfig) (appNum : Nat)
    (ipsets : List String) :
    ∀ (l : List OverlayNetworkConfig) (i : Nat) (acc : StepAcc)
      (st0 : AppNetworkStatus),
      FlagsLike st0 acc.status →
      (∀ x ∈ l, (lookupNetworkObjectConfig acc.st x.network).isSome = true) →
      LoopOut st0 acc (createOlLoop env config appNum ipsets i l acc).1 ∧
      ((createOlLoop env config appNum ipsets i l acc).2 = true →
        lookupKV (createOlLoop env config appNum ipsets i l acc).1.st.appStatuses
            st0.uuid =
          some (createOlLoop env config appNum ipsets i l acc).1.status ∧
        (createOlLoop env config appNum ipsets i l acc).1.status.pendingAdd = false) := by
  intro l
  induction l with
  | nil =>
      intro i acc st0 hFL _
      exact ⟨loopOut_refl st0 acc hFL, by simp [createOlLoop]⟩
  | cons olConfig rest ih =>
      intro i acc st0 hFL hnets
      have hhead := hnets olConfig (List.mem_cons_self _ _)
      have htail : ∀ x ∈ rest, (lookupNetworkObjectConfig acc.st x.network).isSome = true :=
        fun x hx => hnets x (List.mem_cons_of_mem _ hx)
      rcases hnc : lookupNetworkObjectConfig acc.st olConfig.network with _ | netconfig
      · rw [hnc] at hhead
        simp at hhead
      · rcases hns : lookupNetworkObjectStatus acc.st olConfig.network with _ | netstatus
        · -- missing network status: addError then continue
          simp only [createOlLoop, hnc, hns]
          have step := addError_stepOut env acc.st acc.status
            "lookupNetworkObjectStatus" ("no network status for " ++ olConfig.network)
            acc.effs acc.status st0 hFL
          have next := ih (i + 1)
            ⟨(addError env acc.st acc.status "lookupNetworkObjectStatus"
                ("no network status for " ++ olConfig.network)).1,
             (addError env acc.st acc.status "lookupNetworkObjectStatus"
                ("no network status for " ++ olConfig.network)).2.1,
             acc.effs ++ [(addError env acc.st acc.status "lookupNetworkObjectStatus"
                ("no network status for " ++ olConfig.network)).2.2]⟩ st0
            (hFL : FlagsLike st0 _) (htail : ∀ x ∈ rest, _)
          exact ⟨loopOut_trans step next.1, next.2⟩
        · rcases hfb : findBridge env netstatus.bridgeName with _ | bridgeMac
          · -- findBridge failed: clear PendingAdd, addError, early return
            simp only [createOlLoop, hnc, hns, hfb]
            have hFLB : FlagsLike st0 { acc.status with pendingAdd := false } :=
              ⟨hFL.1, hFL.2.1, hFL.2.2.1, hFL.2.2.2.1, Or.inr rfl⟩
            have step := addError_stepOut env acc.st
              { acc.status with pendingAdd := false } "findBridge"
              ("findBridge(" ++ netstatus.bridgeName ++ ") failed")
              acc.effs acc.status st0 hFLB
            refine ⟨step, fun _ => ⟨?_, rfl⟩⟩
            show lookupKV (addError env acc.st { acc.status with pendingAdd := false }
                "findBridge" ("findBridge(" ++ netstatus.bridgeName ++ ") failed")).1.appStatuses
                st0.uuid = _
            rw [show (addError env acc.st { acc.status with pendingAdd := false }
                "findBridge" ("findBridge(" ++ netstatus.bridgeName ++ ") failed")).1.appStatuses =
              upsert acc.st.appStatuses
                ((addError env acc.st { acc.status with pendingAdd := false }
                  "findBridge" ("findBridge(" ++ netstatus.bridgeName ++ ") failed")).2.1.uuid)
                ((addError env acc.st { acc.status with pendingAdd := false }
                  "findBridge" ("findBridge(" ++ netstatus.bridgeName ++ ") failed")).2.1) from rfl]
            rw [show (addError env acc.st { acc.status with pendingAdd := false }
                "findBridge" ("findBridge(" ++ netstatus.bridgeName ++ ") failed")).2.1.uuid =
              st0.uuid from hFL.1]
            exact lookupKV_upsert_self _ _ _
          · -- bridge found: the real per-interface work, then continue
            by_cases hpa : parseAddrOk olConfig.eid
            · simp only [createOlLoop, hnc, hns, hfb, hpa, if_true]
              refine ⟨loopOut_trans ?_ (ih (i + 1) _ st0 ?_ ?_).1,
                (ih (i + 1) _ st0 ?_ ?_).2⟩
              · refine loopOut_buildMem st0 acc _ ⟨rfl, rfl, rfl, rfl, rfl, rfl, rfl, rfl⟩
                  (fun k hk => rfl) (Or.inl rfl) hFL ?_ (fun h => h)
                intro e he
                simp only [List.append_nil, List.mem_append] at he
                rcases he with ((((he | he) | he) | he) | he) | he
                · exact Or.inl he
                · refine Or.inr (Or.inl ?_)
                  rcases List.mem_cons.mp he with rfl | he
                  · exact ⟨rfl, rfl⟩
                  · rcases List.mem_cons.mp he with rfl | he
                    · exact ⟨rfl, rfl⟩
                    · rcases List.mem_cons.mp he with rfl | he
                      · exact ⟨rfl, rfl⟩
                      · rcases List.mem_cons.mp he with rfl | he
                        · exact ⟨rfl, rfl⟩
                        · rcases List.mem_cons.mp he with rfl | he
                          · exact ⟨rfl, rfl⟩
                          · rcases List.mem_cons.mp he with rfl | he
                            · exact ⟨rfl, rfl⟩
                            · simp at he
                · refine Or.inr (Or.inl ?_)
                  rcases mem_ite_list he with he | he
                  · rcases List.mem_cons.mp he with rfl | he
                    · exact ⟨rfl, rfl⟩
                    · rcases List.mem_cons.mp he with rfl | he
                      · exact ⟨rfl, rfl⟩
                      · rcases List.mem_cons.mp he with rfl | he
                        · exact ⟨rfl, rfl⟩
                        · simp at he
                  · simp at he
                · refine Or.inr (Or.inl ?_)
                  rcases List.mem_cons.mp he with rfl | he
                  · exact ⟨rfl, rfl⟩
                  · simp at he
                · have := mem_maybeRemoveStaleIpsets he
                  exact Or.inr (Or.inl ⟨this.1, this.2.1⟩)
                · exact Or.inr (Or.inl (esD_pure he))
              · exact hFL
              · exact htail
              · exact hFL
              · exact htail
            · simp only [createOlLoop, hnc, hns, hfb, hpa, if_false]
              refine ⟨loopOut_trans (loopOut_trans
                  (addError_stepOut env acc.st
                    { acc.status with
                        olList :=
                          acc.status.olList.set i
                            { cfg := olConfig, bridge := netstatus.bridgeName,
                              bridgeMac := bridgeMac,
                              vif := olVifname (i + 1) netstatus.bridgeNum,
                              mac := olConfig.appMacAddr.getD (appMacFmt "01" (i + 1) appNum),
                              hostName := config.uuid,
                              bridgeIPAddr := netstatus.bridgeIPAddr } }
                    "handleCreate" ("ParseCIDR " ++ olConfig.eid ++ " failed")
                    acc.effs acc.status st0 hFL) ?_)
                  (ih (i + 1) _ st0 ?_ ?_).1, (ih (i + 1) _ st0 ?_ ?_).2⟩
              · refine loopOut_buildMem st0 _ _ ⟨rfl, rfl, rfl, rfl, rfl, rfl, rfl, rfl⟩
                  (fun k hk => rfl) (Or.inl rfl) hFL ?_ (fun h => h)
                intro e he
                simp only [List.mem_append] at he
                rcases he with ((((he | he) | he) | he) | he) | he
                · exact Or.inl (List.mem_append.mpr he)
                · refine Or.inr (Or.inl ?_)
                  rcases List.mem_cons.mp he with rfl | he
                  · exact ⟨rfl, rfl⟩
                  · rcases List.mem_cons.mp he with rfl | he
                    · exact ⟨rfl, rfl⟩
                    · rcases List.mem_cons.mp he with rfl | he
                      · exact ⟨rfl, rfl⟩
                      · rcases List.mem_cons.mp he with rfl | he
                        · exact ⟨rfl, rfl⟩
                        · rcases List.mem_cons.mp he with rfl | he
                          · exact ⟨rfl, rfl⟩
                          · rcases List.mem_cons.mp he with rfl | he
                            · exact ⟨rfl, rfl⟩
                            · simp at he
                · refine Or.inr (Or.inl ?_)
                  rcases mem_ite_list he with he | he
                  · rcases List.mem_cons.mp he with rfl | he
                    · exact ⟨rfl, rfl⟩
                    · rcases List.mem_cons.mp he with rfl | he
                      · exact ⟨rfl, rfl⟩
                      · rcases List.mem_cons.mp he with rfl | he
                        · exact ⟨rfl, rfl⟩
                        · simp at he
                  · simp at he
                · refine Or.inr (Or.inl ?_)
                  rcases List.mem_cons.mp he with rfl | he
                  · exact ⟨rfl, rfl⟩
                  · simp at he
                · have := mem_maybeRemoveStaleIpsets he
                  exact Or.inr (Or.inl ⟨this.1, this.2.1⟩)
                · exact Or.inr (Or.inl (esD_pure he))
              · exact hFL
              · exact htail
              · exact hFL
              · exact htail



theorem createUlLoop_out (env : Env) (config : AppNetworkConfig) (appNum : Nat)
    (ipsets : List String) :
    ∀ (l : List UnderlayNetworkConfig) (i : Nat) (acc : StepAcc)
      (st0 : AppNetworkStatus),
      FlagsLike st0 acc.status →
      (∀ x ∈ l, (lookupNetworkObjectConfig acc.st x.network).isSome = true) →
      LoopOut st0 acc (createUlLoop env config appNum ipsets i l acc).1 ∧
      ((createUlLoop env config appNum ipsets i l acc).2 = true →
        lookupKV (createUlLoop env config appNum ipsets i l acc).1.st.appStatuses
            st0.uuid =
          some (createUlLoop env config appNum ipsets i l acc).1.status ∧
        (createUlLoop env config appNum ipsets i l acc).1.status.pendingAdd = false) := by
  intro l
  induction l with
  | nil =>
      intro i acc st0 hFL _
      exact ⟨loopOut_refl st0 acc hFL, by simp [createUlLoop]⟩
  | cons ulConfig rest ih =>
      intro i acc st0 hFL hnets
      have hhead := hnets ulConfig (List.mem_cons_self _ _)
      have htail : ∀ x ∈ rest, (lookupNetworkObjectConfig acc.st x.network).isSome = true :=
        fun x hx => hnets x (List.mem_cons_of_mem _ hx)
      rcases hnc : lookupNetworkObjectConfig acc.st ulConfig.network with _ | netconfig
      · rw [hnc] at hhead
        simp at hhead
      · rcases hns : lookupNetworkObjectStatus acc.st ulConfig.network with _ | netstatus
        · simp only [createUlLoop, hnc, hns]
          have step := addError_stepOut env acc.st acc.status
            "lookupNetworkObjectStatus" ("no status for " ++ ulConfig.network)
            acc.effs acc.status st0 hFL
          have next := ih (i + 1)
            ⟨(addError env acc.st acc.status "lookupNetworkObjectStatus"
                ("no status for " ++ ulConfig.network)).1,
             (addError env acc.st acc.status "lookupNetworkObjectStatus"
                ("no status for " ++ ulConfig.network)).2.1,
             acc.effs ++ [(addError env acc.st acc.status "lookupNetworkObjectStatus"
                ("no status for " ++ ulConfig.network)).2.2]⟩ st0
            (hFL : FlagsLike st0 _) (htail : ∀ x ∈ rest, _)
          exact ⟨loopOut_trans step next.1, next.2⟩
        · rcases hfb : findBridge env netstatus.bridgeName with _ | bridgeMac
          · simp only [createUlLoop, hnc, hns, hfb]
            have hFLB : FlagsLike st0 { acc.status with pendingAdd := false } :=
              ⟨hFL.1, hFL.2.1, hFL.2.2.1, hFL.2.2.2.1, Or.inr rfl⟩
            have step := addError_stepOut env acc.st
              { acc.status with pendingAdd := false } "findBridge"
              ("findBridge(" ++ netstatus.bridgeName ++ ") failed")
              acc.effs acc.status st0 hFLB
            refine ⟨step, fun _ => ⟨?_, rfl⟩⟩
            show lookupKV (addError env acc.st { acc.status with pendingAdd := false }
                "findBridge" ("findBridge(" ++ netstatus.bridgeName ++ ") failed")).1.appStatuses
                st0.uuid = _
            rw [show (addError env acc.st { acc.status with pendingAdd := false }
                "findBridge" ("findBridge(" ++ netstatus.bridgeName ++ ") failed")).1.appStatuses =
              upsert acc.st.appStatuses
                ((addError env acc.st { acc.status with pendingAdd := false }
                  "findBridge" ("findBridge(" ++ netstatus.bridgeName ++ ") failed")).2.1.uuid)
                ((addError env acc.st { acc.status with pendingAdd := false }
                  "findBridge" ("findBridge(" ++ netstatus.bridgeName ++ ") failed")).2.1) from rfl]
            rw [show (addError env acc.st { acc.status with pendingAdd := false }
                "findBridge" ("findBridge(" ++ netstatus.bridgeName ++ ") failed")).2.1.uuid =
              st0.uuid from hFL.1]
            exact lookupKV_upsert_self _ _ _
          · simp only [createUlLoop, hnc, hns, hfb]
            refine ⟨loopOut_trans ?_ (ih (i + 1) _ st0 ?_ ?_).1,
              (ih (i + 1) _ st0 ?_ ?_).2⟩
            · refine loopOut_buildMem st0 acc _ ⟨rfl, rfl, rfl, rfl, rfl, rfl, rfl, rfl⟩
                (fun k hk => rfl) (Or.inl rfl) hFL ?_ (fun h => h)
              intro e he
              simp only [List.mem_append] at he
              rcases he with (((((he | he) | he) | he) | he) | he) | he
              · exact Or.inl he
              · refine Or.inr (Or.inl ?_)
                rcases mem_ite_list he with he | he
                · rcases List.mem_cons.mp he with rfl | he
                  · exact ⟨rfl, rfl⟩
                  · simp at he
                · simp at he
              · refine Or.inr (Or.inl ?_)
                rcases List.mem_cons.mp he with rfl | he
                · exact ⟨rfl, rfl⟩
                · rcases List.mem_cons.mp he with rfl | he
                  · exact ⟨rfl, rfl⟩
                  · rcases List.mem_cons.mp he with rfl | he
                    · exact ⟨rfl, rfl⟩
                    · simp at he
              · refine Or.inr (Or.inl ?_)
                rcases mem_ite_list he with he | he
                · rcases List.mem_cons.mp he with rfl | he
                  · exact ⟨rfl, rfl⟩
                  · simp at he
                · simp at he
              · refine Or.inr (Or.inl ?_)
                rcases mem_ite_list he with he | he
                · rcases List.mem_cons.mp he with rfl | he
                  · exact ⟨rfl, rfl⟩
                  · rcases List.mem_cons.mp he with rfl | he
                    · exact ⟨rfl, rfl⟩
                    · rcases List.mem_cons.mp he with rfl | he
                      · exact ⟨rfl, rfl⟩
                      · simp at he
                · simp at he
              · refine Or.inr (Or.inl ?_)
                rcases List.mem_cons.mp he with rfl | he
                · exact ⟨rfl, rfl⟩
                · simp at he
              · have := mem_maybeRemoveStaleIpsets he
                exact Or.inr (Or.inl ⟨this.1, this.2.1⟩)
            · exact hFL
            · exact htail
            · exact hFL
            · exact htail



theorem mem_updateACLConfiglet {e : Effect} {br vif : String} {im : Bool}
    {o n : List ACE} {v : Nat} {ba pa : String}
    (h : e ∈ updateACLConfiglet br vif im o n v ba pa) :
    isPublishApp e = false ∧ isUnpublishApp e = false ∧ isFatal e = false := by
  unfold updateACLConfiglet at h
  rcases mem_ite_list h with h | h
  · simp at h
  · rcases List.mem_cons.mp h with rfl | h
    · exact ⟨rfl, rfl, rfl⟩
    · simp at h

theorem modOlLoop_out (env : Env) (ipsets : List String) :
    ∀ (l : List OverlayNetworkConfig) (i : Nat) (acc : StepAcc)
      (st0 : AppNetworkStatus),
      FlagsLike st0 acc.status →
      LoopOut st0 acc (modOlLoop env ipsets i l acc) := by
  intro l
  induction l with
  | nil =>
      intro i acc st0 hFL
      simpa [modOlLoop] using loopOut_refl st0 acc hFL
  | cons olConfig rest ih =>
      intro i acc st0 hFL
      by_cases hlen : acc.status.olList.length < i + 1
      · simp only [modOlLoop, if_pos hlen]
        exact ih (i + 1) acc st0 hFL
      · rcases hnc : lookupNetworkObjectConfig acc.st olConfig.network with _ | netconfig
        · simp only [modOlLoop, if_neg hlen, hnc]
          have step := addError_stepOut env acc.st acc.status
            "lookupNetworkObjectConfig" ("no network config for " ++ olConfig.network)
            acc.effs acc.status st0 hFL
          exact loopOut_trans step (ih (i + 1) _ st0 (hFL : FlagsLike st0 _))
        · rcases hns : lookupNetworkObjectStatus acc.st olConfig.network with _ | netstatus
          · simp only [modOlLoop, if_neg hlen, hnc, hns]
            have step := addError_stepOut env acc.st acc.status
              "lookupNetworkObjectStatus" ("no network status for " ++ olConfig.network)
              acc.effs acc.status st0 hFL
            exact loopOut_trans step (ih (i + 1) _ st0 (hFL : FlagsLike st0 _))
          · simp only [modOlLoop, if_neg hlen, hnc, hns]
            refine loopOut_trans ?_ (ih (i + 1) _ st0 ?_)
            · refine loopOut_buildMem st0 acc _ ⟨rfl, rfl, rfl, rfl, rfl, rfl, rfl, rfl⟩
                (fun k hk => rfl) (Or.inl rfl) hFL ?_ (fun h => h)
              intro e he
              simp only [List.mem_append] at he
              rcases he with ((((he | he) | he) | he) | he) | he
              · exact Or.inl he
              · have := mem_updateACLConfiglet he
                exact Or.inr (Or.inl ⟨this.1, this.2.1⟩)
              · refine Or.inr (Or.inl ?_)
                rcases mem_ite_list he with he | he
                · rcases List.mem_cons.mp he with rfl | he
                  · exact ⟨rfl, rfl⟩
                  · rcases List.mem_cons.mp he with rfl | he
                    · exact ⟨rfl, rfl⟩
                    · rcases List.mem_cons.mp he with rfl | he
                      · exact ⟨rfl, rfl⟩
                      · simp at he
                · simp at he
              · refine Or.inr (Or.inl ?_)
                rcases List.mem_cons.mp he with rfl | he
                · exact ⟨rfl, rfl⟩
                · simp at he
              · have := mem_maybeRemoveStaleIpsets he
                exact Or.inr (Or.inl ⟨this.1, this.2.1⟩)
              · refine Or.inr (Or.inl ?_)
                rcases hsvc : lookupAppLink
                    (publishNetworkObjectStatus acc.st
                      { netstatus with
                          vifs := removeVifFromBridge netstatus.vifs
                            (acc.status.olList.getD i default).vif,
                          bridgeIPSets := (diffIpsets ipsets netstatus.bridgeIPSets).1 }).1
                    olConfig.network with _ | svc
                · rw [hsvc] at he
                  simp at he
                · rw [hsvc] at he
                  rcases List.mem_cons.mp he with rfl | he
                  · exact ⟨rfl, rfl⟩
                  · simp at he
            · exact hFL



theorem modUlLoop_out (env : Env) (ipsets : List String) :
    ∀ (l : List UnderlayNetworkConfig) (i : Nat) (acc : StepAcc)
      (st0 : AppNetworkStatus),
      FlagsLike st0 acc.status →
      LoopOut st0 acc (modUlLoop env ipsets i l acc) := by
  intro l
  induction l with
  | nil =>
      intro i acc st0 hFL
      simpa [modUlLoop] using loopOut_refl st0 acc hFL
  | cons ulConfig rest ih =>
      intro i acc st0 hFL
      by_cases hlen : acc.status.ulList.length < i + 1
      · simp only [modUlLoop, if_pos hlen]
        exact ih (i + 1) acc st0 hFL
      · rcases hnc : lookupNetworkObjectConfig acc.st ulConfig.network with _ | netconfig
        · simp only [modUlLoop, if_neg hlen, hnc]
          have step := addError_stepOut env acc.st acc.status
            "lookupNetworkObjectConfig" ("no network config for " ++ ulConfig.network)
            acc.effs acc.status st0 hFL
          exact loopOut_trans step (ih (i + 1) _ st0 (hFL : FlagsLike st0 _))
        · rcases hns : lookupNetworkObjectStatus acc.st ulConfig.network with _ | netstatus
          · simp only [modUlLoop, if_neg hlen, hnc, hns]
            have step := addError_stepOut env acc.st acc.status
              "lookupNetworkObjectStatus" ("no network status for " ++ ulConfig.network)
              acc.effs acc.status st0 hFL
            exact loopOut_trans step (ih (i + 1) _ st0 (hFL : FlagsLike st0 _))
          · simp only [modUlLoop, if_neg hlen, hnc, hns]
            refine loopOut_trans ?_ (ih (i + 1) _ st0 ?_)
            · refine loopOut_buildMem st0 acc _ ⟨rfl, rfl, rfl, rfl, rfl, rfl, rfl, rfl⟩
                (fun k hk => rfl) (Or.inl rfl) hFL ?_ (fun h => h)
              intro e he
              simp only [List.mem_append] at he
              rcases he with (((he | he) | he) | he) | he
              · exact Or.inl he
              · have := mem_updateACLConfiglet he
                exact Or.inr (Or.inl ⟨this.1, this.2.1⟩)
              · refine Or.inr (Or.inl ?_)
                rcases mem_ite_list he with he | he
                · rcases List.mem_cons.mp he with rfl | he
                  · exact ⟨rfl, rfl⟩
                  · rcases List.mem_cons.mp he with rfl | he
                    · exact ⟨rfl, rfl⟩
                    · rcases List.mem_cons.mp he with rfl | he
                      · exact ⟨rfl, rfl⟩
                      · simp at he
                · simp at he
              · refine Or.inr (Or.inl ?_)
                rcases List.mem_cons.mp he with rfl | he
                · exact ⟨rfl, rfl⟩
                · simp at he
              · have := mem_maybeRemoveStaleIpsets he
                exact Or.inr (Or.inl ⟨this.1, this.2.1⟩)
            · exact hFL



theorem delOlLoop_out (env : Env) (ipsets : List String) :
    ∀ (remaining olNum : Nat) (acc : StepAcc) (st0 : AppNetworkStatus),
      FlagsLike st0 acc.status →
      LoopOut st0 acc (delOlLoop env ipsets olNum remaining acc) := by
  intro remaining
  induction remaining with
  | zero =>
      intro olNum acc st0 hFL
      simpa [delOlLoop] using loopOut_refl st0 acc hFL
  | succ rem ih =>
      intro olNum acc st0 hFL
      by_cases hlen : acc.status.olList.length < olNum
      · simp only [delOlLoop, if_pos hlen]
        exact ih (olNum + 1) acc st0 hFL
      · rcases hnc : lookupNetworkObjectConfig acc.st
            (acc.status.olList.getD (olNum - 1) default).cfg.network with _ | netconfig
        · simp only [delOlLoop, if_neg hlen, hnc]
          have step := addError_stepOut env acc.st acc.status
            "lookupNetworkObjectStatus"
            ("no network config for " ++ (acc.status.olList.getD (olNum - 1) default).cfg.network)
            acc.effs acc.status st0 hFL
          exact loopOut_trans step (ih (olNum + 1) _ st0 (hFL : FlagsLike st0 _))
        · rcases hns : lookupNetworkObjectStatus acc.st
              (acc.status.olList.getD (olNum - 1) default).cfg.network with _ | netstatus
          · simp only [delOlLoop, if_neg hlen, hnc, hns]
            have step := addError_stepOut env acc.st acc.status
              "lookupNetworkObjectStatus"
              ("no network status for " ++ (acc.status.olList.getD (olNum - 1) default).cfg.network)
              acc.effs acc.status st0 hFL
            exact loopOut_trans step (ih (olNum + 1) _ st0 (hFL : FlagsLike st0 _))
          · simp only [delOlLoop, if_neg hlen, hnc, hns]
            refine loopOut_trans ?_ (ih (olNum + 1) _ st0 ?_)
            · refine loopOut_buildMem st0 acc _ ⟨rfl, rfl, rfl, rfl, rfl, rfl, rfl, rfl⟩
                (fun k hk => rfl) (Or.inl rfl) hFL ?_ (fun h => h)
              intro e he
              simp only [List.mem_append] at he
              rcases he with (((he | he) | he) | he) | he
              · exact Or.inl he
              · refine Or.inr (Or.inl ?_)
                rcases List.mem_cons.mp he with rfl | he
                · exact ⟨rfl, rfl⟩
                · rcases List.mem_cons.mp he with rfl | he
                  · exact ⟨rfl, rfl⟩
                  · rcases List.mem_cons.mp he with rfl | he
                    · exact ⟨rfl, rfl⟩
                    · simp at he
              · refine Or.inr (Or.inl ?_)
                rcases mem_ite_list he with he | he
                · rcases List.mem_cons.mp he with rfl | he
                  · exact ⟨rfl, rfl⟩
                  · rcases List.mem_cons.mp he with rfl | he
                    · exact ⟨rfl, rfl⟩
                    · rcases List.mem_cons.mp he with rfl | he
                      · exact ⟨rfl, rfl⟩
                      · simp at he
                · simp at he
              · have := mem_maybeRemoveStaleIpsets he
                exact Or.inr (Or.inl ⟨this.1, this.2.1⟩)
              · refine Or.inr (Or.inl ?_)
                rcases hsvc : lookupAppLink acc.st
                    (acc.status.olList.getD (olNum - 1) default).cfg.network with _ | svc
                · rw [hsvc] at he
                  simp at he
                · rw [hsvc] at he
                  rcases List.mem_cons.mp he with rfl | he
                  · exact ⟨rfl, rfl⟩
                  · simp at he
            · exact hFL



theorem delUlLoop_out (env : Env) (ipsets : List String) :
    ∀ (remaining olNum : Nat) (acc : StepAcc) (st0 : AppNetworkStatus),
      FlagsLike st0 acc.status →
      LoopOut st0 acc (delUlLoop env ipsets olNum remaining acc).1 ∧
      ((delUlLoop env ipsets olNum remaining acc).2 = true →
        ∃ m, Effect.fatal m ∈ (delUlLoop env ipsets olNum remaining acc).1.effs) := by
  intro remaining
  induction remaining with
  | zero =>
      intro olNum acc st0 hFL
      exact ⟨loopOut_refl st0 acc hFL, by simp [delUlLoop]⟩
  | succ rem ih =>
      intro olNum acc st0 hFL
      by_cases hlen : acc.status.ulList.length < olNum
      · simp only [delUlLoop, if_pos hlen]
        exact ih (olNum + 1) acc st0 hFL
      · rcases hnc : lookupNetworkObjectConfig acc.st
            (acc.status.ulList.getD (olNum - 1) default).cfg.network with _ | netconfig
        · simp only [delUlLoop, if_neg hlen, hnc]
          have step := addError_stepOut env acc.st acc.status
            "lookupNetworkObjectConfig"
            ("no network config for " ++ (acc.status.ulList.getD (olNum - 1) default).cfg.network)
            acc.effs acc.status st0 hFL
          have next := ih (olNum + 1)
            ⟨(addError env acc.st acc.status "lookupNetworkObjectConfig"
                ("no network config for " ++ (acc.status.ulList.getD (olNum - 1) default).cfg.network)).1,
             (addError env acc.st acc.status "lookupNetworkObjectConfig"
                ("no network config for " ++ (acc.status.ulList.getD (olNum - 1) default).cfg.network)).2.1,
             acc.effs ++ [(addError env acc.st acc.status "lookupNetworkObjectConfig"
                ("no network config for " ++ (acc.status.ulList.getD (olNum - 1) default).cfg.network)).2.2]⟩
            st0 (hFL : FlagsLike st0 _)
          exact ⟨loopOut_trans step next.1, next.2⟩
        · rcases hns : lookupNetworkObjectStatus acc.st
              (acc.status.ulList.getD (olNum - 1) default).cfg.network with _ | netstatus
          · simp only [delUlLoop, if_neg hlen, hnc, hns]
            have step := addError_stepOut env acc.st acc.status
              "lookupNetworkObjectStatus"
              ("no network status for " ++ (acc.status.ulList.getD (olNum - 1) default).cfg.network)
              acc.effs acc.status st0 hFL
            have next := ih (olNum + 1)
              ⟨(addError env acc.st acc.status "lookupNetworkObjectStatus"
                  ("no network status for " ++ (acc.status.ulList.getD (olNum - 1) default).cfg.network)).1,
               (addError env acc.st acc.status "lookupNetworkObjectStatus"
                  ("no network status for " ++ (acc.status.ulList.getD (olNum - 1) default).cfg.network)).2.1,
               acc.effs ++ [(addError env acc.st acc.status "lookupNetworkObjectStatus"
                  ("no network status for " ++ (acc.status.ulList.getD (olNum - 1) default).cfg.network)).2.2]⟩
              st0 (hFL : FlagsLike st0 _)
            exact ⟨loopOut_trans step next.1, next.2⟩
          · by_cases hmac : parseMACOk (acc.status.ulList.getD (olNum - 1) default).mac = true
            · -- MAC parses: release, clean up, continue
              by_cases hrel : (releaseIPv4 netstatus
                  (acc.status.ulList.getD (olNum - 1) default).mac).1 = true
              · simp only [delUlLoop, if_neg hlen, hnc, hns, hmac, not_true_eq_false,
                  if_false, hrel, if_true, List.append_nil]
                refine ⟨loopOut_trans ?_ (ih (olNum + 1) _ st0 ?_).1,
                  (ih (olNum + 1) _ st0 ?_).2⟩
                · refine loopOut_buildMem st0 acc _ ⟨rfl, rfl, rfl, rfl, rfl, rfl, rfl, rfl⟩
                    (fun k hk => rfl) (Or.inl rfl) hFL ?_ (fun h => h)
                  intro e he
                  simp only [List.mem_append] at he
                  rcases he with ((he | he) | he) | he
                  · exact Or.inl he
                  · refine Or.inr (Or.inl ?_)
                    rcases List.mem_cons.mp he with rfl | he
                    · exact ⟨rfl, rfl⟩
                    · rcases List.mem_cons.mp he with rfl | he
                      · exact ⟨rfl, rfl⟩
                      · rcases List.mem_cons.mp he with rfl | he
                        · exact ⟨rfl, rfl⟩
                        · simp at he
                  · refine Or.inr (Or.inl ?_)
                    rcases mem_ite_list he with he | he
                    · rcases List.mem_cons.mp he with rfl | he
                      · exact ⟨rfl, rfl⟩
                      · rcases List.mem_cons.mp he with rfl | he
                        · exact ⟨rfl, rfl⟩
                        · rcases List.mem_cons.mp he with rfl | he
                          · exact ⟨rfl, rfl⟩
                          · simp at he
                    · simp at he
                  · have := mem_maybeRemoveStaleIpsets he
                    exact Or.inr (Or.inl ⟨this.1, this.2.1⟩)
                · exact hFL
                · exact hFL
              · simp only [delUlLoop, if_neg hlen, hnc, hns, hmac, not_true_eq_false,
                  if_false, hrel]
                refine ⟨loopOut_trans (loopOut_trans
                    (addError_stepOut env acc.st acc.status "releaseIPv4"
                      ("releaseIPv4 failed for " ++ (acc.status.ulList.getD (olNum - 1) default).mac)
                      acc.effs acc.status st0 hFL) ?_)
                    (ih (olNum + 1) _ st0 ?_).1, (ih (olNum + 1) _ st0 ?_).2⟩
                · refine loopOut_buildMem st0 _ _ ⟨rfl, rfl, rfl, rfl, rfl, rfl, rfl, rfl⟩
                    (fun k hk => rfl) (Or.inl rfl) hFL ?_ (fun h => h)
                  intro e he
                  simp only [List.mem_append] at he
                  rcases he with ((he | he) | he) | he
                  · exact Or.inl (List.mem_append.mpr he)
                  · refine Or.inr (Or.inl ?_)
                    rcases List.mem_cons.mp he with rfl | he
                    · exact ⟨rfl, rfl⟩
                    · rcases List.mem_cons.mp he with rfl | he
                      · exact ⟨rfl, rfl⟩
                      · rcases List.mem_cons.mp he with rfl | he
                        · exact ⟨rfl, rfl⟩
                        · simp at he
                  · refine Or.inr (Or.inl ?_)
                    rcases mem_ite_list he with he | he
                    · rcases List.mem_cons.mp he with rfl | he
                      · exact ⟨rfl, rfl⟩
                      · rcases List.mem_cons.mp he with rfl | he
                        · exact ⟨rfl, rfl⟩
                        · rcases List.mem_cons.mp he with rfl | he
                          · exact ⟨rfl, rfl⟩
                          · simp at he
                    · simp at he
                  · have := mem_maybeRemoveStaleIpsets he
                    exact Or.inr (Or.inl ⟨this.1, this.2.1⟩)
                · exact hFL
                · exact hFL
            · -- process-fatal ParseMAC
              simp only [delUlLoop, if_neg hlen, hnc, hns, hmac, not_false_eq_true, if_true]
              constructor
              · refine loopOut_buildMem st0 acc _ ⟨rfl, rfl, rfl, rfl, rfl, rfl, rfl, rfl⟩
                  (fun k hk => rfl) (Or.inl rfl) hFL ?_ (fun h => h)
                intro e he
                rcases List.mem_append.mp he with he | he
                · exact Or.inl he
                · rcases List.mem_cons.mp he with rfl | he
                  · exact Or.inr (Or.inl ⟨rfl, rfl⟩)
                  · simp at he
              · intro _
                exact ⟨"ParseMAC failed: " ++ (acc.status.ulList.getD (olNum - 1) default).mac,
                  List.mem_append.mpr (Or.inr (List.mem_cons_self _ _))⟩

/-! ### C6 and C7: pending-flag discipline and the device identity -/

theorem lookupKV_upsert_cases {α : Type} {l : List (String × α)} {u k : String}
    {v w : α} (h : lookupKV (upsert l u v) k = some w) :
    (k = u ∧ w = v) ∨ (k ≠ u ∧ lookupKV l k = some w) := by
  by_cases hk : k = u
  · subst hk
    rw [lookupKV_upsert_self] at h
    exact Or.inl ⟨rfl, (Option.some.inj h).symm⟩
  · rw [lookupKV_upsert_ne _ _ _ _ hk] at h
    exact Or.inr ⟨hk, h⟩

theorem lookupKV_eraseKey_cases {α : Type} {l : List (String × α)} {u k : String}
    {w : α} (h : lookupKV (eraseKey l u) k = some w) :
    k ≠ u ∧ lookupKV l k = some w := by
  by_cases hk : k = u
  · subst hk
    rw [lookupKV_eraseKey_self] at h
    cases h
  · rw [lookupKV_eraseKey_ne _ _ _ hk] at h
    exact ⟨hk, h⟩

theorem lookupAppNetworkStatus_some {s : State} {key : String}
    {st : AppNetworkStatus} (h : lookupAppNetworkStatus s key = some st) :
    lookupKV s.appStatuses key = some st ∧ st.uuid = key := by
  unfold lookupAppNetworkStatus at h
  cases hk : lookupKV s.appStatuses key with
  | none => rw [hk] at h; cases h
  | some st2 =>
      rw [hk] at h
      by_cases hu : st2.uuid = key
      · simp only [hu, ne_eq, not_true_eq_false, if_false] at h
        injection h with h2
        subst h2
        exact ⟨rfl, hu⟩
      · simp only [ne_eq, hu, not_false_eq_true, if_true] at h
        cases h

theorem lookupAppNetworkStatus_none_wk {s : State} {key : String}
    (hw : WellKeyed s.appStatuses) (h : lookupAppNetworkStatus s key = none) :
    lookupKV s.appStatuses key = none := by
  unfold lookupAppNetworkStatus at h
  cases hk : lookupKV s.appStatuses key with
  | none => rfl
  | some st2 =>
      rw [hk] at h
      have hu : st2.uuid = key := hw _ (lookupKV_mem hk)
      simp [hu] at h

theorem pendingCount_le_of_flagsLike {st0 st : AppNetworkStatus}
    (hfl : FlagsLike st0 st) : pendingCount st ≤ pendingCount st0 := by
  unfold pendingCount
  rw [hfl.2.2.1, hfl.2.2.2.1]
  rcases hfl.2.2.2.2 with h | h
  · rw [h]
  · rw [h]
    cases hb : st0.pendingAdd <;> simp

theorem identityOf_of_preservedTables {s1 s2 : State}
    (h : PreservedTables s1 s2) : identityOf s2 = identityOf s1 := by
  unfold identityOf
  rw [h.2.2.2.2.1, h.2.2.2.2.2.1, h.2.2.2.2.2.2.1]

theorem identityOf_unpublish (s : State) (st : AppNetworkStatus) :
    identityOf (unpublishAppNetworkStatus s st).1 = identityOf s := by
  unfold unpublishAppNetworkStatus
  cases lookupKV s.appStatuses st.uuid <;> rfl

theorem addError_outcome (env : Env) (s : State) (status1 : AppNetworkStatus)
    (tag msg : String) (hq1 : quiescent status1) :
    (∀ k st, Effect.publishApp k st ∈ [(addError env s status1 tag msg).2.2] →
      pendingCount st ≤ 1) ∧
    (∀ k st,
      lookupKV (addError env s status1 tag msg).1.appStatuses k = some st →
      quiescent st ∨
        (k ≠ status1.uuid ∧ lookupKV s.appStatuses k = some st)) := by
  constructor
  · intro k st h
    have h2 : Effect.publishApp k st =
        Effect.publishApp (addError env s status1 tag msg).2.1.uuid
          (addError env s status1 tag msg).2.1 := List.mem_singleton.mp h
    injection h2 with hk hst
    subst hst
    have hc : pendingCount (addError env s status1 tag msg).2.1 =
        pendingCount status1 := rfl
    rw [hc]
    unfold pendingCount
    rw [hq1.1, hq1.2.1, hq1.2.2]
    simp
  · intro k st h
    have h2 : lookupKV (upsert s.appStatuses
        (addError env s status1 tag msg).2.1.uuid
        (addError env s status1 tag msg).2.1) k = some st := h
    rcases lookupKV_upsert_cases h2 with ⟨hk, rfl⟩ | ⟨hk, hst⟩
    · exact Or.inl ⟨hq1.1, hq1.2.1, hq1.2.2⟩
    · exact Or.inr ⟨hk, hst⟩

theorem handleModify_pending (env : Env) (s : State) (key : String)
    (config : AppNetworkConfig) (status0 : AppNetworkStatus)
    (h0 : quiescent status0) :
    (∀ k st, Effect.publishApp k st ∈ (handleModify env s key config status0).2 →
      pendingCount st ≤ 1) ∧
    (∀ k st,
      lookupKV (handleModify env s key config status0).1.appStatuses k = some st →
      quiescent st ∨ lookupKV s.appStatuses k = some st) := by
  by_cases h1 : config.isZedmanager ≠ status0.isZedmanager
  · have hres : handleModify env s key config status0 =
        ((addError env s { status0 with pendingModify := false } "handleModify"
            ("Unsupported: IsZedmanager changed for " ++ config.uuid)).1,
         [(addError env s { status0 with pendingModify := false } "handleModify"
            ("Unsupported: IsZedmanager changed for " ++ config.uuid)).2.2]) := by
      simp only [handleModify, if_pos h1]
    rw [hres]
    have ha := addError_outcome env s { status0 with pendingModify := false }
      "handleModify" ("Unsupported: IsZedmanager changed for " ++ config.uuid)
      ⟨h0.1, rfl, h0.2.2⟩
    exact ⟨ha.1, fun k st h => (ha.2 k st h).imp id And.right⟩
  · push_neg at h1
    by_cases h2 : config.olList.length ≠ status0.olNum
    · have hres : handleModify env s key config status0 =
          ((addError env s { status0 with pendingModify := false } "handleModify"
              ("Unsupported: Changed number of overlays for " ++ config.uuid)).1,
           [(addError env s { status0 with pendingModify := false } "handleModify"
              ("Unsupported: Changed number of overlays for " ++ config.uuid)).2.2]) := by
        simp only [handleModify, h1, ne_eq, not_true_eq_false, if_neg, if_pos h2]
        simp
      rw [hres]
      have ha := addError_outcome env s { status0 with pendingModify := false }
        "handleModify" ("Unsupported: Changed number of overlays for " ++ config.uuid)
        ⟨h0.1, rfl, h0.2.2⟩
      exact ⟨ha.1, fun k st h => (ha.2 k st h).imp id And.right⟩
    · push_neg at h2
      by_cases h3 : config.ulList.length ≠ status0.ulNum
      · have hres : handleModify env s key config status0 =
            ((addError env s { status0 with pendingModify := false } "handleModify"
                ("Unsupported: Changed number of underlays for " ++ config.uuid)).1,
             [(addError env s { status0 with pendingModify := false } "handleModify"
                ("Unsupported: Changed number of underlays for " ++ config.uuid)).2.2]) := by
          simp only [handleModify, h1, h2, ne_eq, not_true_eq_false, if_neg,
            if_pos h3]
          simp
        rw [hres]
        have ha := addError_outcome env s { status0 with pendingModify := false }
          "handleModify" ("Unsupported: Changed number of underlays for " ++ config.uuid)
          ⟨h0.1, rfl, h0.2.2⟩
        exact ⟨ha.1, fun k st h => (ha.2 k st h).imp id And.right⟩
      · push_neg at h3
        have hMc : pendingCount (modifyStampedStatus s config status0) = 1 := by
          simp [pendingCount, modifyStampedStatus, h0.1, h0.2.2]
        by_cases hz : config.isZedmanager = true
        · have hst : status0.isZedmanager = true := h1.symm.trans hz
          by_cases h4 : config.separateDataPlane ≠ s.separateDataPlane
          · have hres : handleModify env s key config status0 =
                ((addError env
                    (publishAppNetworkStatus s (modifyStampedStatus s config status0)).1
                    { modifyStampedStatus s config status0 with pendingModify := false }
                    "handleModify"
                    "Unsupported: Changing experimental data plane flag on the fly").1,
                 [(publishAppNetworkStatus s (modifyStampedStatus s config status0)).2,
                  (addError env
                    (publishAppNetworkStatus s (modifyStampedStatus s config status0)).1
                    { modifyStampedStatus s config status0 with pendingModify := false }
                    "handleModify"
                    "Unsupported: Changing experimental data plane flag on the fly").2.2]) := by
              simp [handleModify, modifyStampedStatus, publishAppNetworkStatus,
                addError, h1, h2, h3, hz, hst, h4]
            rw [hres]
            constructor
            · intro k st h
              rcases List.mem_cons.mp h with heq | h
              · injection heq with hk hst2
                subst hst2
                rw [hMc]
              · have heq := List.mem_singleton.mp h
                injection heq with hk hst2
                subst hst2
                simp [pendingCount, addError, modifyStampedStatus, h0.1, h0.2.2]
            · intro k st h
              have h2' : lookupKV (upsert
                  (upsert s.appStatuses (modifyStampedStatus s config status0).uuid
                    (modifyStampedStatus s config status0))
                  (addError env
                    (publishAppNetworkStatus s (modifyStampedStatus s config status0)).1
                    { modifyStampedStatus s config status0 with pendingModify := false }
                    "handleModify"
                    "Unsupported: Changing experimental data plane flag on the fly").2.1.uuid
                  (addError env
                    (publishAppNetworkStatus s (modifyStampedStatus s config status0)).1
                    { modifyStampedStatus s config status0 with pendingModify := false }
                    "handleModify"
                    "Unsupported: Changing experimental data plane flag on the fly").2.1)
                  k = some st := h
              rcases lookupKV_upsert_cases h2' with ⟨hk, rfl⟩ | ⟨hk, hst2⟩
              · exact Or.inl ⟨h0.1, rfl, h0.2.2⟩
              · rcases lookupKV_upsert_cases hst2 with ⟨hk2, _⟩ | ⟨_, hst3⟩
                · exact absurd hk2 hk
                · exact Or.inr hst3
          · push_neg at h4
            have hres : handleModify env s key config status0 =
                ((publishAppNetworkStatus
                    (publishAppNetworkStatus s (modifyStampedStatus s config status0)).1
                    { modifyStampedStatus s config status0 with pendingModify := false }).1,
                 (publishAppNetworkStatus s (modifyStampedStatus s config status0)).2 ::
                   (updateACLConfiglet (mgmtOlIfname 1 status0.appNum)
                      (mgmtOlIfname 1 status0.appNum) true
                      ((modifyStampedStatus s config status0).olList.headD default).cfg.acls
                      (config.olList.headD default).acls 6 "" "" ++
                    [(publishAppNetworkStatus
                        (publishAppNetworkStatus s (modifyStampedStatus s config status0)).1
                        { modifyStampedStatus s config status0 with
                            pendingModify := false }).2])) := by
              simp [handleModify, modifyStampedStatus, publishAppNetworkStatus,
                h1, h2, h3, hz, hst, h4]
            rw [hres]
            constructor
            · intro k st h
              rcases List.mem_cons.mp h with heq | h
              · injection heq with hk hst2
                subst hst2
                rw [hMc]
              · rcases List.mem_append.mp h with h | h
                · have := (mem_updateACLConfiglet h).1
                  simp [isPublishApp] at this
                · have heq := List.mem_singleton.mp h
                  injection heq with hk hst2
                  subst hst2
                  have hc : pendingCount
                      { modifyStampedStatus s config status0 with
                          pendingModify := false } = 0 := by
                    simp [pendingCount, modifyStampedStatus, h0.1, h0.2.2]
                  rw [hc]
                  exact Nat.zero_le 1
            · intro k st h
              have h2' : lookupKV (upsert
                  (upsert s.appStatuses (modifyStampedStatus s config status0).uuid
                    (modifyStampedStatus s config status0))
                  { modifyStampedStatus s config status0 with
                      pendingModify := false }.uuid
                  { modifyStampedStatus s config status0 with
                      pendingModify := false }) k = some st := h
              rcases lookupKV_upsert_cases h2' with ⟨hk, rfl⟩ | ⟨hk, hst2⟩
              · exact Or.inl ⟨h0.1, rfl, h0.2.2⟩
              · rcases lookupKV_upsert_cases hst2 with ⟨hk2, _⟩ | ⟨_, hst3⟩
                · exact absurd hk2 hk
                · exact Or.inr hst3
        · have hzf : config.isZedmanager = false := by
            revert hz
            cases config.isZedmanager <;> simp
          have hstf : status0.isZedmanager = false := h1.symm.trans hzf
          have hres : handleModify env s key config status0 =
              ((publishAppNetworkStatus (modAcc2 env s config status0).st
                  (modFinalStatus env s config status0)).1,
               (modAcc2 env s config status0).effs ++
                 [(publishAppNetworkStatus (modAcc2 env s config status0).st
                    (modFinalStatus env s config status0)).2]) := by
            simp [handleModify, modAcc2, modAcc0, modFinalStatus,
              modifyStampedStatus, publishAppNetworkStatus, h1, h2, h3, hzf, hstf]
          rw [hres]
          have hL1 := modOlLoop_out env
            (compileAppInstanceIpsets config.olList config.ulList) config.olList 0
            (modAcc0 s config status0) (modifyStampedStatus s config status0)
            (flagsLike_refl _)
          have hL2 := modUlLoop_out env
            (compileAppInstanceIpsets config.olList config.ulList) config.ulList 0
            (modOlLoop env (compileAppInstanceIpsets config.olList config.ulList) 0
              config.olList (modAcc0 s config status0))
            (modifyStampedStatus s config status0) hL1.2.2.2.1
          have hL : LoopOut (modifyStampedStatus s config status0)
              (modAcc0 s config status0) (modAcc2 env s config status0) :=
            loopOut_trans hL1 hL2
          have hpa : (modAcc2 env s config status0).status.pendingAdd = false := by
            rcases hL.2.2.2.1.2.2.2.2 with h | h
            · exact h.trans h0.1
            · exact h
          have hpd : (modAcc2 env s config status0).status.pendingDelete = false :=
            (hL.2.2.2.1.2.2.2.1).trans h0.2.2
          constructor
          · intro k st h
            rcases List.mem_append.mp h with h | h
            · rcases hL.2.2.2.2.1 k st h with h | ⟨hk, hfl⟩
              · have heq := List.mem_singleton.mp h
                injection heq with hk hst2
                subst hst2
                rw [hMc]
              · calc pendingCount st
                    ≤ pendingCount (modifyStampedStatus s config status0) :=
                      pendingCount_le_of_flagsLike hfl
                  _ ≤ 1 := hMc.le
            · have heq := List.mem_singleton.mp h
              injection heq with hk hst2
              subst hst2
              show pendingCount (modFinalStatus env s config status0) ≤ 1
              unfold pendingCount modFinalStatus
              simp only [hpa, hpd]
              simp
          · intro k st h
            have h2' : lookupKV (upsert (modAcc2 env s config status0).st.appStatuses
                (modFinalStatus env s config status0).uuid
                (modFinalStatus env s config status0)) k = some st := h
            rcases lookupKV_upsert_cases h2' with ⟨hk, rfl⟩ | ⟨hk, hst2⟩
            · exact Or.inl ⟨hpa, rfl, hpd⟩
            · have hku : k ≠ config.uuid := fun hc =>
                hk (hc.trans (hL.2.2.2.1.1).symm)
              have hAMS := hL.2.1 k hku
              rw [hAMS] at hst2
              have h3' : lookupKV (upsert s.appStatuses
                  (modifyStampedStatus s config status0).uuid
                  (modifyStampedStatus s config status0)) k = some st := hst2
              rcases lookupKV_upsert_cases h3' with ⟨hk2, _⟩ | ⟨_, hst3⟩
              · exact absurd hk2 hku
              · exact Or.inr hst3

theorem handleCreateMgmt_pending (env : Env) (sIn : State)
    (config : AppNetworkConfig) (appNum : Nat) :
    (∀ k st, Effect.publishApp k st ∈
        (handleCreateMgmt env sIn config appNum
          (initialCreateStatus config appNum)).2 → pendingCount st ≤ 1) ∧
    (∀ k st, lookupKV (handleCreateMgmt env sIn config appNum
        (initialCreateStatus config appNum)).1.appStatuses k = some st →
      quiescent st ∨
        (k ≠ config.uuid ∧ lookupKV sIn.appStatuses k = some st)) := by
  by_cases hbad : config.olList.length ≠ 1 ∨ config.ulList.length ≠ 0
  · have hres : handleCreateMgmt env sIn config appNum
        (initialCreateStatus config appNum) =
        ((addError env sIn
            { initialCreateStatus config appNum with pendingAdd := false }
            "IsZedmanager" "Malformed IsZedmanager config; ignored").1,
         [(addError env sIn
            { initialCreateStatus config appNum with pendingAdd := false }
            "IsZedmanager" "Malformed IsZedmanager config; ignored").2.2]) := by
      simp only [handleCreateMgmt, if_pos hbad]
    rw [hres]
    have ha := addError_outcome env sIn
      { initialCreateStatus config appNum with pendingAdd := false }
      "IsZedmanager" "Malformed IsZedmanager config; ignored" ⟨rfl, rfl, rfl⟩
    exact ⟨ha.1, fun k st h => ha.2 k st h⟩
  · by_cases hpa : parseAddrOk (config.olList.headD default).eid = true
    · have hpo : ¬ ¬ parseAddrOk (config.olList.headD default).eid = true :=
        fun hc => hc hpa
      have hres : handleCreateMgmt env sIn config appNum
          (initialCreateStatus config appNum) =
          ((publishAppNetworkStatus
              { { sIn with separateDataPlane := config.separateDataPlane } with
                  deviceEID := (config.olList.headD default).eid,
                  deviceIID := (config.olList.headD default).mgmtIID,
                  additionalInfoDevice :=
                    (config.olList.headD default).additionalInfoDevice }
              { initialCreateStatus config appNum with
                  olList := config.olList.map zeroOlStatus,
                  pendingAdd := false }).1,
           ([Effect.linkDel (mgmtOlIfname 1 appNum),
             Effect.linkAdd (mgmtOlIfname 1 appNum) (appMacFmt "02" 1 appNum),
             Effect.linkSetMTU (mgmtOlIfname 1 appNum) 1280,
             Effect.linkSetUp (mgmtOlIfname 1 appNum),
             Effect.linkSetARPOn (mgmtOlIfname 1 appNum)] ++
            [Effect.addrAdd (mgmtOlIfname 1 appNum)
               (config.olList.headD default).eid,
             Effect.neighAdd (mgmtOlIfname 1 appNum) "fe80::1"
               (appMacFmt "02" 1 appNum),
             Effect.neighSet (mgmtOlIfname 1 appNum) "fe80::1"
               (appMacFmt "02" 1 appNum),
             Effect.routeAdd "fd00::/8" (mgmtOlIfname 1 appNum),
             Effect.hostsDelete (hostsDirpath (mgmtOlIfname 1 appNum)),
             Effect.hostsCreate (hostsDirpath (mgmtOlIfname 1 appNum))
               (config.olList.headD default).mgmtDnsNameToIPList,
             Effect.ipsetDeleteDefault (mgmtOlIfname 1 appNum),
             Effect.ipsetCreateDefault (mgmtOlIfname 1 appNum)
               (config.olList.headD default).mgmtDnsNameToIPList
               (config.olList.headD default).eid,
             Effect.aclCreate (mgmtOlIfname 1 appNum) (mgmtOlIfname 1 appNum)
               true (config.olList.headD default).acls 6 "" ""] ++
            [Effect.lispCreate true (config.olList.headD default).mgmtIID
               (config.olList.headD default).eid
               (config.olList.headD default).lispSignature
               (mgmtOlIfname 1 appNum)
               (generateAdditionalInfo
                 { { sIn with separateDataPlane := config.separateDataPlane } with
                     deviceEID := (config.olList.headD default).eid,
                     deviceIID := (config.olList.headD default).mgmtIID,
                     additionalInfoDevice :=
                       (config.olList.headD default).additionalInfoDevice }
                 (initialCreateStatus config appNum)
                 (config.olList.headD default))
               (config.olList.headD default).mgmtMapServers
               config.separateDataPlane]) ++
           [(publishAppNetworkStatus
              { { sIn with separateDataPlane := config.separateDataPlane } with
                  deviceEID := (config.olList.headD default).eid,
                  deviceIID := (config.olList.headD default).mgmtIID,
                  additionalInfoDevice :=
                    (config.olList.headD default).additionalInfoDevice }
              { initialCreateStatus config appNum with
                  olList := config.olList.map zeroOlStatus,
                  pendingAdd := false }).2]) := by
        simp only [handleCreateMgmt, if_neg hbad, if_neg hpo]
      rw [hres]
      constructor
      · intro k st h
        rcases List.mem_append.mp h with h | h
        · simp at h
        · have heq := List.mem_singleton.mp h
          injection heq with hk hst2
          subst hst2
          simp [pendingCount, initialCreateStatus]
      · intro k st h
        have h2' : lookupKV (upsert sIn.appStatuses config.uuid
            { initialCreateStatus config appNum with
                olList := config.olList.map zeroOlStatus,
                pendingAdd := false }) k = some st := h
        rcases lookupKV_upsert_cases h2' with ⟨hk, rfl⟩ | ⟨hk, hst2⟩
        · exact Or.inl ⟨rfl, rfl, rfl⟩
        · exact Or.inr ⟨hk, hst2⟩
    · have hres : handleCreateMgmt env sIn config appNum
          (initialCreateStatus config appNum) =
          ((addError env { sIn with separateDataPlane := config.separateDataPlane }
              { initialCreateStatus config appNum with pendingAdd := false }
              "IsZedmanager"
              ("ParseAddr " ++ (config.olList.headD default).eid ++ " failed")).1,
           [Effect.linkDel (mgmtOlIfname 1 appNum),
            Effect.linkAdd (mgmtOlIfname 1 appNum) (appMacFmt "02" 1 appNum),
            Effect.linkSetMTU (mgmtOlIfname 1 appNum) 1280,
            Effect.linkSetUp (mgmtOlIfname 1 appNum),
            Effect.linkSetARPOn (mgmtOlIfname 1 appNum)] ++
           [(addError env { sIn with separateDataPlane := config.separateDataPlane }
              { initialCreateStatus config appNum with pendingAdd := false }
              "IsZedmanager"
              ("ParseAddr " ++ (config.olList.headD default).eid ++ " failed")).2.2]) := by
        simp only [handleCreateMgmt, if_neg hbad, if_pos hpa]
      rw [hres]
      have ha := addError_outcome env
        { sIn with separateDataPlane := config.separateDataPlane }
        { initialCreateStatus config appNum with pendingAdd := false }
        "IsZedmanager"
        ("ParseAddr " ++ (config.olList.headD default).eid ++ " failed")
        ⟨rfl, rfl, rfl⟩
      constructor
      · intro k st h
        rcases List.mem_append.mp h with h | h
        · simp at h
        · exact ha.1 k st h
      · intro k st h
        exact ha.2 k st h

theorem handleCreateApp_pending (env : Env) (sIn : State)
    (config : AppNetworkConfig) (appNum : Nat) :
    (∀ k st, Effect.publishApp k st ∈
        (handleCreateApp env sIn config appNum
          (initialCreateStatus config appNum)).2 → pendingCount st ≤ 1) ∧
    (∀ k st, lookupKV (handleCreateApp env sIn config appNum
        (initialCreateStatus config appNum)).1.appStatuses k = some st →
      quiescent st ∨
        (k ≠ config.uuid ∧ lookupKV sIn.appStatuses k = some st)) := by
  by_cases hall : (config.olList.all (fun o =>
      (lookupNetworkObjectConfig sIn o.network).isSome) &&
      config.ulList.all (fun u =>
        (lookupNetworkObjectConfig sIn u.network).isSome)) = false
  · have hres : handleCreateApp env sIn config appNum
        (initialCreateStatus config appNum) =
        unpublishAppNetworkStatus sIn (initialCreateStatus config appNum) := by
      simp only [handleCreateApp, if_pos hall]
    rw [hres]
    cases hu : lookupKV sIn.appStatuses (initialCreateStatus config appNum).uuid with
    | none =>
        simp only [unpublishAppNetworkStatus, hu]
        constructor
        · intro k st h
          cases h
        · intro k st h
          by_cases hk : k = config.uuid

          · subst hk
            have hu' : lookupKV sIn.appStatuses config.uuid = none := hu
            rw [hu'] at h
            cases h
          · exact Or.inr ⟨hk, h⟩
    | some w =>
        simp only [unpublishAppNetworkStatus, hu]
        constructor
        · intro k st h
          simp at h
        · intro k st h
          have h2' : lookupKV (eraseKey sIn.appStatuses config.uuid) k = some st := h
          have h3 := lookupKV_eraseKey_cases h2'
          exact Or.inr h3
  · have htrue : (config.olList.all (fun o =>
        (lookupNetworkObjectConfig sIn o.network).isSome) &&
        config.ulList.all (fun u =>
          (lookupNetworkObjectConfig sIn u.network).isSome)) = true := by
      revert hall
      cases config.olList.all (fun o =>
          (lookupNetworkObjectConfig sIn o.network).isSome) &&
        config.ulList.all (fun u =>
          (lookupNetworkObjectConfig sIn u.network).isSome) <;> simp
    simp only [Bool.and_eq_true, List.all_eq_true] at htrue
    have hnetsOl : ∀ x ∈ config.olList,
        (lookupNetworkObjectConfig sIn x.network).isSome = true := htrue.1
    have hnetsUl : ∀ x ∈ config.ulList,
        (lookupNetworkObjectConfig sIn x.network).isSome = true := htrue.2
    have hres : handleCreateApp env sIn config appNum
        (initialCreateStatus config appNum) =
        (if (createR1 env sIn config appNum).2 = true then
          ((createR1 env sIn config appNum).1.st,
           (createR1 env sIn config appNum).1.effs)
         else if (createR2 env sIn config appNum).2 = true then
          ((createR2 env sIn config appNum).1.st,
           (createR2 env sIn config appNum).1.effs)
         else
          ((publishAppNetworkStatus (createR2 env sIn config appNum).1.st
              { (createR2 env sIn config appNum).1.status with
                  pendingAdd := false }).1,
           (createR2 env sIn config appNum).1.effs ++
             [(publishAppNetworkStatus (createR2 env sIn config appNum).1.st
                { (createR2 env sIn config appNum).1.status with
                    pendingAdd := false }).2])) := by
      simp only [handleCreateApp, createR1, createR2, createStatus1, if_neg hall]
    rw [hres]
    have hR1 := createOlLoop_out env config appNum
      (compileAppInstanceIpsets config.olList config.ulList) config.olList 0
      { st := sIn, status := createStatus1 config appNum, effs := [] }
      (createStatus1 config appNum) (flagsLike_refl _) hnetsOl
    have hR1' : LoopOut (createStatus1 config appNum)
        { st := sIn, status := createStatus1 config appNum, effs := [] }
        (createR1 env sIn config appNum).1 ∧
        ((createR1 env sIn config appNum).2 = true →
          lookupKV (createR1 env sIn config appNum).1.st.appStatuses
            (createStatus1 config appNum).uuid =
            some (createR1 env sIn config appNum).1.status ∧
          (createR1 env sIn config appNum).1.status.pendingAdd = false) := hR1
    have hnetsUl2 : ∀ x ∈ config.ulList,
        (lookupNetworkObjectConfig (createR1 env sIn config appNum).1.st
          x.network).isSome = true := by
      intro x hx
      show (lookupKV (createR1 env sIn config appNum).1.st.netConfigs
        x.network).isSome = true
      rw [hR1'.1.1.1]
      exact hnetsUl x hx
    have hR2 := createUlLoop_out env config appNum
      (compileAppInstanceIpsets config.olList config.ulList) config.ulList 0
      (createR1 env sIn config appNum).1
      (createStatus1 config appNum) hR1'.1.2.2.2.1 hnetsUl2
    have hR2' : LoopOut (createStatus1 config appNum)
        (createR1 env sIn config appNum).1
        (createR2 env sIn config appNum).1 ∧
        ((createR2 env sIn config appNum).2 = true →
          lookupKV (createR2 env sIn config appNum).1.st.appStatuses
            (createStatus1 config appNum).uuid =
            some (createR2 env sIn config appNum).1.status ∧
          (createR2 env sIn config appNum).1.status.pendingAdd = false) := hR2
    have hL : LoopOut (createStatus1 config appNum)
        { st := sIn, status := createStatus1 config appNum, effs := [] }
        (createR2 env sIn config appNum).1 :=
      loopOut_trans hR1'.1 hR2'.1
    have hc1 : pendingCount (createStatus1 config appNum) = 1 := by
      simp [pendingCount, createStatus1, initialCreateStatus]
    by_cases hf1 : (createR1 env sIn config appNum).2 = true
    · rw [if_pos hf1]
      obtain ⟨hlk, hpaF⟩ := hR1'.2 hf1
      constructor
      · intro k st h
        rcases hR1'.1.2.2.2.2.1 k st h with h | ⟨hk, hfl⟩
        · cases h
        · calc pendingCount st
              ≤ pendingCount (createStatus1 config appNum) :=
                pendingCount_le_of_flagsLike hfl
            _ ≤ 1 := hc1.le
      · intro k st h
        by_cases hk : k = config.uuid
        · subst hk
          have hlk' : lookupKV (createR1 env sIn config appNum).1.st.appStatuses
              config.uuid = some (createR1 env sIn config appNum).1.status := hlk
          have hst2 := Option.some.inj (h.symm.trans hlk')
          subst hst2
          exact Or.inl ⟨hpaF, hR1'.1.2.2.2.1.2.2.1, hR1'.1.2.2.2.1.2.2.2.1⟩
        · have hAMS := hR1'.1.2.1 k hk
          rw [hAMS] at h
          have h' : lookupKV sIn.appStatuses k = some st := h
          exact Or.inr ⟨hk, h'⟩
    · rw [if_neg hf1]
      by_cases hf2 : (createR2 env sIn config appNum).2 = true
      · rw [if_pos hf2]
        obtain ⟨hlk, hpaF⟩ := hR2'.2 hf2
        constructor
        · intro k st h
          rcases hL.2.2.2.2.1 k st h with h | ⟨hk, hfl⟩
          · cases h
          · calc pendingCount st
                ≤ pendingCount (createStatus1 config appNum) :=
                  pendingCount_le_of_flagsLike hfl
              _ ≤ 1 := hc1.le
        · intro k st h
          by_cases hk : k = config.uuid
          · subst hk
            have hlk' : lookupKV (createR2 env sIn config appNum).1.st.appStatuses
                config.uuid = some (createR2 env sIn config appNum).1.status := hlk
            have hst2 := Option.some.inj (h.symm.trans hlk')
            subst hst2
            exact Or.inl ⟨hpaF, hL.2.2.2.1.2.2.1, hL.2.2.2.1.2.2.2.1⟩
          · have hAMS := hL.2.1 k hk
            rw [hAMS] at h
            have h' : lookupKV sIn.appStatuses k = some st := h
            exact Or.inr ⟨hk, h'⟩
      · rw [if_neg hf2]
        have hpm2 : (createR2 env sIn config appNum).1.status.pendingModify =
            false := hL.2.2.2.1.2.2.1
        have hpd2 : (createR2 env sIn config appNum).1.status.pendingDelete =
            false := hL.2.2.2.1.2.2.2.1
        constructor
        · intro k st h
          rcases List.mem_append.mp h with h | h
          · rcases hL.2.2.2.2.1 k st h with h | ⟨hk, hfl⟩
            · cases h
            · calc pendingCount st
                  ≤ pendingCount (createStatus1 config appNum) :=
                    pendingCount_le_of_flagsLike hfl
                _ ≤ 1 := hc1.le
          · have heq := List.mem_singleton.mp h
            injection heq with hk hst2
            subst hst2
            show pendingCount { (createR2 env sIn config appNum).1.status with
                pendingAdd := false } ≤ 1
            simp [pendingCount, hpm2, hpd2]
        · intro k st h
          have h2' : lookupKV (upsert
              (createR2 env sIn config appNum).1.st.appStatuses
              { (createR2 env sIn config appNum).1.status with
                  pendingAdd := false }.uuid
              { (createR2 env sIn config appNum).1.status with
                  pendingAdd := false }) k = some st := h
          rcases lookupKV_upsert_cases h2' with ⟨hk, rfl⟩ | ⟨hk, hst2⟩
          · exact Or.inl ⟨rfl, hpm2, hpd2⟩
          · have hku : k ≠ config.uuid := fun hc =>
              hk (hc.trans (hL.2.2.2.1.1).symm)
            have hAMS := hL.2.1 k hku
            rw [hAMS] at hst2
            have h' : lookupKV sIn.appStatuses k = some st := hst2
            exact Or.inr ⟨hku, h'⟩

theorem handleCreate_pending (env : Env) (s : State) (key : String)
    (config : AppNetworkConfig) :
    (∀ k st, Effect.publishApp k st ∈ (handleCreate env s key config).2 →
      pendingCount st ≤ 1) ∧
    (∀ k st, lookupKV (handleCreate env s key config).1.appStatuses k = some st →
      quiescent st ∨ lookupKV s.appStatuses k = some st) := by
  by_cases hz : config.isZedmanager = true
  · have hres : handleCreate env s key config =
        ((handleCreateMgmt env
            (publishAppNetworkStatus (appNumAllocate s config.uuid true).2
              (initialCreateStatus config (appNumAllocate s config.uuid true).1)).1
            config (appNumAllocate s config.uuid true).1
            (initialCreateStatus config (appNumAllocate s config.uuid true).1)).1,
         (publishAppNetworkStatus (appNumAllocate s config.uuid true).2
            (initialCreateStatus config (appNumAllocate s config.uuid true).1)).2 ::
          (handleCreateMgmt env
            (publishAppNetworkStatus (appNumAllocate s config.uuid true).2
              (initialCreateStatus config (appNumAllocate s config.uuid true).1)).1
            config (appNumAllocate s config.uuid true).1
            (initialCreateStatus config (appNumAllocate s config.uuid true).1)).2) := by
      simp [handleCreate, hz]
    rw [hres]
    have hm := handleCreateMgmt_pending env
      (publishAppNetworkStatus (appNumAllocate s config.uuid true).2
        (initialCreateStatus config (appNumAllocate s config.uuid true).1)).1
      config (appNumAllocate s config.uuid true).1
    constructor
    · intro k st h
      rcases List.mem_cons.mp h with heq | h
      · injection heq with hk hst2
        subst hst2
        simp [pendingCount, initialCreateStatus]
      · exact hm.1 k st h
    · intro k st h
      rcases hm.2 k st h with hq | ⟨hk, hst2⟩
      · exact Or.inl hq
      · have h3 : lookupKV (upsert
            (appNumAllocate s config.uuid true).2.appStatuses config.uuid
            (initialCreateStatus config (appNumAllocate s config.uuid true).1))
            k = some st := hst2
        rcases lookupKV_upsert_cases h3 with ⟨hk2, _⟩ | ⟨_, hst3⟩
        · exact absurd hk2 hk
        · rw [appNumAllocate_appStatuses] at hst3
          exact Or.inr hst3
  · have hzf : config.isZedmanager = false := by
      revert hz
      cases config.isZedmanager <;> simp
    have hres : handleCreate env s key config =
        ((handleCreateApp env
            (publishAppNetworkStatus (appNumAllocate s config.uuid false).2
              (initialCreateStatus config (appNumAllocate s config.uuid false).1)).1
            config (appNumAllocate s config.uuid false).1
            (initialCreateStatus config (appNumAllocate s config.uuid false).1)).1,
         (publishAppNetworkStatus (appNumAllocate s config.uuid false).2
            (initialCreateStatus config (appNumAllocate s config.uuid false).1)).2 ::
          (handleCreateApp env
            (publishAppNetworkStatus (appNumAllocate s config.uuid false).2
              (initialCreateStatus config (appNumAllocate s config.uuid false).1)).1
            config (appNumAllocate s config.uuid false).1
            (initialCreateStatus config (appNumAllocate s config.uuid false).1)).2) := by
      simp [handleCreate, hzf]
    rw [hres]
    have hm := handleCreateApp_pending env
      (publishAppNetworkStatus (appNumAllocate s config.uuid false).2
        (initialCreateStatus config (appNumAllocate s config.uuid false).1)).1
      config (appNumAllocate s config.uuid false).1
    constructor
    · intro k st h
      rcases List.mem_cons.mp h with heq | h
      · injection heq with hk hst2
        subst hst2
        simp [pendingCount, initialCreateStatus]
      · exact hm.1 k st h
    · intro k st h
      rcases hm.2 k st h with hq | ⟨hk, hst2⟩
      · exact Or.inl hq
      · have h3 : lookupKV (upsert
            (appNumAllocate s config.uuid false).2.appStatuses config.uuid
            (initialCreateStatus config (appNumAllocate s config.uuid false).1))
            k = some st := hst2
        rcases lookupKV_upsert_cases h3 with ⟨hk2, _⟩ | ⟨_, hst3⟩
        · exact absurd hk2 hk
        · rw [appNumAllocate_appStatuses] at hst3
          exact Or.inr hst3

theorem handleDelete_pending (env : Env) (s : State) (key : String)
    (status0 : AppNetworkStatus) (h0 : quiescent status0) :
    (∀ k st, Effect.publishApp k st ∈ (handleDelete env s key status0).2 →
      pendingCount st ≤ 1) ∧
    ((∀ m, Effect.fatal m ∉ (handleDelete env s key status0).2) →
      ∀ k st, lookupKV (handleDelete env s key status0).1.appStatuses k = some st →
        quiescent st ∨ lookupKV s.appStatuses k = some st) := by
  have hc1 : pendingCount (delStatus1 status0) = 1 := by
    simp [pendingCount, delStatus1, h0.1, h0.2.1]
  by_cases hz : status0.isZedmanager = true
  · by_cases hbad : status0.olList.length ≠ 1 ∨ status0.ulList.length ≠ 0
    · have hres : handleDelete env s key status0 =
          ((addError env (publishAppNetworkStatus s (delStatus1 status0)).1
              { delStatus1 status0 with pendingDelete := false } "handleDelete"
              "Malformed IsZedmanager status; ignored").1,
           [(publishAppNetworkStatus s (delStatus1 status0)).2,
            (addError env (publishAppNetworkStatus s (delStatus1 status0)).1
              { delStatus1 status0 with pendingDelete := false } "handleDelete"
              "Malformed IsZedmanager status; ignored").2.2]) := by
        simp [handleDelete, delStatus1, hz, hbad]
        intro ha hb
        rcases hbad with hc | hc
        · exact absurd ha hc
        · rw [hb] at hc
          simp at hc
      rw [hres]
      constructor
      · intro k st h
        rcases List.mem_cons.mp h with heq | h
        · injection heq with hk hst2
          subst hst2
          rw [hc1]
        · have heq := List.mem_singleton.mp h
          injection heq with hk hst2
          subst hst2
          simp [pendingCount, addError, delStatus1, h0.1, h0.2.1]
      · intro _ k st h
        have h2' : lookupKV (upsert
            (upsert s.appStatuses status0.uuid (delStatus1 status0)) status0.uuid
            (addError env (publishAppNetworkStatus s (delStatus1 status0)).1
              { delStatus1 status0 with pendingDelete := false } "handleDelete"
              "Malformed IsZedmanager status; ignored").2.1) k = some st := h
        rcases lookupKV_upsert_cases h2' with ⟨hk, rfl⟩ | ⟨hk, hst2⟩
        · exact Or.inl ⟨h0.1, h0.2.1, rfl⟩
        · rcases lookupKV_upsert_cases hst2 with ⟨hk2, _⟩ | ⟨_, hst3⟩
          · exact absurd hk2 hk
          · exact Or.inr hst3
    · push_neg at hbad
      have hb1 : status0.olList.length = 1 := hbad.1
      have hb2 : status0.ulList = [] := List.length_eq_zero.mp hbad.2
      by_cases hpe : parseAddrOk (status0.olList.head?.getD default).cfg.eid = true
      · have hres : handleDelete env s key status0 =
            ({ s with
                appStatuses := eraseKey
                  (upsert (upsert s.appStatuses status0.uuid (delStatus1 status0))
                    status0.uuid
                    { delStatus1 status0 with pendingDelete := false })
                  status0.uuid,
                appNums := eraseKey s.appNums status0.uuid,
                deviceEID := "", deviceIID := 0, additionalInfoDevice := none },
             (Effect.publishApp status0.uuid (delStatus1 status0) ::
               [Effect.addrDel (mgmtOlIfname 1 status0.appNum)
                  (status0.olList.headD default).cfg.eid,
                Effect.routeDel "fd00::/8" (mgmtOlIfname 1 status0.appNum),
                Effect.neighDel (mgmtOlIfname 1 status0.appNum) "fe80::1",
                Effect.linkDel (mgmtOlIfname 1 status0.appNum),
                Effect.hostsDelete (hostsDirpath (mgmtOlIfname 1 status0.appNum)),
                Effect.ipsetDeleteDefault (mgmtOlIfname 1 status0.appNum),
                Effect.aclDelete (mgmtOlIfname 1 status0.appNum)
                  (mgmtOlIfname 1 status0.appNum) true
                  (status0.olList.headD default).cfg.acls 6 "" "",
                Effect.lispDelete true
                  (status0.olList.headD default).cfg.mgmtIID
                  (status0.olList.headD default).cfg.eid
                  s.separateDataPlane]) ++
              [Effect.publishApp status0.uuid
                { delStatus1 status0 with pendingDelete := false }] ++
              [Effect.unpublishApp status0.uuid]) := by
          simp [handleDelete, delStatus1, hz, hb1, hb2, hpe,
            publishAppNetworkStatus, unpublishAppNetworkStatus, appNumFree,
            lookupKV_upsert_self]
        rw [hres]
        constructor
        · intro k st h
          rcases List.mem_append.mp h with h | h
          · rcases List.mem_append.mp h with h | h
            · rcases List.mem_cons.mp h with heq | h
              · injection heq with hk hst2
                subst hst2
                rw [hc1]
              · simp at h
            · have heq := List.mem_singleton.mp h
              injection heq with hk hst2
              subst hst2
              simp [pendingCount, delStatus1, h0.1, h0.2.1]
          · simp at h
        · intro _ k st h
          have h2' : lookupKV (eraseKey
              (upsert (upsert s.appStatuses status0.uuid (delStatus1 status0))
                status0.uuid { delStatus1 status0 with pendingDelete := false })
              status0.uuid) k = some st := h
          obtain ⟨hk, h3⟩ := lookupKV_eraseKey_cases h2'
          rcases lookupKV_upsert_cases h3 with ⟨hk2, _⟩ | ⟨_, h4⟩
          · exact absurd hk2 hk
          · rcases lookupKV_upsert_cases h4 with ⟨hk2, _⟩ | ⟨_, h5⟩
            · exact absurd hk2 hk
            · exact Or.inr h5
      · have hpef : parseAddrOk (status0.olList.head?.getD default).cfg.eid = false := by
          revert hpe
          cases parseAddrOk (status0.olList.head?.getD default).cfg.eid <;> simp
        have hres : handleDelete env s key status0 =
            ((addError env
                { (publishAppNetworkStatus s (delStatus1 status0)).1 with
                    deviceEID := "", deviceIID := 0,
                    additionalInfoDevice := none }
                { delStatus1 status0 with pendingDelete := false } "handleDelete"
                ("ParseAddr " ++ (status0.olList.headD default).cfg.eid ++
                  " failed")).1,
             [(publishAppNetworkStatus s (delStatus1 status0)).2,
              (addError env
                { (publishAppNetworkStatus s (delStatus1 status0)).1 with
                    deviceEID := "", deviceIID := 0,
                    additionalInfoDevice := none }
                { delStatus1 status0 with pendingDelete := false } "handleDelete"
                ("ParseAddr " ++ (status0.olList.headD default).cfg.eid ++
                  " failed")).2.2]) := by
          simp [handleDelete, delStatus1, hz, hb1, hb2, hpef]
        rw [hres]
        constructor
        · intro k st h
          rcases List.mem_cons.mp h with heq | h
          · injection heq with hk hst2
            subst hst2
            rw [hc1]
          · have heq := List.mem_singleton.mp h
            injection heq with hk hst2
            subst hst2
            simp [pendingCount, addError, delStatus1, h0.1, h0.2.1]
        · intro _ k st h
          have h2' : lookupKV (upsert
              (upsert s.appStatuses status0.uuid (delStatus1 status0)) status0.uuid
              (addError env
                { (publishAppNetworkStatus s (delStatus1 status0)).1 with
                    deviceEID := "", deviceIID := 0,
                    additionalInfoDevice := none }
                { delStatus1 status0 with pendingDelete := false } "handleDelete"
                ("ParseAddr " ++ (status0.olList.headD default).cfg.eid ++
                  " failed")).2.1) k = some st := h
          rcases lookupKV_upsert_cases h2' with ⟨hk, rfl⟩ | ⟨hk, hst2⟩
          · exact Or.inl ⟨h0.1, h0.2.1, rfl⟩
          · rcases lookupKV_upsert_cases hst2 with ⟨hk2, _⟩ | ⟨_, hst3⟩
            · exact absurd hk2 hk
            · exact Or.inr hst3
  · have hzf : status0.isZedmanager = false := by
      revert hz
      cases status0.isZedmanager <;> simp
    have hres : handleDelete env s key status0 =
        (if (delR2 env s status0).2 = true then
          ((delR2 env s status0).1.st, (delR2 env s status0).1.effs)
         else
          ({ (delR2 env s status0).1.st with
              appStatuses := eraseKey
                (upsert (delR2 env s status0).1.st.appStatuses
                  (delR2 env s status0).1.status.uuid
                  { (delR2 env s status0).1.status with pendingDelete := false })
                (delR2 env s status0).1.status.uuid,
              appNums := eraseKey (delR2 env s status0).1.st.appNums
                (delR2 env s status0).1.status.uuid },
           (delR2 env s status0).1.effs ++
             [Effect.publishApp (delR2 env s status0).1.status.uuid
               { (delR2 env s status0).1.status with pendingDelete := false }] ++
             [Effect.unpublishApp (delR2 env s status0).1.status.uuid])) := by
      simp [handleDelete, delR2, delAcc0, delStatus1, hzf,
        publishAppNetworkStatus, unpublishAppNetworkStatus, appNumFree,
        lookupKV_upsert_self]
    rw [hres]
    have hR1 := delOlLoop_out env
      (compileOldAppInstanceIpsets (publishAppNetworkStatus s (delStatus1 status0)).1
        (delStatus1 status0).uuid)
      (delStatus1 status0).olNum 1 (delAcc0 s status0) (delStatus1 status0)
      (flagsLike_refl _)
    have hR2 := delUlLoop_out env
      (compileOldAppInstanceIpsets (publishAppNetworkStatus s (delStatus1 status0)).1
        (delStatus1 status0).uuid)
      (delStatus1 status0).ulNum 1
      (delOlLoop env
        (compileOldAppInstanceIpsets
          (publishAppNetworkStatus s (delStatus1 status0)).1
          (delStatus1 status0).uuid)
        1 (delStatus1 status0).olNum (delAcc0 s status0))
      (delStatus1 status0) hR1.2.2.2.1
    have hR2' : LoopOut (delStatus1 status0)
        (delOlLoop env
          (compileOldAppInstanceIpsets
            (publishAppNetworkStatus s (delStatus1 status0)).1
            (delStatus1 status0).uuid)
          1 (delStatus1 status0).olNum (delAcc0 s status0))
        (delR2 env s status0).1 ∧
        ((delR2 env s status0).2 = true →
          ∃ m, Effect.fatal m ∈ (delR2 env s status0).1.effs) := hR2
    have hL : LoopOut (delStatus1 status0) (delAcc0 s status0)
        (delR2 env s status0).1 := loopOut_trans hR1 hR2'.1
    have hpa2 : (delR2 env s status0).1.status.pendingAdd = false := by
      rcases hL.2.2.2.1.2.2.2.2 with h | h
      · exact h.trans h0.1
      · exact h
    have hpm2 : (delR2 env s status0).1.status.pendingModify = false :=
      (hL.2.2.2.1.2.2.1).trans h0.2.1
    by_cases hf : (delR2 env s status0).2 = true
    · rw [if_pos hf]
      constructor
      · intro k st h
        rcases hL.2.2.2.2.1 k st h with h | ⟨hk, hfl⟩
        · have heq := List.mem_singleton.mp h
          injection heq with hk hst2
          subst hst2
          rw [hc1]
        · calc pendingCount st
              ≤ pendingCount (delStatus1 status0) :=
                pendingCount_le_of_flagsLike hfl
            _ ≤ 1 := hc1.le
      · intro hnf k st h
        obtain ⟨m, hm⟩ := hR2'.2 hf
        exact absurd hm (hnf m)
    · rw [if_neg hf]
      constructor
      · intro k st h
        rcases List.mem_append.mp h with h | h
        · rcases List.mem_append.mp h with h | h
          · rcases hL.2.2.2.2.1 k st h with h | ⟨hk, hfl⟩
            · have heq := List.mem_singleton.mp h
              injection heq with hk hst2
              subst hst2
              rw [hc1]
            · calc pendingCount st
                  ≤ pendingCount (delStatus1 status0) :=
                    pendingCount_le_of_flagsLike hfl
                _ ≤ 1 := hc1.le
          · have heq := List.mem_singleton.mp h
            injection heq with hk hst2
            subst hst2
            show pendingCount { (delR2 env s status0).1.status with
                pendingDelete := false } ≤ 1
            simp [pendingCount, hpa2, hpm2]
        · have heq := List.mem_singleton.mp h
          cases heq
      · intro _ k st h
        have h2' : lookupKV (eraseKey
            (upsert (delR2 env s status0).1.st.appStatuses
              (delR2 env s status0).1.status.uuid
              { (delR2 env s status0).1.status with pendingDelete := false })
            (delR2 env s status0).1.status.uuid) k = some st := h
        obtain ⟨hk, h3⟩ := lookupKV_eraseKey_cases h2'
        rcases lookupKV_upsert_cases h3 with ⟨hk2, _⟩ | ⟨_, h4⟩
        · exact absurd hk2 hk
        · have hkU : k ≠ status0.uuid := fun hc =>
            hk (hc.trans (hL.2.2.2.1.1).symm)
          have hAMS := hL.2.1 k hkU
          rw [hAMS] at h4
          have h5 : lookupKV (upsert s.appStatuses status0.uuid
              (delStatus1 status0)) k = some st := h4
          rcases lookupKV_upsert_cases h5 with ⟨hk2, _⟩ | ⟨_, h6⟩
          · exact absurd hk2 hkU
          · exact Or.inr h6

/-- C6: While dispatching one inbound config event (create, modify or
delete), every AppNetworkStatus the handlers publish has at most one of the
three pending flags (PendingAdd, PendingModify, PendingDelete) raised; and
once the event has been fully processed (no `log.Fatal` occurred), every
stored status is quiescent again — provided every stored status was quiescent
when the event arrived. -/
theorem c6_pending_flags_invariant (env : Env) (s : State) (ev : ConfigEvent)
    (hq : ∀ k st, lookupKV s.appStatuses k = some st → quiescent st) :
    (∀ k st, Effect.publishApp k st ∈ (step env s ev).2 → pendingCount st ≤ 1) ∧
    ((∀ m, Effect.fatal m ∉ (step env s ev).2) →
      ∀ k st, lookupKV (step env s ev).1.appStatuses k = some st →
        quiescent st) := by
  cases ev with
  | modify key config =>
      simp only [step, handleAppNetworkConfigModify]
      by_cases hk : config.uuid ≠ key
      · rw [if_pos hk]
        constructor
        · intro k st h
          cases h
        · intro _ k st h
          exact hq k st h
      · rw [if_neg hk]
        cases hl : lookupAppNetworkStatus s key with
        | none =>
            have h := handleCreate_pending env s key config
            exact ⟨fun k2 st h2 => h.1 k2 st h2,
                   fun _ k2 st h2 => (h.2 k2 st h2).elim id
                     (fun hh => hq k2 st hh)⟩
        | some status =>
            obtain ⟨hsome, huu⟩ := lookupAppNetworkStatus_some hl
            have h0 : quiescent status := hq key status hsome
            have h := handleModify_pending env s key config status h0
            exact ⟨fun k2 st h2 => h.1 k2 st h2,
                   fun _ k2 st h2 => (h.2 k2 st h2).elim id
                     (fun hh => hq k2 st hh)⟩
  | delete key =>
      simp only [step, handleAppNetworkConfigDelete]
      cases hl : lookupAppNetworkStatus s key with
      | none =>
          exact ⟨fun k st h => (nomatch h), fun _ k st h => hq k st h⟩
      | some status =>
          obtain ⟨hsome, huu⟩ := lookupAppNetworkStatus_some hl
          have h0 : quiescent status := hq key status hsome
          have h := handleDelete_pending env s key status h0
          exact ⟨fun k2 st h2 => h.1 k2 st h2,
                 fun hnf k2 st h2 => (h.2 hnf k2 st h2).elim id
                   (fun hh => hq k2 st hh)⟩

/-- Witness: C6 applied at the concrete create of instance appA from the base
state (whose status table is empty, hence trivially quiescent). -/
theorem c6_pending_flags_invariant_witness :
    (∀ k st, Effect.publishApp k st ∈
        (step exEnv exState (ConfigEvent.modify "appA" exCfgU)).2 →
      pendingCount st ≤ 1) ∧
    ((∀ m, Effect.fatal m ∉
        (step exEnv exState (ConfigEvent.modify "appA" exCfgU)).2) →
      ∀ k st, lookupKV (step exEnv exState
          (ConfigEvent.modify "appA" exCfgU)).1.appStatuses k = some st →
        quiescent st) :=
  c6_pending_flags_invariant exEnv exState (ConfigEvent.modify "appA" exCfgU)
    (by intro k st h; simp [exState, lookupKV] at h)

theorem handleCreateApp_identity (env : Env) (sIn : State)
    (config : AppNetworkConfig) (appNum : Nat) :
    identityOf (handleCreateApp env sIn config appNum
      (initialCreateStatus config appNum)).1 = identityOf sIn := by
  by_cases hall : (config.olList.all (fun o =>
      (lookupNetworkObjectConfig sIn o.network).isSome) &&
      config.ulList.all (fun u =>
        (lookupNetworkObjectConfig sIn u.network).isSome)) = false
  · have hres : handleCreateApp env sIn config appNum
        (initialCreateStatus config appNum) =
        unpublishAppNetworkStatus sIn (initialCreateStatus config appNum) := by
      simp only [handleCreateApp, if_pos hall]
    rw [hres]
    exact identityOf_unpublish sIn _
  · have htrue : (config.olList.all (fun o =>
        (lookupNetworkObjectConfig sIn o.network).isSome) &&
        config.ulList.all (fun u =>
          (lookupNetworkObjectConfig sIn u.network).isSome)) = true := by
      revert hall
      cases config.olList.all (fun o =>
          (lookupNetworkObjectConfig sIn o.network).isSome) &&
        config.ulList.all (fun u =>
          (lookupNetworkObjectConfig sIn u.network).isSome) <;> simp
    simp only [Bool.and_eq_true, List.all_eq_true] at htrue
    have hres : handleCreateApp env sIn config appNum
        (initialCreateStatus config appNum) =
        (if (createR1 env sIn config appNum).2 = true then
          ((createR1 env sIn config appNum).1.st,
           (createR1 env sIn config appNum).1.effs)
         else if (createR2 env sIn config appNum).2 = true then
          ((createR2 env sIn config appNum).1.st,
           (createR2 env sIn config appNum).1.effs)
         else
          ((publishAppNetworkStatus (createR2 env sIn config appNum).1.st
              { (createR2 env sIn config appNum).1.status with
                  pendingAdd := false }).1,
           (createR2 env sIn config appNum).1.effs ++
             [(publishAppNetworkStatus (createR2 env sIn config appNum).1.st
                { (createR2 env sIn config appNum).1.status with
                    pendingAdd := false }).2])) := by
      simp only [handleCreateApp, createR1, createR2, createStatus1, if_neg hall]
    rw [hres]
    have hR1 := createOlLoop_out env config appNum
      (compileAppInstanceIpsets config.olList config.ulList) config.olList 0
      { st := sIn, status := createStatus1 config appNum, effs := [] }
      (createStatus1 config appNum) (flagsLike_refl _) htrue.1
    have hR1' : LoopOut (createStatus1 config appNum)
        { st := sIn, status := createStatus1 config appNum, effs := [] }
        (createR1 env sIn config appNum).1 ∧
        ((createR1 env sIn config appNum).2 = true →
          lookupKV (createR1 env sIn config appNum).1.st.appStatuses
            (createStatus1 config appNum).uuid =
            some (createR1 env sIn config appNum).1.status ∧
          (createR1 env sIn config appNum).1.status.pendingAdd = false) := hR1
    have hnetsUl2 : ∀ x ∈ config.ulList,
        (lookupNetworkObjectConfig (createR1 env sIn config appNum).1.st
          x.network).isSome = true := by
      intro x hx
      show (lookupKV (createR1 env sIn config appNum).1.st.netConfigs
        x.network).isSome = true
      rw [hR1'.1.1.1]
      exact htrue.2 x hx
    have hR2 := createUlLoop_out env config appNum
      (compileAppInstanceIpsets config.olList config.ulList) config.ulList 0
      (createR1 env sIn config appNum).1
      (createStatus1 config appNum) hR1'.1.2.2.2.1 hnetsUl2
    have hR2' : LoopOut (createStatus1 config appNum)
        (createR1 env sIn config appNum).1
        (createR2 env sIn config appNum).1 ∧
        ((createR2 env sIn config appNum).2 = true →
          lookupKV (createR2 env sIn config appNum).1.st.appStatuses
            (createStatus1 config appNum).uuid =
            some (createR2 env sIn config appNum).1.status ∧
          (createR2 env sIn config appNum).1.status.pendingAdd = false) := hR2
    have hL : LoopOut (createStatus1 config appNum)
        { st := sIn, status := createStatus1 config appNum, effs := [] }
        (createR2 env sIn config appNum).1 :=
      loopOut_trans hR1'.1 hR2'.1
    by_cases hf1 : (createR1 env sIn config appNum).2 = true
    · rw [if_pos hf1]
      exact identityOf_of_preservedTables hR1'.1.1
    · rw [if_neg hf1]
      by_cases hf2 : (createR2 env sIn config appNum).2 = true
      · rw [if_pos hf2]
        exact identityOf_of_preservedTables hL.1
      · rw [if_neg hf2]
        exact identityOf_of_preservedTables hL.1

theorem handleCreate_identity (env : Env) (s : State) (key : String)
    (config : AppNetworkConfig) (hz : config.isZedmanager = false) :
    identityOf (handleCreate env s key config).1 = identityOf s := by
  have hres : handleCreate env s key config =
      ((handleCreateApp env
          (publishAppNetworkStatus (appNumAllocate s config.uuid false).2
            (initialCreateStatus config (appNumAllocate s config.uuid false).1)).1
          config (appNumAllocate s config.uuid false).1
          (initialCreateStatus config (appNumAllocate s config.uuid false).1)).1,
       (publishAppNetworkStatus (appNumAllocate s config.uuid false).2
          (initialCreateStatus config (appNumAllocate s config.uuid false).1)).2 ::
        (handleCreateApp env
          (publishAppNetworkStatus (appNumAllocate s config.uuid false).2
            (initialCreateStatus config (appNumAllocate s config.uuid false).1)).1
          config (appNumAllocate s config.uuid false).1
          (initialCreateStatus config (appNumAllocate s config.uuid false).1)).2) := by
    simp [handleCreate, hz]
  rw [hres]
  have ha := handleCreateApp_identity env
    (publishAppNetworkStatus (appNumAllocate s config.uuid false).2
      (initialCreateStatus config (appNumAllocate s config.uuid false).1)).1
    config (appNumAllocate s config.uuid false).1
  have hb : identityOf (publishAppNetworkStatus
      (appNumAllocate s config.uuid false).2
      (initialCreateStatus config (appNumAllocate s config.uuid false).1)).1 =
      identityOf s := by
    show identityOf (appNumAllocate s config.uuid false).2 = identityOf s
    unfold identityOf
    rw [appNumAllocate_deviceEID, appNumAllocate_deviceIID,
      appNumAllocate_addInfo]
  exact ha.trans hb

theorem handleCreate_mgmt_sets_identity (env : Env) (s : State) (key : String)
    (config : AppNetworkConfig) (hz : config.isZedmanager = true)
    (h1 : config.olList.length = 1) (h0l : config.ulList.length = 0)
    (he : parseAddrOk (config.olList.head?.getD default).eid = true) :
    identityOf (handleCreate env s key config).1 =
      ((config.olList.head?.getD default).eid,
       (config.olList.head?.getD default).mgmtIID,
       (config.olList.head?.getD default).additionalInfoDevice) := by
  have hbad : ¬(config.olList.length ≠ 1 ∨ config.ulList.length ≠ 0) := by
    push_neg
    exact ⟨h1, h0l⟩
  have he' : parseAddrOk (config.olList.headD default).eid = true := by
    simpa using he
  have hpo : ¬ ¬ parseAddrOk (config.olList.headD default).eid = true :=
    fun hc => hc he'
  have hres : handleCreate env s key config =
      ((handleCreateMgmt env
          (publishAppNetworkStatus (appNumAllocate s config.uuid true).2
            (initialCreateStatus config (appNumAllocate s config.uuid true).1)).1
          config (appNumAllocate s config.uuid true).1
          (initialCreateStatus config (appNumAllocate s config.uuid true).1)).1,
       (publishAppNetworkStatus (appNumAllocate s config.uuid true).2
          (initialCreateStatus config (appNumAllocate s config.uuid true).1)).2 ::
        (handleCreateMgmt env
          (publishAppNetworkStatus (appNumAllocate s config.uuid true).2
            (initialCreateStatus config (appNumAllocate s config.uuid true).1)).1
          config (appNumAllocate s config.uuid true).1
          (initialCreateStatus config (appNumAllocate s config.uuid true).1)).2) := by
    simp [handleCreate, hz]
  rw [hres]
  show identityOf (handleCreateMgmt env
      (publishAppNetworkStatus (appNumAllocate s config.uuid true).2
        (initialCreateStatus config (appNumAllocate s config.uuid true).1)).1
      config (appNumAllocate s config.uuid true).1
      (initialCreateStatus config (appNumAllocate s config.uuid true).1)).1 = _
  simp only [handleCreateMgmt, if_neg hbad, if_neg hpo]
  simp [identityOf, publishAppNetworkStatus]

theorem handleModify_identity (env : Env) (s : State) (key : String)
    (config : AppNetworkConfig) (status0 : AppNetworkStatus) :
    identityOf (handleModify env s key config status0).1 = identityOf s := by
  by_cases h1 : config.isZedmanager ≠ status0.isZedmanager
  · have hres : handleModify env s key config status0 =
        ((addError env s { status0 with pendingModify := false } "handleModify"
            ("Unsupported: IsZedmanager changed for " ++ config.uuid)).1,
         [(addError env s { status0 with pendingModify := false } "handleModify"
            ("Unsupported: IsZedmanager changed for " ++ config.uuid)).2.2]) := by
      simp only [handleModify, if_pos h1]
    rw [hres]
    rfl
  · push_neg at h1
    by_cases h2 : config.olList.length ≠ status0.olNum
    · have hres : handleModify env s key config status0 =
          ((addError env s { status0 with pendingModify := false } "handleModify"
              ("Unsupported: Changed number of overlays for " ++ config.uuid)).1,
           [(addError env s { status0 with pendingModify := false } "handleModify"
              ("Unsupported: Changed number of overlays for " ++ config.uuid)).2.2]) := by
        simp only [handleModify, h1, ne_eq, not_true_eq_false, if_neg, if_pos h2]
        simp
      rw [hres]
      rfl
    · push_neg at h2
      by_cases h3 : config.ulList.length ≠ status0.ulNum
      · have hres : handleModify env s key config status0 =
            ((addError env s { status0 with pendingModify := false } "handleModify"
                ("Unsupported: Changed number of underlays for " ++ config.uuid)).1,
             [(addError env s { status0 with pendingModify := false } "handleModify"
                ("Unsupported: Changed number of underlays for " ++ config.uuid)).2.2]) := by
          simp only [handleModify, h1, h2, ne_eq, not_true_eq_false, if_neg,
            if_pos h3]
          simp
        rw [hres]
        rfl
      · push_neg at h3
        by_cases hz : config.isZedmanager = true
        · have hst : status0.isZedmanager = true := h1.symm.trans hz
          by_cases h4 : config.separateDataPlane ≠ s.separateDataPlane
          · have hres : handleModify env s key config status0 =
                ((addError env
                    (publishAppNetworkStatus s (modifyStampedStatus s config status0)).1
                    { modifyStampedStatus s config status0 with pendingModify := false }
                    "handleModify"
                    "Unsupported: Changing experimental data plane flag on the fly").1,
                 [(publishAppNetworkStatus s (modifyStampedStatus s config status0)).2,
                  (addError env
                    (publishAppNetworkStatus s (modifyStampedStatus s config status0)).1
                    { modifyStampedStatus s config status0 with pendingModify := false }
                    "handleModify"
                    "Unsupported: Changing experimental data plane flag on the fly").2.2]) := by
              simp [handleModify, modifyStampedStatus, publishAppNetworkStatus,
                addError, h1, h2, h3, hz, hst, h4]
            rw [hres]
            rfl
          · push_neg at h4
            have hres : handleModify env s key config status0 =
                ((publishAppNetworkStatus
                    (publishAppNetworkStatus s (modifyStampedStatus s config status0)).1
                    { modifyStampedStatus s config status0 with pendingModify := false }).1,
                 (publishAppNetworkStatus s (modifyStampedStatus s config status0)).2 ::
                   (updateACLConfiglet (mgmtOlIfname 1 status0.appNum)
                      (mgmtOlIfname 1 status0.appNum) true
                      ((modifyStampedStatus s config status0).olList.headD default).cfg.acls
                      (config.olList.headD default).acls 6 "" "" ++
                    [(publishAppNetworkStatus
                        (publishAppNetworkStatus s (modifyStampedStatus s config status0)).1
                        { modifyStampedStatus s config status0 with
                            pendingModify := false }).2])) := by
              simp [handleModify, modifyStampedStatus, publishAppNetworkStatus,
                h1, h2, h3, hz, hst, h4]
            rw [hres]
            rfl
        · have hzf : config.isZedmanager = false := by
            revert hz
            cases config.isZedmanager <;> simp
          have hstf : status0.isZedmanager = false := h1.symm.trans hzf
          have hres : handleModify env s key config status0 =
              ((publishAppNetworkStatus (modAcc2 env s config status0).st
                  (modFinalStatus env s config status0)).1,
               (modAcc2 env s config status0).effs ++
                 [(publishAppNetworkStatus (modAcc2 env s config status0).st
                    (modFinalStatus env s config status0)).2]) := by
            simp [handleModify, modAcc2, modAcc0, modFinalStatus,
              modifyStampedStatus, publishAppNetworkStatus, h1, h2, h3, hzf, hstf]
          rw [hres]
          have hL1 := modOlLoop_out env
            (compileAppInstanceIpsets config.olList config.ulList) config.olList 0
            (modAcc0 s config status0) (modifyStampedStatus s config status0)
            (flagsLike_refl _)
          have hL2 := modUlLoop_out env
            (compileAppInstanceIpsets config.olList config.ulList) config.ulList 0
            (modOlLoop env (compileAppInstanceIpsets config.olList config.ulList) 0
              config.olList (modAcc0 s config status0))
            (modifyStampedStatus s config status0) hL1.2.2.2.1
          have hL : LoopOut (modifyStampedStatus s config status0)
              (modAcc0 s config status0) (modAcc2 env s config status0) :=
            loopOut_trans hL1 hL2
          exact identityOf_of_preservedTables hL.1

theorem handleDelete_identity (env : Env) (s : State) (key : String)
    (status0 : AppNetworkStatus) (hz : status0.isZedmanager = false) :
    identityOf (handleDelete env s key status0).1 = identityOf s := by
  have hres : handleDelete env s key status0 =
      (if (delR2 env s status0).2 = true then
        ((delR2 env s status0).1.st, (delR2 env s status0).1.effs)
       else
        ({ (delR2 env s status0).1.st with
            appStatuses := eraseKey
              (upsert (delR2 env s status0).1.st.appStatuses
                (delR2 env s status0).1.status.uuid
                { (delR2 env s status0).1.status with pendingDelete := false })
              (delR2 env s status0).1.status.uuid,
            appNums := eraseKey (delR2 env s status0).1.st.appNums
              (delR2 env s status0).1.status.uuid },
         (delR2 env s status0).1.effs ++
           [Effect.publishApp (delR2 env s status0).1.status.uuid
             { (delR2 env s status0).1.status with pendingDelete := false }] ++
           [Effect.unpublishApp (delR2 env s status0).1.status.uuid])) := by
    simp [handleDelete, delR2, delAcc0, delStatus1, hz,
      publishAppNetworkStatus, unpublishAppNetworkStatus, appNumFree,
      lookupKV_upsert_self]
  rw [hres]
  have hR1 := delOlLoop_out env
    (compileOldAppInstanceIpsets (publishAppNetworkStatus s (delStatus1 status0)).1
      (delStatus1 status0).uuid)
    (delStatus1 status0).olNum 1 (delAcc0 s status0) (delStatus1 status0)
    (flagsLike_refl _)
  have hR2 := delUlLoop_out env
    (compileOldAppInstanceIpsets (publishAppNetworkStatus s (delStatus1 status0)).1
      (delStatus1 status0).uuid)
    (delStatus1 status0).ulNum 1
    (delOlLoop env
      (compileOldAppInstanceIpsets
        (publishAppNetworkStatus s (delStatus1 status0)).1
        (delStatus1 status0).uuid)
      1 (delStatus1 status0).olNum (delAcc0 s status0))
    (delStatus1 status0) hR1.2.2.2.1
  have hR2' : LoopOut (delStatus1 status0)
      (delOlLoop env
        (compileOldAppInstanceIpsets
          (publishAppNetworkStatus s (delStatus1 status0)).1
          (delStatus1 status0).uuid)
        1 (delStatus1 status0).olNum (delAcc0 s status0))
      (delR2 env s status0).1 ∧
      ((delR2 env s status0).2 = true →
        ∃ m, Effect.fatal m ∈ (delR2 env s status0).1.effs) := hR2
  have hL : LoopOut (delStatus1 status0) (delAcc0 s status0)
      (delR2 env s status0).1 := loopOut_trans hR1 hR2'.1
  by_cases hf : (delR2 env s status0).2 = true
  · rw [if_pos hf]
    exact identityOf_of_preservedTables hL.1
  · rw [if_neg hf]
    show identityOf (delR2 env s status0).1.st = identityOf s
    exact identityOf_of_preservedTables hL.1

theorem handleDelete_mgmt_clears_identity (env : Env) (s : State) (key : String)
    (status0 : AppNetworkStatus) (hz : status0.isZedmanager = true)
    (h1 : status0.olList.length = 1) (h0l : status0.ulList.length = 0) :
    identityOf (handleDelete env s key status0).1 = ("", 0, none) := by
  have hb2 : status0.ulList = [] := List.length_eq_zero.mp h0l
  by_cases hpe : parseAddrOk (status0.olList.head?.getD default).cfg.eid = true
  · have hres : handleDelete env s key status0 =
        ({ s with
            appStatuses := eraseKey
              (upsert (upsert s.appStatuses status0.uuid (delStatus1 status0))
                status0.uuid
                { delStatus1 status0 with pendingDelete := false })
              status0.uuid,
            appNums := eraseKey s.appNums status0.uuid,
            deviceEID := "", deviceIID := 0, additionalInfoDevice := none },
         (Effect.publishApp status0.uuid (delStatus1 status0) ::
           [Effect.addrDel (mgmtOlIfname 1 status0.appNum)
              (status0.olList.headD default).cfg.eid,
            Effect.routeDel "fd00::/8" (mgmtOlIfname 1 status0.appNum),
            Effect.neighDel (mgmtOlIfname 1 status0.appNum) "fe80::1",
            Effect.linkDel (mgmtOlIfname 1 status0.appNum),
            Effect.hostsDelete (hostsDirpath (mgmtOlIfname 1 status0.appNum)),
            Effect.ipsetDeleteDefault (mgmtOlIfname 1 status0.appNum),
            Effect.aclDelete (mgmtOlIfname 1 status0.appNum)
              (mgmtOlIfname 1 status0.appNum) true
              (status0.olList.headD default).cfg.acls 6 "" "",
            Effect.lispDelete true
              (status0.olList.headD default).cfg.mgmtIID
              (status0.olList.headD default).cfg.eid
              s.separateDataPlane]) ++
          [Effect.publishApp status0.uuid
            { delStatus1 status0 with pendingDelete := false }] ++
          [Effect.unpublishApp status0.uuid]) := by
      simp [handleDelete, delStatus1, hz, h1, hb2, hpe,
        publishAppNetworkStatus, unpublishAppNetworkStatus, appNumFree,
        lookupKV_upsert_self]
    rw [hres]
    rfl
  · have hpef : parseAddrOk (status0.olList.head?.getD default).cfg.eid = false := by
      revert hpe
      cases parseAddrOk (status0.olList.head?.getD default).cfg.eid <;> simp
    have hres : handleDelete env s key status0 =
        ((addError env
            { (publishAppNetworkStatus s (delStatus1 status0)).1 with
                deviceEID := "", deviceIID := 0,
                additionalInfoDevice := none }
            { delStatus1 status0 with pendingDelete := false } "handleDelete"
            ("ParseAddr " ++ (status0.olList.headD default).cfg.eid ++
              " failed")).1,
         [(publishAppNetworkStatus s (delStatus1 status0)).2,
          (addError env
            { (publishAppNetworkStatus s (delStatus1 status0)).1 with
                deviceEID := "", deviceIID := 0,
                additionalInfoDevice := none }
            { delStatus1 status0 with pendingDelete := false } "handleDelete"
            ("ParseAddr " ++ (status0.olList.headD default).cfg.eid ++
              " failed")).2.2]) := by
      simp [handleDelete, delStatus1, hz, h1, hb2, hpef]
    rw [hres]
    rfl

theorem wellKeyed_upsert_of_uuid {l : List (String × AppNetworkStatus)}
    (h : WellKeyed l) {k : String} {st : AppNetworkStatus}
    (hu : st.uuid = k) : WellKeyed (upsert l k st) := by
  subst hu
  exact wellKeyed_upsert h st

theorem handleCreateMgmt_map (env : Env) (sIn : State)
    (config : AppNetworkConfig) (appNum : Nat) :
    ∃ stM, (handleCreateMgmt env sIn config appNum
        (initialCreateStatus config appNum)).1.appStatuses =
        upsert sIn.appStatuses config.uuid stM ∧
      stM.uuid = config.uuid ∧ stM.isZedmanager = config.isZedmanager := by
  by_cases hbad : config.olList.length ≠ 1 ∨ config.ulList.length ≠ 0
  · have hres : handleCreateMgmt env sIn config appNum
        (initialCreateStatus config appNum) =
        ((addError env sIn
            { initialCreateStatus config appNum with pendingAdd := false }
            "IsZedmanager" "Malformed IsZedmanager config; ignored").1,
         [(addError env sIn
            { initialCreateStatus config appNum with pendingAdd := false }
            "IsZedmanager" "Malformed IsZedmanager config; ignored").2.2]) := by
      simp only [handleCreateMgmt, if_pos hbad]
    rw [hres]
    exact ⟨(addError env sIn
      { initialCreateStatus config appNum with pendingAdd := false }
      "IsZedmanager" "Malformed IsZedmanager config; ignored").2.1,
      rfl, rfl, rfl⟩
  · by_cases hpa : parseAddrOk (config.olList.headD default).eid = true
    · have hpo : ¬ ¬ parseAddrOk (config.olList.headD default).eid = true :=
        fun hc => hc hpa
      have hres : (handleCreateMgmt env sIn config appNum
          (initialCreateStatus config appNum)).1.appStatuses =
          upsert sIn.appStatuses config.uuid
            { initialCreateStatus config appNum with
                olList := config.olList.map zeroOlStatus,
                pendingAdd := false } := by
        simp only [handleCreateMgmt, if_neg hbad, if_neg hpo]
        rfl
      exact ⟨{ initialCreateStatus config appNum with
          olList := config.olList.map zeroOlStatus,
          pendingAdd := false }, hres, rfl, rfl⟩
    · have hres : (handleCreateMgmt env sIn config appNum
          (initialCreateStatus config appNum)).1.appStatuses =
          upsert sIn.appStatuses config.uuid
            (addError env { sIn with separateDataPlane := config.separateDataPlane }
              { initialCreateStatus config appNum with pendingAdd := false }
              "IsZedmanager"
              ("ParseAddr " ++ (config.olList.headD default).eid ++
                " failed")).2.1 := by
        simp only [handleCreateMgmt, if_neg hbad, if_pos hpa]
        rfl
      exact ⟨(addError env { sIn with separateDataPlane := config.separateDataPlane }
        { initialCreateStatus config appNum with pendingAdd := false }
        "IsZedmanager"
        ("ParseAddr " ++ (config.olList.headD default).eid ++ " failed")).2.1,
        hres, rfl, rfl⟩

theorem handleCreateApp_map (env : Env) (sIn : State)
    (config : AppNetworkConfig) (appNum : Nat) :
    (WellKeyed sIn.appStatuses →
      WellKeyed (handleCreateApp env sIn config appNum
        (initialCreateStatus config appNum)).1.appStatuses) ∧
    (∀ k, k ≠ config.uuid →
      lookupKV (handleCreateApp env sIn config appNum
        (initialCreateStatus config appNum)).1.appStatuses k =
      lookupKV sIn.appStatuses k) ∧
    (∀ stM, lookupKV (handleCreateApp env sIn config appNum
        (initialCreateStatus config appNum)).1.appStatuses config.uuid =
        some stM → stM.isZedmanager = config.isZedmanager) := by
  by_cases hall : (config.olList.all (fun o =>
      (lookupNetworkObjectConfig sIn o.network).isSome) &&
      config.ulList.all (fun u =>
        (lookupNetworkObjectConfig sIn u.network).isSome)) = false
  · have hres : handleCreateApp env sIn config appNum
        (initialCreateStatus config appNum) =
        unpublishAppNetworkStatus sIn (initialCreateStatus config appNum) := by
      simp only [handleCreateApp, if_pos hall]
    rw [hres]
    cases hu : lookupKV sIn.appStatuses (initialCreateStatus config appNum).uuid with
    | none =>
        simp only [unpublishAppNetworkStatus, hu]
        refine ⟨fun hw => hw, fun k hk => trivial, fun stM h => ?_⟩
        have hu' : lookupKV sIn.appStatuses config.uuid = none := hu
        rw [hu'] at h
        cases h
    | some w =>
        simp only [unpublishAppNetworkStatus, hu]
        refine ⟨fun hw => ?_, fun k hk => ?_, fun stM h => ?_⟩
        · show WellKeyed (eraseKey sIn.appStatuses
            (initialCreateStatus config appNum).uuid)
          exact wellKeyed_eraseKey hw _
        · show lookupKV (eraseKey sIn.appStatuses
            (initialCreateStatus config appNum).uuid) k = lookupKV sIn.appStatuses k
          exact lookupKV_eraseKey_ne _ _ _ hk
        · have h2 : lookupKV (eraseKey sIn.appStatuses config.uuid) config.uuid =
              some stM := h
          rw [lookupKV_eraseKey_self] at h2
          cases h2
  · have htrue : (config.olList.all (fun o =>
        (lookupNetworkObjectConfig sIn o.network).isSome) &&
        config.ulList.all (fun u =>
          (lookupNetworkObjectConfig sIn u.network).isSome)) = true := by
      revert hall
      cases config.olList.all (fun o =>
          (lookupNetworkObjectConfig sIn o.network).isSome) &&
        config.ulList.all (fun u =>
          (lookupNetworkObjectConfig sIn u.network).isSome) <;> simp
    simp only [Bool.and_eq_true, List.all_eq_true] at htrue
    have hres : handleCreateApp env sIn config appNum
        (initialCreateStatus config appNum) =
        (if (createR1 env sIn config appNum).2 = true then
          ((createR1 env sIn config appNum).1.st,
           (createR1 env sIn config appNum).1.effs)
         else if (createR2 env sIn config appNum).2 = true then
          ((createR2 env sIn config appNum).1.st,
           (createR2 env sIn config appNum).1.effs)
         else
          ((publishAppNetworkStatus (createR2 env sIn config appNum).1.st
              { (createR2 env sIn config appNum).1.status with
                  pendingAdd := false }).1,
           (createR2 env sIn config appNum).1.effs ++
             [(publishAppNetworkStatus (createR2 env sIn config appNum).1.st
                { (createR2 env sIn config appNum).1.status with
                    pendingAdd := false }).2])) := by
      simp only [handleCreateApp, createR1, createR2, createStatus1, if_neg hall]
    rw [hres]
    have hR1 := createOlLoop_out env config appNum
      (compileAppInstanceIpsets config.olList config.ulList) config.olList 0
      { st := sIn, status := createStatus1 config appNum, effs := [] }
      (createStatus1 config appNum) (flagsLike_refl _) htrue.1
    have hR1' : LoopOut (createStatus1 config appNum)
        { st := sIn, status := createStatus1 config appNum, effs := [] }
        (createR1 env sIn config appNum).1 ∧
        ((createR1 env sIn config appNum).2 = true →
          lookupKV (createR1 env sIn config appNum).1.st.appStatuses
            (createStatus1 config appNum).uuid =
            some (createR1 env sIn config appNum).1.status ∧
          (createR1 env sIn config appNum).1.status.pendingAdd = false) := hR1
    have hnetsUl2 : ∀ x ∈ config.ulList,
        (lookupNetworkObjectConfig (createR1 env sIn config appNum).1.st
          x.network).isSome = true := by
      intro x hx
      show (lookupKV (createR1 env sIn config appNum).1.st.netConfigs
        x.network).isSome = true
      rw [hR1'.1.1.1]
      exact htrue.2 x hx
    have hR2 := createUlLoop_out env config appNum
      (compileAppInstanceIpsets config.olList config.ulList) config.ulList 0
      (createR1 env sIn config appNum).1
      (createStatus1 config appNum) hR1'.1.2.2.2.1 hnetsUl2
    have hR2' : LoopOut (createStatus1 config appNum)
        (createR1 env sIn config appNum).1
        (createR2 env sIn config appNum).1 ∧
        ((createR2 env sIn config appNum).2 = true →
          lookupKV (createR2 env sIn config appNum).1.st.appStatuses
            (createStatus1 config appNum).uuid =
            some (createR2 env sIn config appNum).1.status ∧
          (createR2 env sIn config appNum).1.status.pendingAdd = false) := hR2
    have hL : LoopOut (createStatus1 config appNum)
        { st := sIn, status := createStatus1 config appNum, effs := [] }
        (createR2 env sIn config appNum).1 :=
      loopOut_trans hR1'.1 hR2'.1
    by_cases hf1 : (createR1 env sIn config appNum).2 = true
    · rw [if_pos hf1]
      obtain ⟨hlk, _⟩ := hR1'.2 hf1
      refine ⟨fun hw => hR1'.1.2.2.2.2.2.2 hw, fun k hk => hR1'.1.2.1 k hk,
        fun stM h => ?_⟩
      have hlk' : lookupKV (createR1 env sIn config appNum).1.st.appStatuses
          config.uuid = some (createR1 env sIn config appNum).1.status := hlk
      have hst2 := Option.some.inj (h.symm.trans hlk')
      subst hst2
      exact hR1'.1.2.2.2.1.2.1
    · rw [if_neg hf1]
      by_cases hf2 : (createR2 env sIn config appNum).2 = true
      · rw [if_pos hf2]
        obtain ⟨hlk, _⟩ := hR2'.2 hf2
        refine ⟨fun hw => hL.2.2.2.2.2.2 hw, fun k hk => hL.2.1 k hk,
          fun stM h => ?_⟩
        have hlk' : lookupKV (createR2 env sIn config appNum).1.st.appStatuses
            config.uuid = some (createR2 env sIn config appNum).1.status := hlk
        have hst2 := Option.some.inj (h.symm.trans hlk')
        subst hst2
        exact hL.2.2.2.1.2.1
      · rw [if_neg hf2]
        refine ⟨fun hw => ?_, fun k hk => ?_, fun stM h => ?_⟩
        · show WellKeyed (upsert
            (createR2 env sIn config appNum).1.st.appStatuses
            ({ (createR2 env sIn config appNum).1.status with
                pendingAdd := false } : AppNetworkStatus).uuid
            { (createR2 env sIn config appNum).1.status with
                pendingAdd := false })
          exact wellKeyed_upsert (hL.2.2.2.2.2.2 hw) _
        · have hkB : k ≠ ({ (createR2 env sIn config appNum).1.status with
              pendingAdd := false } : AppNetworkStatus).uuid := fun hc =>
            hk (hc.trans (hL.2.2.2.1.1))
          show lookupKV (upsert
            (createR2 env sIn config appNum).1.st.appStatuses
            ({ (createR2 env sIn config appNum).1.status with
                pendingAdd := false } : AppNetworkStatus).uuid
            { (createR2 env sIn config appNum).1.status with
                pendingAdd := false }) k = lookupKV sIn.appStatuses k
          rw [lookupKV_upsert_ne _ _ _ _ hkB]
          exact hL.2.1 k hk
        · have h2 : lookupKV (upsert
              (createR2 env sIn config appNum).1.st.appStatuses
              ({ (createR2 env sIn config appNum).1.status with
                  pendingAdd := false } : AppNetworkStatus).uuid
              { (createR2 env sIn config appNum).1.status with
                  pendingAdd := false }) config.uuid = some stM := h
          rcases lookupKV_upsert_cases h2 with ⟨_, rfl⟩ | ⟨hk2, _⟩
          · exact hL.2.2.2.1.2.1
          · exact absurd (hL.2.2.2.1.1).symm hk2

theorem handleCreate_map (env : Env) (s : State) (key : String)
    (config : AppNetworkConfig) :
    (WellKeyed s.appStatuses →
      WellKeyed (handleCreate env s key config).1.appStatuses) ∧
    (∀ k, k ≠ config.uuid →
      lookupKV (handleCreate env s key config).1.appStatuses k =
      lookupKV s.appStatuses k) ∧
    (∀ stM, lookupKV (handleCreate env s key config).1.appStatuses config.uuid =
      some stM → stM.isZedmanager = config.isZedmanager) ∧
    (config.isZedmanager = true →
      ∃ stM, lookupKV (handleCreate env s key config).1.appStatuses config.uuid =
        some stM ∧ stM.isZedmanager = true) := by
  by_cases hz : config.isZedmanager = true
  · have hres : handleCreate env s key config =
        ((handleCreateMgmt env
            (publishAppNetworkStatus (appNumAllocate s config.uuid true).2
              (initialCreateStatus config (appNumAllocate s config.uuid true).1)).1
            config (appNumAllocate s config.uuid true).1
            (initialCreateStatus config (appNumAllocate s config.uuid true).1)).1,
         (publishAppNetworkStatus (appNumAllocate s config.uuid true).2
            (initialCreateStatus config (appNumAllocate s config.uuid true).1)).2 ::
          (handleCreateMgmt env
            (publishAppNetworkStatus (appNumAllocate s config.uuid true).2
              (initialCreateStatus config (appNumAllocate s config.uuid true).1)).1
            config (appNumAllocate s config.uuid true).1
            (initialCreateStatus config (appNumAllocate s config.uuid true).1)).2) := by
      simp [handleCreate, hz]
    obtain ⟨stM, hmap, hstu, hzM⟩ := handleCreateMgmt_map env
      (publishAppNetworkStatus (appNumAllocate s config.uuid true).2
        (initialCreateStatus config (appNumAllocate s config.uuid true).1)).1
      config (appNumAllocate s config.uuid true).1
    have happ : (handleCreate env s key config).1.appStatuses =
        upsert (publishAppNetworkStatus (appNumAllocate s config.uuid true).2
          (initialCreateStatus config
            (appNumAllocate s config.uuid true).1)).1.appStatuses
          config.uuid stM := by
      rw [hres]
      exact hmap
    have hPapp : (publishAppNetworkStatus (appNumAllocate s config.uuid true).2
        (initialCreateStatus config
          (appNumAllocate s config.uuid true).1)).1.appStatuses =
        upsert s.appStatuses config.uuid
          (initialCreateStatus config (appNumAllocate s config.uuid true).1) := by
      show upsert (appNumAllocate s config.uuid true).2.appStatuses config.uuid
        (initialCreateStatus config (appNumAllocate s config.uuid true).1) = _
      rw [appNumAllocate_appStatuses]
    refine ⟨fun hw => ?_, fun k hk => ?_, fun stM2 h => ?_, fun _ => ?_⟩
    · rw [happ, hPapp]
      have hwP : WellKeyed (upsert s.appStatuses config.uuid
          (initialCreateStatus config (appNumAllocate s config.uuid true).1)) :=
        wellKeyed_upsert_of_uuid hw rfl
      exact wellKeyed_upsert_of_uuid hwP hstu
    · rw [happ, hPapp, lookupKV_upsert_ne _ _ _ _ hk,
        lookupKV_upsert_ne _ _ _ _ hk]
    · rw [happ, lookupKV_upsert_self] at h
      cases h
      exact hzM
    · refine ⟨stM, ?_, hzM.trans hz⟩
      rw [happ]
      exact lookupKV_upsert_self _ _ _
  · have hzf : config.isZedmanager = false := by
      revert hz
      cases config.isZedmanager <;> simp
    have hres : handleCreate env s key config =
        ((handleCreateApp env
            (publishAppNetworkStatus (appNumAllocate s config.uuid false).2
              (initialCreateStatus config (appNumAllocate s config.uuid false).1)).1
            config (appNumAllocate s config.uuid false).1
            (initialCreateStatus config (appNumAllocate s config.uuid false).1)).1,
         (publishAppNetworkStatus (appNumAllocate s config.uuid false).2
            (initialCreateStatus config (appNumAllocate s config.uuid false).1)).2 ::
          (handleCreateApp env
            (publishAppNetworkStatus (appNumAllocate s config.uuid false).2
              (initialCreateStatus config (appNumAllocate s config.uuid false).1)).1
            config (appNumAllocate s config.uuid false).1
            (initialCreateStatus config (appNumAllocate s config.uuid false).1)).2) := by
      simp [handleCreate, hzf]
    have happ2 : (handleCreate env s key config).1 =
        (handleCreateApp env
          (publishAppNetworkStatus (appNumAllocate s config.uuid false).2
            (initialCreateStatus config (appNumAllocate s config.uuid false).1)).1
          config (appNumAllocate s config.uuid false).1
          (initialCreateStatus config (appNumAllocate s config.uuid false).1)).1 := by
      rw [hres]
    have hPapp : (publishAppNetworkStatus (appNumAllocate s config.uuid false).2
        (initialCreateStatus config
          (appNumAllocate s config.uuid false).1)).1.appStatuses =
        upsert s.appStatuses config.uuid
          (initialCreateStatus config (appNumAllocate s config.uuid false).1) := by
      show upsert (appNumAllocate s config.uuid false).2.appStatuses config.uuid
        (initialCreateStatus config (appNumAllocate s config.uuid false).1) = _
      rw [appNumAllocate_appStatuses]
    have hAm := handleCreateApp_map env
      (publishAppNetworkStatus (appNumAllocate s config.uuid false).2
        (initialCreateStatus config (appNumAllocate s config.uuid false).1)).1
      config (appNumAllocate s config.uuid false).1
    refine ⟨fun hw => ?_, fun k hk => ?_, fun stM2 h => ?_, fun hzz => ?_⟩
    · rw [happ2]
      refine hAm.1 ?_
      rw [hPapp]
      exact wellKeyed_upsert_of_uuid hw rfl
    · rw [happ2, hAm.2.1 k hk, hPapp, lookupKV_upsert_ne _ _ _ _ hk]
    · rw [happ2] at h
      exact hAm.2.2 stM2 h
    · exact absurd hzz hz

theorem addError_map (env : Env) (s : State) (statusB : AppNetworkStatus)
    (tag msg : String) :
    (WellKeyed s.appStatuses →
      WellKeyed (addError env s statusB tag msg).1.appStatuses) ∧
    (∀ k, k ≠ statusB.uuid →
      lookupKV (addError env s statusB tag msg).1.appStatuses k =
      lookupKV s.appStatuses k) ∧
    lookupKV (addError env s statusB tag msg).1.appStatuses statusB.uuid =
      some (addError env s statusB tag msg).2.1 := by
  refine ⟨fun hw => wellKeyed_upsert hw _, fun k hk => ?_, ?_⟩
  · exact lookupKV_upsert_ne _ _ _ _ hk
  · exact lookupKV_upsert_self _ _ _

theorem handleModify_map (env : Env) (s : State) (key : String)
    (config : AppNetworkConfig) (status0 : AppNetworkStatus)
    (huu : status0.uuid = config.uuid) :
    (WellKeyed s.appStatuses →
      WellKeyed (handleModify env s key config status0).1.appStatuses) ∧
    (∀ k, k ≠ status0.uuid →
      lookupKV (handleModify env s key config status0).1.appStatuses k =
      lookupKV s.appStatuses k) ∧
    (∃ stM, lookupKV (handleModify env s key config status0).1.appStatuses
        status0.uuid = some stM ∧ stM.isZedmanager = status0.isZedmanager) := by
  by_cases h1 : config.isZedmanager ≠ status0.isZedmanager
  · have hres : handleModify env s key config status0 =
        ((addError env s { status0 with pendingModify := false } "handleModify"
            ("Unsupported: IsZedmanager changed for " ++ config.uuid)).1,
         [(addError env s { status0 with pendingModify := false } "handleModify"
            ("Unsupported: IsZedmanager changed for " ++ config.uuid)).2.2]) := by
      simp only [handleModify, if_pos h1]
    rw [hres]
    have ha := addError_map env s { status0 with pendingModify := false }
      "handleModify" ("Unsupported: IsZedmanager changed for " ++ config.uuid)
    exact ⟨ha.1, fun k hk => ha.2.1 k hk, ⟨_, ha.2.2, rfl⟩⟩
  · push_neg at h1
    by_cases h2 : config.olList.length ≠ status0.olNum
    · have hres : handleModify env s key config status0 =
          ((addError env s { status0 with pendingModify := false } "handleModify"
              ("Unsupported: Changed number of overlays for " ++ config.uuid)).1,
           [(addError env s { status0 with pendingModify := false } "handleModify"
              ("Unsupported: Changed number of overlays for " ++ config.uuid)).2.2]) := by
        simp only [handleModify, h1, ne_eq, not_true_eq_false, if_neg, if_pos h2]
        simp
      rw [hres]
      have ha := addError_map env s { status0 with pendingModify := false }
        "handleModify" ("Unsupported: Changed number of overlays for " ++ config.uuid)
      exact ⟨ha.1, fun k hk => ha.2.1 k hk, ⟨_, ha.2.2, rfl⟩⟩
    · push_neg at h2
      by_cases h3 : config.ulList.length ≠ status0.ulNum
      · have hres : handleModify env s key config status0 =
            ((addError env s { status0 with pendingModify := false } "handleModify"
                ("Unsupported: Changed number of underlays for " ++ config.uuid)).1,
             [(addError env s { status0 with pendingModify := false } "handleModify"
                ("Unsupported: Changed number of underlays for " ++ config.uuid)).2.2]) := by
          simp only [handleModify, h1, h2, ne_eq, not_true_eq_false, if_neg,
            if_pos h3]
          simp
        rw [hres]
        have ha := addError_map env s { status0 with pendingModify := false }
          "handleModify" ("Unsupported: Changed number of underlays for " ++ config.uuid)
        exact ⟨ha.1, fun k hk => ha.2.1 k hk, ⟨_, ha.2.2, rfl⟩⟩
      · push_neg at h3
        by_cases hz : config.isZedmanager = true
        · have hst : status0.isZedmanager = true := h1.symm.trans hz
          by_cases h4 : config.separateDataPlane ≠ s.separateDataPlane
          · have hres : handleModify env s key config status0 =
                ((addError env
                    (publishAppNetworkStatus s (modifyStampedStatus s config status0)).1
                    { modifyStampedStatus s config status0 with pendingModify := false }
                    "handleModify"
                    "Unsupported: Changing experimental data plane flag on the fly").1,
                 [(publishAppNetworkStatus s (modifyStampedStatus s config status0)).2,
                  (addError env
                    (publishAppNetworkStatus s (modifyStampedStatus s config status0)).1
                    { modifyStampedStatus s config status0 with pendingModify := false }
                    "handleModify"
                    "Unsupported: Changing experimental data plane flag on the fly").2.2]) := by
              simp [handleModify, modifyStampedStatus, publishAppNetworkStatus,
                addError, h1, h2, h3, hz, hst, h4]
            rw [hres]
            have ha := addError_map env
              (publishAppNetworkStatus s (modifyStampedStatus s config status0)).1
              { modifyStampedStatus s config status0 with pendingModify := false }
              "handleModify"
              "Unsupported: Changing experimental data plane flag on the fly"
            refine ⟨fun hw => ha.1 ?_, fun k hk => ?_,
              ⟨(addError env
                  (publishAppNetworkStatus s (modifyStampedStatus s config status0)).1
                  { modifyStampedStatus s config status0 with pendingModify := false }
                  "handleModify"
                  "Unsupported: Changing experimental data plane flag on the fly").2.1,
                ?_, rfl⟩⟩
            · show WellKeyed (upsert s.appStatuses
                (modifyStampedStatus s config status0).uuid
                (modifyStampedStatus s config status0))
              exact wellKeyed_upsert hw _
            · have hk' : k ≠ config.uuid := fun hc => hk (hc.trans huu.symm)
              rw [ha.2.1 k hk']
              show lookupKV (upsert s.appStatuses
                (modifyStampedStatus s config status0).uuid
                (modifyStampedStatus s config status0)) k = lookupKV s.appStatuses k
              exact lookupKV_upsert_ne _ _ _ _ hk'
            · rw [huu]
              exact ha.2.2
          · push_neg at h4
            have hres : handleModify env s key config status0 =
                ((publishAppNetworkStatus
                    (publishAppNetworkStatus s (modifyStampedStatus s config status0)).1
                    { modifyStampedStatus s config status0 with pendingModify := false }).1,
                 (publishAppNetworkStatus s (modifyStampedStatus s config status0)).2 ::
                   (updateACLConfiglet (mgmtOlIfname 1 status0.appNum)
                      (mgmtOlIfname 1 status0.appNum) true
                      ((modifyStampedStatus s config status0).olList.headD default).cfg.acls
                      (config.olList.headD default).acls 6 "" "" ++
                    [(publishAppNetworkStatus
                        (publishAppNetworkStatus s (modifyStampedStatus s config status0)).1
                        { modifyStampedStatus s config status0 with
                            pendingModify := false }).2])) := by
              simp [handleModify, modifyStampedStatus, publishAppNetworkStatus,
                h1, h2, h3, hz, hst, h4]
            rw [hres]
            refine ⟨fun hw => ?_, fun k hk => ?_,
              ⟨{ modifyStampedStatus s config status0 with
                  pendingModify := false }, ?_, rfl⟩⟩
            · show WellKeyed (upsert
                (publishAppNetworkStatus s
                  (modifyStampedStatus s config status0)).1.appStatuses
                ({ modifyStampedStatus s config status0 with
                    pendingModify := false } : AppNetworkStatus).uuid
                { modifyStampedStatus s config status0 with
                    pendingModify := false })
              exact wellKeyed_upsert (wellKeyed_upsert hw _) _
            · have hk' : k ≠ config.uuid := fun hc => hk (hc.trans huu.symm)
              show lookupKV (upsert
                (publishAppNetworkStatus s
                  (modifyStampedStatus s config status0)).1.appStatuses
                config.uuid
                { modifyStampedStatus s config status0 with
                    pendingModify := false }) k = lookupKV s.appStatuses k
              rw [lookupKV_upsert_ne _ _ _ _ hk']
              show lookupKV (upsert s.appStatuses config.uuid
                (modifyStampedStatus s config status0)) k = lookupKV s.appStatuses k
              exact lookupKV_upsert_ne _ _ _ _ hk'
            · show lookupKV (upsert
                (publishAppNetworkStatus s
                  (modifyStampedStatus s config status0)).1.appStatuses
                config.uuid
                { modifyStampedStatus s config status0 with
                    pendingModify := false }) status0.uuid = some _
              rw [huu]
              exact lookupKV_upsert_self _ _ _
        · have hzf : config.isZedmanager = false := by
            revert hz
            cases config.isZedmanager <;> simp
          have hstf : status0.isZedmanager = false := h1.symm.trans hzf
          have hres : handleModify env s key config status0 =
              ((publishAppNetworkStatus (modAcc2 env s config status0).st
                  (modFinalStatus env s config status0)).1,
               (modAcc2 env s config status0).effs ++
                 [(publishAppNetworkStatus (modAcc2 env s config status0).st
                    (modFinalStatus env s config status0)).2]) := by
            simp [handleModify, modAcc2, modAcc0, modFinalStatus,
              modifyStampedStatus, publishAppNetworkStatus, h1, h2, h3, hzf, hstf]
          rw [hres]
          have hL1 := modOlLoop_out env
            (compileAppInstanceIpsets config.olList config.ulList) config.olList 0
            (modAcc0 s config status0) (modifyStampedStatus s config status0)
            (flagsLike_refl _)
          have hL2 := modUlLoop_out env
            (compileAppInstanceIpsets config.olList config.ulList) config.ulList 0
            (modOlLoop env (compileAppInstanceIpsets config.olList config.ulList) 0
              config.olList (modAcc0 s config status0))
            (modifyStampedStatus s config status0) hL1.2.2.2.1
          have hL : LoopOut (modifyStampedStatus s config status0)
              (modAcc0 s config status0) (modAcc2 env s config status0) :=
            loopOut_trans hL1 hL2
          have hEq : (modFinalStatus env s config status0).uuid = status0.uuid :=
            (hL.2.2.2.1.1).trans huu.symm
          refine ⟨fun hw => ?_, fun k hk => ?_,
            ⟨modFinalStatus env s config status0, ?_, ?_⟩⟩
          · show WellKeyed (upsert (modAcc2 env s config status0).st.appStatuses
              (modFinalStatus env s config status0).uuid
              (modFinalStatus env s config status0))
            refine wellKeyed_upsert ?_ _
            refine hL.2.2.2.2.2.2 ?_
            show WellKeyed (upsert s.appStatuses
              (modifyStampedStatus s config status0).uuid
              (modifyStampedStatus s config status0))
            exact wellKeyed_upsert hw _
          · have hkc : k ≠ config.uuid := fun hc => hk (hc.trans huu.symm)
            have hkF : k ≠ (modFinalStatus env s config status0).uuid :=
              fun hc => hk (hc.trans hEq)
            show lookupKV (upsert (modAcc2 env s config status0).st.appStatuses
              (modFinalStatus env s config status0).uuid
              (modFinalStatus env s config status0)) k = lookupKV s.appStatuses k
            rw [lookupKV_upsert_ne _ _ _ _ hkF, hL.2.1 k hkc]
            show lookupKV (upsert s.appStatuses
              (modifyStampedStatus s config status0).uuid
              (modifyStampedStatus s config status0)) k = lookupKV s.appStatuses k
            exact lookupKV_upsert_ne _ _ _ _ hkc
          · show lookupKV (upsert (modAcc2 env s config status0).st.appStatuses
              (modFinalStatus env s config status0).uuid
              (modFinalStatus env s config status0)) status0.uuid =
              some (modFinalStatus env s config status0)
            rw [← hEq]
            exact lookupKV_upsert_self _ _ _
          · exact hL.2.2.2.1.2.1

theorem handleDelete_map (env : Env) (s : State) (key : String)
    (status0 : AppNetworkStatus) :
    (WellKeyed s.appStatuses →
      WellKeyed (handleDelete env s key status0).1.appStatuses) ∧
    (∀ k, k ≠ status0.uuid →
      lookupKV (handleDelete env s key status0).1.appStatuses k =
      lookupKV s.appStatuses k) ∧
    (∀ stM, lookupKV (handleDelete env s key status0).1.appStatuses
        status0.uuid = some stM → stM.isZedmanager = status0.isZedmanager) ∧
    (status0.isZedmanager = true →
      (status0.olList.length ≠ 1 ∨ status0.ulList.length ≠ 0) →
      ∃ stM, lookupKV (handleDelete env s key status0).1.appStatuses
        status0.uuid = some stM ∧ stM.isZedmanager = true) := by
  by_cases hz : status0.isZedmanager = true
  · by_cases hbad : status0.olList.length ≠ 1 ∨ status0.ulList.length ≠ 0
    · have hres : handleDelete env s key status0 =
          ((addError env (publishAppNetworkStatus s (delStatus1 status0)).1
              { delStatus1 status0 with pendingDelete := false } "handleDelete"
              "Malformed IsZedmanager status; ignored").1,
           [(publishAppNetworkStatus s (delStatus1 status0)).2,
            (addError env (publishAppNetworkStatus s (delStatus1 status0)).1
              { delStatus1 status0 with pendingDelete := false } "handleDelete"
              "Malformed IsZedmanager status; ignored").2.2]) := by
        simp [handleDelete, delStatus1, hz, hbad]
        intro ha hb
        rcases hbad with hc | hc
        · exact absurd ha hc
        · rw [hb] at hc
          simp at hc
      rw [hres]
      have ha := addError_map env
        (publishAppNetworkStatus s (delStatus1 status0)).1
        { delStatus1 status0 with pendingDelete := false } "handleDelete"
        "Malformed IsZedmanager status; ignored"
      refine ⟨fun hw => ha.1 ?_, fun k hk => ?_, fun stM h => ?_,
        fun _ _ => ⟨_, ha.2.2, hz⟩⟩
      · show WellKeyed (upsert s.appStatuses (delStatus1 status0).uuid
          (delStatus1 status0))
        exact wellKeyed_upsert hw _
      · rw [ha.2.1 k hk]
        show lookupKV (upsert s.appStatuses (delStatus1 status0).uuid
          (delStatus1 status0)) k = lookupKV s.appStatuses k
        exact lookupKV_upsert_ne _ _ _ _ hk
      · have hst := Option.some.inj (h.symm.trans ha.2.2)
        subst hst
        rfl
    · push_neg at hbad
      have hb1 : status0.olList.length = 1 := hbad.1
      have hb2 : status0.ulList = [] := List.length_eq_zero.mp hbad.2
      by_cases hpe : parseAddrOk (status0.olList.head?.getD default).cfg.eid = true
      · have hres : handleDelete env s key status0 =
            ({ s with
                appStatuses := eraseKey
                  (upsert (upsert s.appStatuses status0.uuid (delStatus1 status0))
                    status0.uuid
                    { delStatus1 status0 with pendingDelete := false })
                  status0.uuid,
                appNums := eraseKey s.appNums status0.uuid,
                deviceEID := "", deviceIID := 0, additionalInfoDevice := none },
             (Effect.publishApp status0.uuid (delStatus1 status0) ::
               [Effect.addrDel (mgmtOlIfname 1 status0.appNum)
                  (status0.olList.headD default).cfg.eid,
                Effect.routeDel "fd00::/8" (mgmtOlIfname 1 status0.appNum),
                Effect.neighDel (mgmtOlIfname 1 status0.appNum) "fe80::1",
                Effect.linkDel (mgmtOlIfname 1 status0.appNum),
                Effect.hostsDelete (hostsDirpath (mgmtOlIfname 1 status0.appNum)),
                Effect.ipsetDeleteDefault (mgmtOlIfname 1 status0.appNum),
                Effect.aclDelete (mgmtOlIfname 1 status0.appNum)
                  (mgmtOlIfname 1 status0.appNum) true
                  (status0.olList.headD default).cfg.acls 6 "" "",
                Effect.lispDelete true
                  (status0.olList.headD default).cfg.mgmtIID
                  (status0.olList.headD default).cfg.eid
                  s.separateDataPlane]) ++
              [Effect.publishApp status0.uuid
                { delStatus1 status0 with pendingDelete := false }] ++
              [Effect.unpublishApp status0.uuid]) := by
          simp [handleDelete, delStatus1, hz, hb1, hb2, hpe,
            publishAppNetworkStatus, unpublishAppNetworkStatus, appNumFree,
            lookupKV_upsert_self]
        rw [hres]
        refine ⟨fun hw => ?_, fun k hk => ?_, fun stM h => ?_, fun _ hsh => ?_⟩
        · show WellKeyed (eraseKey
            (upsert (upsert s.appStatuses status0.uuid (delStatus1 status0))
              status0.uuid { delStatus1 status0 with pendingDelete := false })
            status0.uuid)
          exact wellKeyed_eraseKey
            (wellKeyed_upsert_of_uuid
              (wellKeyed_upsert_of_uuid hw
                (show (delStatus1 status0).uuid = status0.uuid from rfl))
              (show ({ delStatus1 status0 with pendingDelete := false } :
                  AppNetworkStatus).uuid = status0.uuid from rfl))
            status0.uuid
        · show lookupKV (eraseKey
            (upsert (upsert s.appStatuses status0.uuid (delStatus1 status0))
              status0.uuid { delStatus1 status0 with pendingDelete := false })
            status0.uuid) k = lookupKV s.appStatuses k
          rw [lookupKV_eraseKey_ne _ _ _ hk, lookupKV_upsert_ne _ _ _ _ hk,
            lookupKV_upsert_ne _ _ _ _ hk]
        · have h2 : lookupKV (eraseKey
              (upsert (upsert s.appStatuses status0.uuid (delStatus1 status0))
                status0.uuid { delStatus1 status0 with pendingDelete := false })
              status0.uuid) status0.uuid = some stM := h
          rw [lookupKV_eraseKey_self] at h2
          cases h2
        · rcases hsh with hc | hc
          · exact absurd hb1 hc
          · rw [hb2] at hc
            simp at hc
      · have hpef : parseAddrOk (status0.olList.head?.getD default).cfg.eid
            = false := by
          revert hpe
          cases parseAddrOk (status0.olList.head?.getD default).cfg.eid <;> simp
        have hres : handleDelete env s key status0 =
            ((addError env
                { (publishAppNetworkStatus s (delStatus1 status0)).1 with
                    deviceEID := "", deviceIID := 0,
                    additionalInfoDevice := none }
                { delStatus1 status0 with pendingDelete := false } "handleDelete"
                ("ParseAddr " ++ (status0.olList.headD default).cfg.eid ++
                  " failed")).1,
             [(publishAppNetworkStatus s (delStatus1 status0)).2,
              (addError env
                { (publishAppNetworkStatus s (delStatus1 status0)).1 with
                    deviceEID := "", deviceIID := 0,
                    additionalInfoDevice := none }
                { delStatus1 status0 with pendingDelete := false } "handleDelete"
                ("ParseAddr " ++ (status0.olList.headD default).cfg.eid ++
                  " failed")).2.2]) := by
          simp [handleDelete, delStatus1, hz, hb1, hb2, hpef]
        rw [hres]
        have ha := addError_map env
          { (publishAppNetworkStatus s (delStatus1 status0)).1 with
              deviceEID := "", deviceIID := 0, additionalInfoDevice := none }
          { delStatus1 status0 with pendingDelete := false } "handleDelete"
          ("ParseAddr " ++ (status0.olList.headD default).cfg.eid ++ " failed")
        refine ⟨fun hw => ha.1 ?_, fun k hk => ?_, fun stM h => ?_,
          fun _ hsh => ?_⟩
        · show WellKeyed (upsert s.appStatuses (delStatus1 status0).uuid
            (delStatus1 status0))
          exact wellKeyed_upsert hw _
        · rw [ha.2.1 k hk]
          show lookupKV (upsert s.appStatuses (delStatus1 status0).uuid
            (delStatus1 status0)) k = lookupKV s.appStatuses k
          exact lookupKV_upsert_ne _ _ _ _ hk
        · have hst := Option.some.inj (h.symm.trans ha.2.2)
          subst hst
          rfl
        · rcases hsh with hc | hc
          · exact absurd hb1 hc
          · rw [hb2] at hc
            simp at hc
  · have hzf : status0.isZedmanager = false := by
      revert hz
      cases status0.isZedmanager <;> simp
    have hres : handleDelete env s key status0 =
        (if (delR2 env s status0).2 = true then
          ((delR2 env s status0).1.st, (delR2 env s status0).1.effs)
         else
          ({ (delR2 env s status0).1.st with
              appStatuses := eraseKey
                (upsert (delR2 env s status0).1.st.appStatuses
                  (delR2 env s status0).1.status.uuid
                  { (delR2 env s status0).1.status with pendingDelete := false })
                (delR2 env s status0).1.status.uuid,
              appNums := eraseKey (delR2 env s status0).1.st.appNums
                (delR2 env s status0).1.status.uuid },
           (delR2 env s status0).1.effs ++
             [Effect.publishApp (delR2 env s status0).1.status.uuid
               { (delR2 env s status0).1.status with pendingDelete := false }] ++
             [Effect.unpublishApp (delR2 env s status0).1.status.uuid])) := by
      simp [handleDelete, delR2, delAcc0, delStatus1, hzf,
        publishAppNetworkStatus, unpublishAppNetworkStatus, appNumFree,
        lookupKV_upsert_self]
    rw [hres]
    have hR1 := delOlLoop_out env
      (compileOldAppInstanceIpsets (publishAppNetworkStatus s (delStatus1 status0)).1
        (delStatus1 status0).uuid)
      (delStatus1 status0).olNum 1 (delAcc0 s status0) (delStatus1 status0)
      (flagsLike_refl _)
    have hR2 := delUlLoop_out env
      (compileOldAppInstanceIpsets (publishAppNetworkStatus s (delStatus1 status0)).1
        (delStatus1 status0).uuid)
      (delStatus1 status0).ulNum 1
      (delOlLoop env
        (compileOldAppInstanceIpsets
          (publishAppNetworkStatus s (delStatus1 status0)).1
          (delStatus1 status0).uuid)
        1 (delStatus1 status0).olNum (delAcc0 s status0))
      (delStatus1 status0) hR1.2.2.2.1
    have hR2' : LoopOut (delStatus1 status0)
        (delOlLoop env
          (compileOldAppInstanceIpsets
            (publishAppNetworkStatus s (delStatus1 status0)).1
            (delStatus1 status0).uuid)
          1 (delStatus1 status0).olNum (delAcc0 s status0))
        (delR2 env s status0).1 ∧
        ((delR2 env s status0).2 = true →
          ∃ m, Effect.fatal m ∈ (delR2 env s status0).1.effs) := hR2
    have hL : LoopOut (delStatus1 status0) (delAcc0 s status0)
        (delR2 env s status0).1 := loopOut_trans hR1 hR2'.1
    have hEq : (delR2 env s status0).1.status.uuid = status0.uuid :=
      hL.2.2.2.1.1
    by_cases hf : (delR2 env s status0).2 = true
    · rw [if_pos hf]
      refine ⟨fun hw => ?_, fun k hk => ?_, fun stM h => ?_,
        fun hzt _ => absurd hzt hz⟩
      · refine hL.2.2.2.2.2.2 ?_
        show WellKeyed (upsert s.appStatuses (delStatus1 status0).uuid
          (delStatus1 status0))
        exact wellKeyed_upsert hw _
      · rw [hL.2.1 k hk]
        show lookupKV (upsert s.appStatuses (delStatus1 status0).uuid
          (delStatus1 status0)) k = lookupKV s.appStatuses k
        exact lookupKV_upsert_ne _ _ _ _ hk
      · rcases hL.2.2.1 with heq | ⟨stX, hlkX, hflX⟩
        · have h' : lookupKV (delR2 env s status0).1.st.appStatuses
              (delStatus1 status0).uuid = some stM := h
          rw [heq] at h'
          have h'' : lookupKV (upsert s.appStatuses (delStatus1 status0).uuid
              (delStatus1 status0)) (delStatus1 status0).uuid = some stM := h'
          rw [lookupKV_upsert_self] at h''
          have h3 := Option.some.inj h''
          subst h3
          rfl
        · have h' : lookupKV (delR2 env s status0).1.st.appStatuses
              (delStatus1 status0).uuid = some stM := h
          have hst := Option.some.inj (h'.symm.trans hlkX)
          subst hst
          exact hflX.2.1
    · rw [if_neg hf]
      refine ⟨fun hw => ?_, fun k hk => ?_, fun stM h => ?_,
        fun hzt _ => absurd hzt hz⟩
      · show WellKeyed (eraseKey
          (upsert (delR2 env s status0).1.st.appStatuses
            (delR2 env s status0).1.status.uuid
            { (delR2 env s status0).1.status with pendingDelete := false })
          (delR2 env s status0).1.status.uuid)
        refine wellKeyed_eraseKey (wellKeyed_upsert_of_uuid ?_
          (show ({ (delR2 env s status0).1.status with pendingDelete := false } :
              AppNetworkStatus).uuid = (delR2 env s status0).1.status.uuid
            from rfl)) _
        refine hL.2.2.2.2.2.2 ?_
        show WellKeyed (upsert s.appStatuses (delStatus1 status0).uuid
          (delStatus1 status0))
        exact wellKeyed_upsert hw _
      · have hkB : k ≠ (delR2 env s status0).1.status.uuid := fun hc =>
          hk (hc.trans hEq)
        show lookupKV (eraseKey
          (upsert (delR2 env s status0).1.st.appStatuses
            (delR2 env s status0).1.status.uuid
            { (delR2 env s status0).1.status with pendingDelete := false })
          (delR2 env s status0).1.status.uuid) k = lookupKV s.appStatuses k
        rw [lookupKV_eraseKey_ne _ _ _ hkB, lookupKV_upsert_ne _ _ _ _ hkB,
          hL.2.1 k hk]
        show lookupKV (upsert s.appStatuses (delStatus1 status0).uuid
          (delStatus1 status0)) k = lookupKV s.appStatuses k
        exact lookupKV_upsert_ne _ _ _ _ hk
      · have h' : lookupKV (eraseKey
            (upsert (delR2 env s status0).1.st.appStatuses
              (delR2 env s status0).1.status.uuid
              { (delR2 env s status0).1.status with pendingDelete := false })
            (delR2 env s status0).1.status.uuid) status0.uuid = some stM := h
        rw [← hEq] at h'
        rw [lookupKV_eraseKey_self] at h'
        cases h'

theorem step_wellKeyed_mgmtInv (env : Env) (s : State) (ev : ConfigEvent)
    (hw : WellKeyed s.appStatuses) (hm : MgmtInv s) :
    WellKeyed (step env s ev).1.appStatuses ∧ MgmtInv (step env s ev).1 := by
  cases ev with
  | modify key config =>
      simp only [step, handleAppNetworkConfigModify]
      by_cases hk : config.uuid ≠ key
      · rw [if_pos hk]
        exact ⟨hw, hm⟩
      · rw [if_neg hk]
        push_neg at hk
        cases hl : lookupAppNetworkStatus s key with
        | none =>
            show WellKeyed (handleCreate env s key config).1.appStatuses ∧
              MgmtInv (handleCreate env s key config).1
            have hnone : lookupKV s.appStatuses config.uuid = none := by
              rw [hk]
              exact lookupAppNetworkStatus_none_wk hw hl
            have hmap := handleCreate_map env s key config
            constructor
            · exact hmap.1 hw
            · intro hne
              by_cases hzc : config.isZedmanager = true
              · obtain ⟨stM, hlk, hzM⟩ := hmap.2.2.2 hzc
                exact ⟨config.uuid, stM, hlk, hzM⟩
              · have hzf : config.isZedmanager = false := by
                  revert hzc
                  cases config.isZedmanager <;> simp
                have hid := handleCreate_identity env s key config hzf
                have hdev : (handleCreate env s key config).1.deviceEID =
                    s.deviceEID := congrArg Prod.fst hid
                rw [hdev] at hne
                obtain ⟨k0, st0, hk0, hz0⟩ := hm hne
                by_cases hkc : k0 = config.uuid
                · subst hkc
                  rw [hnone] at hk0
                  cases hk0
                · refine ⟨k0, st0, ?_, hz0⟩
                  rw [hmap.2.1 k0 hkc]
                  exact hk0
        | some status0 =>
            show WellKeyed (handleModify env s key config status0).1.appStatuses ∧
              MgmtInv (handleModify env s key config status0).1
            obtain ⟨hsome, huu'⟩ := lookupAppNetworkStatus_some hl
            have huu : status0.uuid = config.uuid := by rw [huu', hk]
            have hmap := handleModify_map env s key config status0 huu
            constructor
            · exact hmap.1 hw
            · intro hne
              have hid := handleModify_identity env s key config status0
              have hdev : (handleModify env s key config status0).1.deviceEID =
                  s.deviceEID := congrArg Prod.fst hid
              rw [hdev] at hne
              obtain ⟨k0, st0, hk0, hz0⟩ := hm hne
              by_cases hkc : k0 = status0.uuid
              · obtain ⟨stM, hlkM, hzM⟩ := hmap.2.2
                refine ⟨status0.uuid, stM, hlkM, ?_⟩
                rw [hzM]
                subst hkc
                rw [huu'] at hk0
                have heq2 := Option.some.inj (hk0.symm.trans hsome)
                rw [← heq2]
                exact hz0
              · refine ⟨k0, st0, ?_, hz0⟩
                rw [hmap.2.1 k0 hkc]
                exact hk0
  | delete key =>
      simp only [step, handleAppNetworkConfigDelete]
      cases hl : lookupAppNetworkStatus s key with
      | none => exact ⟨hw, hm⟩
      | some status0 =>
          show WellKeyed (handleDelete env s key status0).1.appStatuses ∧
            MgmtInv (handleDelete env s key status0).1
          obtain ⟨hsome, huu'⟩ := lookupAppNetworkStatus_some hl
          have hmap := handleDelete_map env s key status0
          constructor
          · exact hmap.1 hw
          · intro hne
            by_cases hzt : status0.isZedmanager = true
            · by_cases hsh : status0.olList.length ≠ 1 ∨
                  status0.ulList.length ≠ 0
              · obtain ⟨stM, hlk, hzM⟩ := hmap.2.2.2 hzt hsh
                exact ⟨status0.uuid, stM, hlk, hzM⟩
              · push_neg at hsh
                have hid := handleDelete_mgmt_clears_identity env s key status0
                  hzt hsh.1 hsh.2
                have hdev : (handleDelete env s key status0).1.deviceEID = "" :=
                  congrArg Prod.fst hid
                exact absurd hdev hne
            · have hzf : status0.isZedmanager = false := by
                revert hzt
                cases status0.isZedmanager <;> simp
              have hid := handleDelete_identity env s key status0 hzf
              have hdev : (handleDelete env s key status0).1.deviceEID =
                  s.deviceEID := congrArg Prod.fst hid
              rw [hdev] at hne
              obtain ⟨k0, st0, hk0, hz0⟩ := hm hne
              by_cases hkc : k0 = status0.uuid
              · subst hkc
                rw [huu'] at hk0
                have heq2 := Option.some.inj (hk0.symm.trans hsome)
                rw [heq2, hzf] at hz0
                cases hz0
              · refine ⟨k0, st0, ?_, hz0⟩
                rw [hmap.2.1 k0 hkc]
                exact hk0

/-- C7: the global device identity (device EID, device IID, additional device
info) is written only by the management instance's create — which, on the
successful path, sets it from the management overlay config — and by the
management instance's delete, which clears it to (empty, zero, none); every
non-management create, every modify, and every non-management delete leaves it
unchanged.  The generated tunnel metadata of every non-management instance
embeds the current device identity verbatim.  Each dispatched event preserves
well-keyedness of the status table and the invariant that a non-empty device
identity implies a stored management status. -/
theorem c7_device_identity (env : Env) (s : State) :
    (∀ key config, config.isZedmanager = false →
      identityOf (handleCreate env s key config).1 = identityOf s) ∧
    (∀ key config status0,
      identityOf (handleModify env s key config status0).1 = identityOf s) ∧
    (∀ key status0, status0.isZedmanager = false →
      identityOf (handleDelete env s key status0).1 = identityOf s) ∧
    (∀ key config, config.isZedmanager = true → config.olList.length = 1 →
      config.ulList.length = 0 →
      parseAddrOk (config.olList.head?.getD default).eid = true →
      identityOf (handleCreate env s key config).1 =
        ((config.olList.head?.getD default).eid,
         (config.olList.head?.getD default).mgmtIID,
         (config.olList.head?.getD default).additionalInfoDevice)) ∧
    (∀ key status0, status0.isZedmanager = true → status0.olList.length = 1 →
      status0.ulList.length = 0 →
      identityOf (handleDelete env s key status0).1 = ("", 0, none)) ∧
    (∀ status olConfig, status.isZedmanager = false →
      ∃ a, generateAdditionalInfo s status olConfig = AdditionalInfo.app a ∧
        a.deviceEID = s.deviceEID ∧ a.deviceIID = s.deviceIID) ∧
    (∀ ev, WellKeyed s.appStatuses → MgmtInv s →
      WellKeyed (step env s ev).1.appStatuses ∧ MgmtInv (step env s ev).1) := by
  refine ⟨fun key config hz => handleCreate_identity env s key config hz,
    fun key config status0 => handleModify_identity env s key config status0,
    fun key status0 hz => handleDelete_identity env s key status0 hz,
    fun key config hz h1 h0l he =>
      handleCreate_mgmt_sets_identity env s key config hz h1 h0l he,
    fun key status0 hz h1 h0l =>
      handleDelete_mgmt_clears_identity env s key status0 hz h1 h0l,
    fun status olConfig hzf => ?_,
    fun ev hw hm => step_wellKeyed_mgmtInv env s ev hw hm⟩
  refine ⟨{ deviceEID := s.deviceEID, deviceIID := s.deviceIID,
            displayName := status.displayName,
            underlayIP := (s.additionalInfoDevice.map
              AdditionalInfoDevice.underlayIP).getD "",
            hostname := (s.additionalInfoDevice.map
              AdditionalInfoDevice.hostname).getD "" }, ?_, rfl, rfl⟩
  simp [generateAdditionalInfo, hzf]

/-- Witness: C7 instantiated at the base state — the non-management create of
appA keeps the (empty) identity, the management create of the mgmt instance
sets it to the overlay config's EID/IID/info, and a delete event preserves
well-keyedness and the management invariant. -/
theorem c7_device_identity_witness :
    identityOf (handleCreate exEnv exState "appA" exCfgU).1 =
      identityOf exState ∧
    identityOf (handleCreate exEnv exState "mgmt" exCfgMgmtGood).1 =
      ((exCfgMgmtGood.olList.head?.getD default).eid,
       (exCfgMgmtGood.olList.head?.getD default).mgmtIID,
       (exCfgMgmtGood.olList.head?.getD default).additionalInfoDevice) ∧
    (WellKeyed (step exEnv exState (ConfigEvent.delete "zz")).1.appStatuses ∧
     MgmtInv (step exEnv exState (ConfigEvent.delete "zz")).1) :=
  ⟨(c7_device_identity exEnv exState).1 "appA" exCfgU rfl,
   (c7_device_identity exEnv exState).2.2.2.1 "mgmt" exCfgMgmtGood rfl rfl rfl
     (by decide),
   (c7_device_identity exEnv exState).2.2.2.2.2.2 (ConfigEvent.delete "zz")
     (by intro p hp; simp [exState] at hp)
     (by intro hne; simp [exState, identityOf] at hne)⟩

end Zedrouter
